import Mathlib

/-!
# appBarberos: the available-slot engine and the availability re-check

A shallow embedding of the booking controller (`generateSmartSlots`,
`getAvailableSlots`, `getDayOfWeek`, `createBooking` of
src/controllers/bookingController.js), of `Appointment.checkAvailability` and
`Appointment.getTodayAppointments` (src/models/Appointment.js) and of the dashboard
writes `createAppointment` and `updateAppointment`
(src/controllers/dashboardController.js), with the properties proved about them.

Conventions of the embedding.

* A JavaScript string is the list of its UTF-16 code units (`JsStr`); `<` and `>`
  on strings are the lexicographic comparison of those lists (`strLt`).
* A `Date` built as `new Date("2000-01-01T" + hora)` is the number of minutes
  after the local midnight of 2000-01-01.  The TIME values of the store carry whole
  minutes; they reach the code as the text `HH:MM` or `HH:MM:SS` (type `Hora`).
  `serviceDuration * 60000` milliseconds are `serviceDuration` minutes.
* `x || 5` on a number that may be missing is `orDefault x 5`: a missing value and
  `0` both give the right-hand side.
* Durations, prices and buffers are whole numbers from zero up.
* A table is the list of its rows; a join of two tables is the list of the pairs of
  rows that meet its condition; a controller is a function from the tables and the
  request to the tables afterwards and the answer.  Failures of the database itself
  are not modelled.
-/

namespace Barberos

/-! ## Strings and times -/

/-- A JavaScript string, as the list of its UTF-16 code units. -/
abbrev JsStr := List Nat

/-- JavaScript `a < b` on strings: lexicographic on the code units, a proper prefix
is smaller than the longer string. -/
def strLt : JsStr → JsStr → Bool
  | [], [] => false
  | [], _ :: _ => true
  | _ :: _, [] => false
  | a :: as, b :: bs => decide (a < b) || (decide (a = b) && strLt as bs)

/-- Two decimal digits of a number below 100, as code units (`'0'` is 48). -/
def pad2 (n : Nat) : JsStr := [48 + n / 10, 48 + n % 10]

/-- The value `date.toTimeString().slice(0, 5)`, the text `HH:MM` of the local time
of day, for the Date `t` minutes after the local midnight of 2000-01-01. -/
def toTimeString5 (t : Nat) : JsStr := pad2 (t / 60 % 24) ++ [58] ++ pad2 (t % 60)

/-- A TIME value of the store as it reaches the code: the text `HH:MM`, or
`HH:MM:00` when `secs` is set (the form the database driver returns). -/
structure Hora where
  hh : Fin 24
  mm : Fin 60
  secs : Bool
deriving DecidableEq, Repr

/-- The text of a TIME value. -/
def Hora.str (h : Hora) : JsStr :=
  pad2 h.hh.val ++ [58] ++ pad2 h.mm.val ++ (if h.secs then [58, 48, 48] else [])

/-- The Date `new Date("2000-01-01T" + hora)`, in minutes after local midnight. -/
def dateOf (h : Hora) : Nat := h.hh.val * 60 + h.mm.val

/-- Minutes after midnight denoted by a text `HH:MM` (the reading of a slot bound). -/
def minutesOf : JsStr → Nat
  | [a, b, _, c, d] => ((a - 48) * 10 + (b - 48)) * 60 + ((c - 48) * 10 + (d - 48))
  | _ => 0

/-- JavaScript `x || dflt` for a number that may be missing: `undefined`, `null`
and `0` are falsy. -/
def orDefault (x : Option Nat) (dflt : Nat) : Nat :=
  match x with
  | some n => if n = 0 then dflt else n
  | none => dflt

/-- Decimal text of a number, as code units (the template-literal conversion). -/
def decimal (n : Nat) : JsStr := (Nat.toDigits 10 n).map Char.toNat

/-- Half-open intervals `[s1, e1)` and `[s2, e2)` overlap. -/
def overlaps (s1 e1 s2 e2 : Nat) : Prop := s1 < e2 ∧ s2 < e1

instance (s1 e1 s2 e2 : Nat) : Decidable (overlaps s1 e1 s2 e2) := by
  unfold overlaps; infer_instance

/-! ## Data model -/

/-- A row of `horarios_laborales` as selected by `getWorkingHours`. -/
structure WorkHour where
  hora_inicio : Hora
  hora_fin : Hora
  pausa_inicio : Option Hora
  pausa_fin : Option Hora
deriving DecidableEq, Repr

/-- The `estado` column of `turnos`. -/
inductive Estado where
  | reservado | confirmado | en_proceso | completado | cancelado | no_show
deriving DecidableEq, Repr

/-- A row of `turnos` (the columns the controllers read and write). -/
structure Turno where
  id : Nat
  id_usuario : Nat
  fecha : String
  hora_inicio : Hora
  hora_fin : Hora
  estado : Estado
  id_cliente : Nat := 0
  id_servicio : Nat := 0
  codigo_cancelacion : String := ""
deriving DecidableEq, Repr

/-- An element of the array returned by `generateSmartSlots`. -/
structure Slot where
  hora_inicio : JsStr
  hora_fin : JsStr
  disponible : Bool
  duracion : Nat
  tiempo_total : JsStr
deriving DecidableEq, Repr

/-- The `config` argument of `generateSmartSlots`, of which only `bufferTime` is read. -/
structure SlotConfig where
  bufferTime : Option Nat
deriving DecidableEq, Repr

/-! ## BookingController.generateSmartSlots -/

/-- The `isInBreak` test of the loop body: both break bounds present and the two
string comparisons `slotStart < pausa_fin`, `slotEndStr > pausa_inicio`. -/
def isInBreak (workHour : WorkHour) (slotStart slotEndStr : JsStr) : Bool :=
  match workHour.pausa_inicio, workHour.pausa_fin with
  | some pausa_inicio, some pausa_fin =>
      strLt slotStart pausa_fin.str && strLt pausa_inicio.str slotEndStr
  | _, _ => false

/-- The `isOccupied` test: some existing appointment has
`slotStartTime < appointmentEnd && slotEndTime > appointmentStart`. -/
def isOccupied (existingAppointments : List Turno) (currentTime slotEnd : Nat) : Bool :=
  existingAppointments.any fun appointment =>
    decide (currentTime < dateOf appointment.hora_fin) &&
      decide (slotEnd > dateOf appointment.hora_inicio)

/-- The object pushed for the candidate starting at `currentTime`. -/
def mkSlot (currentTime serviceDuration : Nat) : Slot :=
  { hora_inicio := toTimeString5 currentTime
    hora_fin := toTimeString5 (currentTime + serviceDuration)
    disponible := true
    duracion := serviceDuration
    tiempo_total := decimal serviceDuration ++ [32, 109, 105, 110] }

/-- The variables the `while` loop changes. -/
structure LoopState where
  currentTime : Nat
  slots : List Slot
deriving DecidableEq, Repr

/-- One evaluation of the loop condition and body for a working block: `none` when
the loop is left (condition false, or `break` because the candidate ends after the
block), otherwise the state after the body. -/
def whileStep (workHour : WorkHour) (existingAppointments : List Turno)
    (serviceDuration bufferTime endTime : Nat) (st : LoopState) : Option LoopState :=
  if st.currentTime < endTime then
    let slotStart := toTimeString5 st.currentTime
    let slotEnd := st.currentTime + serviceDuration
    let slotEndStr := toTimeString5 slotEnd
    if slotEnd > endTime then none
    else
      let slots :=
        if !isInBreak workHour slotStart slotEndStr then
          if !isOccupied existingAppointments st.currentTime slotEnd then
            st.slots ++ [mkSlot st.currentTime serviceDuration]
          else st.slots
        else st.slots
      some { currentTime := st.currentTime + serviceDuration + bufferTime, slots := slots }
  else none

/-- The `while` loop, run for at most `fuel` passes. -/
def whileLoop (workHour : WorkHour) (existingAppointments : List Turno)
    (serviceDuration bufferTime endTime : Nat) : Nat → LoopState → LoopState
  | 0, st => st
  | fuel + 1, st =>
    match whileStep workHour existingAppointments serviceDuration bufferTime endTime st with
    | none => st
    | some st' =>
      whileLoop workHour existingAppointments serviceDuration bufferTime endTime fuel st'

/-- The body of `workingHours.forEach`: the loop of one block, started at the block
start with the slots collected so far.  The cursor grows by at least one minute per
pass and the loop is left once it reaches `endTime`, so `endTime - startTime` passes
are enough (`whileLoop_done`). -/
def forEachBody (existingAppointments : List Turno) (serviceDuration bufferTime : Nat)
    (slots : List Slot) (workHour : WorkHour) : List Slot :=
  let startTime := dateOf workHour.hora_inicio
  let endTime := dateOf workHour.hora_fin
  (whileLoop workHour existingAppointments serviceDuration bufferTime endTime
    (endTime - startTime) { currentTime := startTime, slots := slots }).slots

/-- The function `BookingController.generateSmartSlots`. -/
def generateSmartSlots (workingHours : List WorkHour) (existingAppointments : List Turno)
    (serviceDuration : Nat) (config : Option SlotConfig) : List Slot :=
  let bufferTime := orDefault (config.bind fun c => c.bufferTime) 5
  workingHours.foldl (forEachBody existingAppointments serviceDuration bufferTime) []

/-- The line `let interval = config.intervalo_turnos || 5` of `getAvailableSlots` and the
object `{ ...config, bufferTime: interval }` it hands to `generateSmartSlots`. -/
def intervalConfig (intervalo_turnos : Option Nat) : Option SlotConfig :=
  some { bufferTime := some (orDefault intervalo_turnos 5) }

/-! ## Appointment.checkAvailability -/

/-- The filter `estado NOT IN ('cancelado', 'no_show', 'completado')`. -/
def notInTerminal (estado : Estado) : Bool :=
  estado != Estado.cancelado && estado != Estado.no_show && estado != Estado.completado

/-- The three-case condition of the WHERE clause for a stored row `[a, b)` and the
requested window `[s, e)`, on TIME values in minutes:
`(hora_inicio <= s AND hora_fin > s) OR (hora_inicio >= s AND hora_inicio < e) OR
(hora_inicio < e AND hora_fin > s)`. -/
def conflictCondition (a b s e : Nat) : Bool :=
  (decide (a ≤ s) && decide (b > s)) || (decide (a ≥ s) && decide (a < e)) ||
    (decide (a < e) && decide (b > s))

/-- The function `Appointment.checkAvailability` over the rows of `turnos`: counts the
rows of the barber and date that are not in a filtered state, meet the conflict
condition and are not the excluded row (the clause `AND id != ?` is added only when
`exclude_id` is truthy), and answers `count === 0`. -/
def checkAvailability (turnos : List Turno) (id_usuario : Nat) (fecha : String)
    (hora_inicio hora_fin : Hora) (exclude_id : Option Nat) : Bool :=
  let count := (turnos.filter fun t =>
    decide (t.id_usuario = id_usuario) && decide (t.fecha = fecha) &&
    notInTerminal t.estado &&
    conflictCondition (dateOf t.hora_inicio) (dateOf t.hora_fin)
      (dateOf hora_inicio) (dateOf hora_fin) &&
    (match exclude_id with
      | some x => if x = 0 then true else decide (t.id ≠ x)
      | none => true)).length
  count == 0

/-! ## Auxiliary definitions for the proofs -/

/-- The candidate starting at `c` passes both tests of the loop body and is pushed. -/
def emits (workHour : WorkHour) (existingAppointments : List Turno)
    (serviceDuration c : Nat) : Bool :=
  !isInBreak workHour (toTimeString5 c) (toTimeString5 (c + serviceDuration)) &&
    !isOccupied existingAppointments c (c + serviceDuration)

/-- The slots pushed by at most `fuel` passes of the loop started at cursor `c`. -/
def gridSlots (workHour : WorkHour) (existingAppointments : List Turno)
    (serviceDuration bufferTime endTime : Nat) : Nat → Nat → List Slot
  | 0, _ => []
  | fuel + 1, c =>
    if c < endTime ∧ c + serviceDuration ≤ endTime then
      (if emits workHour existingAppointments serviceDuration c then
          [mkSlot c serviceDuration] else []) ++
        gridSlots workHour existingAppointments serviceDuration bufferTime endTime fuel
          (c + serviceDuration + bufferTime)
    else []

/-- The slots one working block contributes. -/
def blockSlots (existingAppointments : List Turno) (serviceDuration bufferTime : Nat)
    (workHour : WorkHour) : List Slot :=
  gridSlots workHour existingAppointments serviceDuration bufferTime (dateOf workHour.hora_fin)
    (dateOf workHour.hora_fin - dateOf workHour.hora_inicio) (dateOf workHour.hora_inicio)

/-- The break of a block, read as minutes, is hit by the candidate `[c, e)` in the
way the string comparison decides it: with a bound `HH:MM` the strict test
`c < pausa_fin`, with a bound `HH:MM:SS` the test `c ≤ pausa_fin`. -/
def breakHit (workHour : WorkHour) (c e : Nat) : Prop :=
  match workHour.pausa_inicio, workHour.pausa_fin with
  | some pausa_inicio, some pausa_fin =>
      (if pausa_fin.secs then c ≤ dateOf pausa_fin else c < dateOf pausa_fin) ∧
        dateOf pausa_inicio < e
  | _, _ => False

/-! ## Sample data -/

/-- A block 09:00-17:00 with the break 13:00-14:00. -/
def bloqueDia : WorkHour :=
  { hora_inicio := ⟨9, 0, true⟩, hora_fin := ⟨17, 0, true⟩,
    pausa_inicio := some ⟨13, 0, true⟩, pausa_fin := some ⟨14, 0, true⟩ }

/-- A block 09:00-12:00 without a break. -/
def bloqueManana : WorkHour :=
  { hora_inicio := ⟨9, 0, true⟩, hora_fin := ⟨12, 0, true⟩,
    pausa_inicio := none, pausa_fin := none }

/-- A block 12:00-16:00 with the break 13:00-14:00, all bounds as the store returns
them (`HH:MM:SS`). -/
def bloqueTarde : WorkHour :=
  { hora_inicio := ⟨12, 0, true⟩, hora_fin := ⟨16, 0, true⟩,
    pausa_inicio := some ⟨13, 0, true⟩, pausa_fin := some ⟨14, 0, true⟩ }

/-- The same block with the break bounds written `HH:MM`. -/
def bloqueTardeCorto : WorkHour :=
  { hora_inicio := ⟨12, 0, true⟩, hora_fin := ⟨16, 0, true⟩,
    pausa_inicio := some ⟨13, 0, false⟩, pausa_fin := some ⟨14, 0, false⟩ }

/-- Two blocks of the same day that overlap: 09:00-10:00 and 09:15-10:00. -/
def bloquesSolapados : List WorkHour :=
  [ { hora_inicio := ⟨9, 0, true⟩, hora_fin := ⟨10, 0, true⟩,
      pausa_inicio := none, pausa_fin := none },
    { hora_inicio := ⟨9, 15, true⟩, hora_fin := ⟨10, 0, true⟩,
      pausa_inicio := none, pausa_fin := none } ]

/-- A reserved appointment 10:05-11:05 of barber 1. -/
def turnoDiez : Turno :=
  { id := 1, id_usuario := 1, fecha := "2024-12-16", hora_inicio := ⟨10, 5, true⟩,
    hora_fin := ⟨11, 5, true⟩, estado := Estado.reservado }

/-! ## The states listed as pending -/

/-- The filter `estado IN ('reservado', 'confirmado', 'en_proceso')`. -/
def inPendingStates (estado : Estado) : Bool :=
  estado == Estado.reservado || estado == Estado.confirmado || estado == Estado.en_proceso

/-- Two blocks configured with the later one first: 12:00-16:00, then 09:00-12:00. -/
def bloquesDesordenados : List WorkHour := [bloqueTardeCorto, bloqueManana]

/-! ## BookingController.getDayOfWeek

`Date.UTC` and `getUTCDay` follow ECMAScript: day numbers are counted from 1970-01-01,
`/` and `%` on `Int` round down for a positive divisor. -/

/-- The value `s.split('-')`. -/
def splitDash (s : JsStr) : List JsStr := s.splitOn 45

/-- The value `Number(s)` for a text of decimal digits (the empty text gives 0); any
other text is read as `NaN` (`none`). -/
def jsNumber (s : JsStr) : Option Nat :=
  if s.all (fun c => decide (48 ≤ c) && decide (c ≤ 57)) then
    some (s.foldl (fun n c => 10 * n + (c - 48)) 0)
  else none

/-- ECMAScript `DayFromYear`: the day number of January 1st of year `y`. -/
def dayFromYear (y : Int) : Int :=
  365 * (y - 1970) + (y - 1969) / 4 - (y - 1901) / 100 + (y - 1601) / 400

/-- ECMAScript `InLeapYear` (`DaysInYear` is 366). -/
def inLeapYear (y : Int) : Bool :=
  if y % 4 ≠ 0 then false
  else if y % 100 ≠ 0 then true
  else if y % 400 ≠ 0 then false
  else true

/-- Day within the year of the first day of month `mn` (0 = January). -/
def monthStart (mn : Int) (leap : Bool) : Int :=
  let l : Int := if leap then 1 else 0
  if mn = 0 then 0
  else if mn = 1 then 31
  else if mn = 2 then 59 + l
  else if mn = 3 then 90 + l
  else if mn = 4 then 120 + l
  else if mn = 5 then 151 + l
  else if mn = 6 then 181 + l
  else if mn = 7 then 212 + l
  else if mn = 8 then 243 + l
  else if mn = 9 then 273 + l
  else if mn = 10 then 304 + l
  else 334 + l

/-- ECMAScript `MakeDay(year, month, date)`: months outside 0..11 carry into the year. -/
def makeDay (year month date : Int) : Int :=
  let ym := year + month / 12
  let mn := month % 12
  dayFromYear ym + monthStart mn (inLeapYear ym) + date - 1

/-- ECMAScript `MakeFullYear`: a year from 0 to 99 means 1900 + year. -/
def makeFullYear (y : Int) : Int := if 0 ≤ y ∧ y ≤ 99 then 1900 + y else y

/-- The value `Date.UTC(year, month, date)` as a day number; `none` is `NaN`, which
`TimeClip` gives beyond 100 000 000 days from the epoch. -/
def dateUTC (year month date : Int) : Option Int :=
  let day := makeDay (makeFullYear year) month date
  if day.natAbs ≤ 100000000 then some day else none

/-- ECMAScript `WeekDay`, the value of `getUTCDay()`: 0 is Sunday. -/
def weekDay (day : Int) : Nat := ((day + 4) % 7).toNat

/-- The array `days` of `getDayOfWeek`. -/
def days : List String :=
  ["domingo", "lunes", "martes", "miercoles", "jueves", "viernes", "sabado"]

/-- The function `BookingController.getDayOfWeek`; `none` is `undefined`, the result
when a part of the date is not a number or the Date is invalid. -/
def getDayOfWeek (fecha : JsStr) : Option String :=
  match (splitDash fecha).map jsNumber with
  | some year :: some month :: some day :: _ =>
    match dateUTC (year : Int) ((month : Int) - 1) (day : Int) with
    | some t => days[weekDay t]?
    | none => none
  | _ => none

/-- The text `YYYY-MM-DD` of a date. -/
def fechaText (y m d : Nat) : JsStr :=
  [48 + y / 1000, 48 + y / 100 % 10, 48 + y / 10 % 10, 48 + y % 10] ++ [45] ++ pad2 m ++
    [45] ++ pad2 d

/-! ### The proleptic Gregorian calendar, as the specification words it -/

/-- Leap years of the Gregorian calendar: divisible by 4, except the centuries not
divisible by 400. -/
def gregorianLeap (y : Nat) : Bool := (y % 4 = 0 && y % 100 ≠ 0) || y % 400 = 0

/-- Number of days of month `m` (1 = January) in year `y`. -/
def gregorianMonthLength (y m : Nat) : Nat :=
  if m = 2 then (if gregorianLeap y then 29 else 28)
  else if m = 4 ∨ m = 6 ∨ m = 9 ∨ m = 11 then 30
  else 31

/-- A valid calendar date written with a four-digit year. -/
def validDate (y m d : Nat) : Prop :=
  y ≤ 9999 ∧ 1 ≤ m ∧ m ≤ 12 ∧ 1 ≤ d ∧ d ≤ gregorianMonthLength y m

/-- Days in the years `0 .. y - 1`, counted year by year. -/
def gregorianDaysBeforeYear : Nat → Nat
  | 0 => 0
  | y + 1 => gregorianDaysBeforeYear y + (if gregorianLeap y then 366 else 365)

/-- Days in the months `1 .. m` of year `y`, counted month by month. -/
def gregorianDaysThroughMonth (y : Nat) : Nat → Nat
  | 0 => 0
  | m + 1 => gregorianDaysThroughMonth y m + gregorianMonthLength y (m + 1)

/-- Number of the day `y-m-d`, counting 0000-01-01 as day 1. -/
def gregorianDayNumber (y m d : Nat) : Nat :=
  gregorianDaysBeforeYear y + gregorianDaysThroughMonth y (m - 1) + d

/-- Weekday of a date in the proleptic Gregorian calendar, 0 = Sunday: days follow
each other in a cycle of seven and 2000-01-01 was a Saturday. -/
def gregorianWeekday (y m d : Nat) : Nat :=
  (((gregorianDayNumber y m d : Int) - (gregorianDayNumber 2000 1 1 : Int) + 6) % 7).toNat

/-! ## BookingController.getAvailableSlots

The tables are lists of rows; a query that selects one row takes the first match. -/

/-- A row of `usuarios`. -/
structure Usuario where
  id : Nat
  nombre : String
  apellido : String
  nombre_barberia : Option String
  rol : String
  estado : String
deriving DecidableEq, Repr

/-- A row of `servicios`; `duracion` (minutes) and `precio` are taken as whole numbers
from zero up. -/
structure Servicio where
  id : Nat
  id_usuario : Nat
  duracion : Nat
  precio : Nat
  estado : String
deriving DecidableEq, Repr

/-- A row of `horarios_laborales`. -/
structure HorarioLaboral where
  id : Nat
  id_usuario : Nat
  dia_semana : String
  estado : String
  horas : WorkHour
deriving DecidableEq, Repr

/-- A row of `dias_especiales`. -/
structure DiaEspecial where
  id_usuario : Nat
  fecha : String
  tipo : String
  descripcion : Option String
  todo_dia : Bool
  hora_inicio : Option Hora
  hora_fin : Option Hora
deriving DecidableEq, Repr

/-- A row of `configuracion_barbero` (the column the slot engine reads). -/
structure ConfiguracionBarbero where
  id_usuario : Nat
  intervalo_turnos : Option Nat
deriving DecidableEq, Repr

/-- A row of `clientes`. -/
structure Cliente where
  id : Nat
  nombre : String
  apellido : String
  email : Option String
  telefono : Option String
  notas : Option String
  fecha_nacimiento : Option String
  total_visitas : Nat
deriving DecidableEq, Repr

/-- The tables the controllers read and write. -/
structure Store where
  usuarios : List Usuario
  servicios : List Servicio
  horarios_laborales : List HorarioLaboral
  dias_especiales : List DiaEspecial
  configuracion_barbero : List ConfiguracionBarbero
  turnos : List Turno
  clientes : List Cliente
deriving DecidableEq, Repr

/-! ## Appointment.getTodayAppointments -/

/-- The function `Appointment.getTodayAppointments` over the tables: the rows of
`turnos t JOIN clientes c ON t.id_cliente = c.id JOIN servicios s ON t.id_servicio = s.id`
of the barber and date in one of the three listed states, `ORDER BY t.hora_inicio ASC`.
A row of `turnos` comes once for every pair of a client row and a service row it joins,
and not at all when it has no client row or no service row. -/
def getTodayAppointments (turnos : List Turno) (clientes : List Cliente)
    (servicios : List Servicio) (id_usuario : Nat) (fecha : String) : List Turno :=
  ((turnos.flatMap fun t =>
      (clientes.filter fun c => t.id_cliente == c.id).flatMap fun _ =>
        (servicios.filter fun s => t.id_servicio == s.id).map fun _ => t).filter fun t =>
    decide (t.id_usuario = id_usuario) && decide (t.fecha = fecha) &&
      inPendingStates t.estado).insertionSort
    (fun a b => dateOf a.hora_inicio ≤ dateOf b.hora_inicio)

/-- The query parameters of `getAvailableSlots`; a missing or empty parameter is
`none` for the three ids. -/
structure SlotsQuery where
  fecha : Option String
  servicio_id : Option Nat
  exclude_id : Option Nat
  barbero_id : Option Nat
deriving DecidableEq, Repr

/-- The `barbero` object of the answers of `getAvailableSlots`. -/
structure BarberoInfo where
  id : Nat
  nombre : String
  barberia : String
  rol : String
deriving DecidableEq, Repr

/-- An answer of `getAvailableSlots`: HTTP status and the JSON body. -/
structure SlotsResponse where
  status : Nat
  success : Bool
  data : List Slot
  message : Option String
  barbero : Option BarberoInfo
deriving DecidableEq, Repr

/-- The code units of a text. -/
def unitsOf (s : String) : JsStr := s.toList.map Char.toNat

/-- JavaScript `x || dflt` on texts: `null` and the empty text are falsy. -/
def orText (x : Option String) (dflt : String) : String :=
  match x with
  | some s => if s = "" then dflt else s
  | none => dflt

/-- The WHERE clause `(u.rol = 'barbero' OR u.rol = 'admin') AND u.estado = 'activo'`. -/
def esBarberoActivo (u : Usuario) : Bool :=
  (u.rol == "barbero" || u.rol == "admin") && u.estado == "activo"

/-- The column `COUNT(DISTINCT s.id)` of `getMainBarber` for a user. -/
def serviciosCount (store : Store) (u : Usuario) : Nat :=
  ((store.servicios.filter fun s => s.id_usuario == u.id && s.estado == "activo").map
    fun s => s.id).dedup.length

/-- The column `COUNT(DISTINCT h.id)` of `getMainBarber` for a user. -/
def horariosCount (store : Store) (u : Usuario) : Nat :=
  ((store.horarios_laborales.filter fun h => h.id_usuario == u.id && h.estado == "activo").map
    fun h => h.id).dedup.length

/-- The function `getMainBarber`: the active barber or admin first in the order
`servicios_count DESC, horarios_count DESC` (among equals, the first of the table). -/
def getMainBarber (store : Store) : Option Usuario :=
  (store.usuarios.filter esBarberoActivo).foldl
    (fun best u =>
      match best with
      | none => some u
      | some b =>
        if serviciosCount store b < serviciosCount store u ∨
            (serviciosCount store b = serviciosCount store u ∧
              horariosCount store b < horariosCount store u) then some u
        else some b)
    none

/-- The barber `getAvailableSlots` works for: the active barber or admin with the id
`barbero_id` when one is given and found, otherwise the main barber. -/
def resolveBarbero (store : Store) (barbero_id : Option Nat) : Option Usuario :=
  let barbero :=
    match barbero_id with
    | some id => (store.usuarios.filter fun u => u.id == id && esBarberoActivo u).head?
    | none => none
  match barbero with
  | some b => some b
  | none => getMainBarber store

/-- The object `barbero` of the answers. -/
def barberoInfo (barbero : Usuario) : BarberoInfo :=
  { id := barbero.id
    nombre := barbero.nombre ++ " " ++ barbero.apellido
    barberia := orText barbero.nombre_barberia "Barbería"
    rol := orText (some barbero.rol) "barbero" }

/-- The function `checkSpecialDay`: the first row of `dias_especiales` for the barber
and date, or `null`. -/
def checkSpecialDay (store : Store) (id_usuario : Nat) (fecha : String) : Option DiaEspecial :=
  (store.dias_especiales.filter fun e => e.id_usuario == id_usuario && e.fecha == fecha).head?

/-- The value `config.intervalo_turnos` of `getBarberConfig`: the barber's row, or the
default configuration with `intervalo_turnos: 5` when there is none. -/
def getBarberConfig (store : Store) (id_usuario : Nat) : Option Nat :=
  match (store.configuracion_barbero.filter fun c => c.id_usuario == id_usuario).head? with
  | some c => c.intervalo_turnos
  | none => some 5

/-- The function `getWorkingHours`; a weekday that is `undefined` selects no row. -/
def getWorkingHours (store : Store) (id_usuario : Nat) (dia_semana : Option String) :
    List WorkHour :=
  match dia_semana with
  | some dia =>
    (store.horarios_laborales.filter fun h =>
      h.id_usuario == id_usuario && h.dia_semana == dia && h.estado == "activo").map
      fun h => h.horas
  | none => []

/-- The duration `getAvailableSlots` uses: the stored `duracion` of the active service
with the id `servicio_id`, 30 when no id is given or no such service is found. -/
def serviceDurationOf (store : Store) (servicio_id : Option Nat) : Nat :=
  match servicio_id with
  | some id =>
    match (store.servicios.filter fun s => s.id == id && s.estado == "activo").head? with
    | some servicio => servicio.duracion
    | none => 30
  | none => 30

/-- The function `BookingController.getAvailableSlots`. -/
def getAvailableSlots (store : Store) (q : SlotsQuery) : SlotsResponse :=
  match q.fecha with
  | none =>
    { status := 400, success := false, data := [], message := some "La fecha es requerida",
      barbero := none }
  | some fecha =>
    if fecha = "" then
      { status := 400, success := false, data := [], message := some "La fecha es requerida",
        barbero := none }
    else
      match resolveBarbero store q.barbero_id with
      | none =>
        { status := 404, success := false, data := [],
          message := some "No hay barberos o administradores disponibles en este momento",
          barbero := none }
      | some barbero =>
        match checkSpecialDay store barbero.id fecha with
        | some specialDay =>
          { status := 200, success := true, data := [],
            message := some ("No hay horarios disponibles: " ++
              orText specialDay.descripcion specialDay.tipo),
            barbero := some (barberoInfo barbero) }
        | none =>
          let intervalo_turnos := getBarberConfig store barbero.id
          let serviceDuration := serviceDurationOf store q.servicio_id
          let dayOfWeek := getDayOfWeek (unitsOf fecha)
          let workingHours := getWorkingHours store barbero.id dayOfWeek
          if workingHours.isEmpty then
            { status := 200, success := true, data := [],
              message := some ("No hay horarios laborales configurados para " ++
                barbero.nombre ++ " en este día de la semana"),
              barbero := some (barberoInfo barbero) }
          else
            let existingAppointments :=
              match q.exclude_id with
              | some x =>
                (getTodayAppointments store.turnos store.clientes store.servicios barbero.id
                  fecha).filter fun app =>
                  app.id != x
              | none =>
                getTodayAppointments store.turnos store.clientes store.servicios barbero.id fecha
            { status := 200, success := true,
              data := generateSmartSlots workingHours existingAppointments serviceDuration
                (intervalConfig intervalo_turnos),
              message := none,
              barbero := some (barberoInfo barbero) }

/-- A store with one barber, working Mondays 09:00-12:00, whose service 7 has the
stored duration 0. -/
def tiendaDuracionCero : Store :=
  { usuarios := [⟨1, "Ana", "Paz", none, "barbero", "activo"⟩]
    servicios := [⟨7, 1, 0, 100, "activo"⟩]
    horarios_laborales := [⟨1, 1, "lunes", "activo", bloqueManana⟩]
    dias_especiales := []
    configuracion_barbero := [⟨1, some 60⟩]
    turnos := []
    clientes := [] }

/-- The same store with a holiday recorded for 2024-12-16, without a description. -/
def tiendaFeriado : Store :=
  { tiendaDuracionCero with
    dias_especiales := [⟨1, "2024-12-16", "feriado", some "", true, none, none⟩] }

/-! ## BookingController.createBooking -/

/-- The body of a booking request; a missing text is the empty text. -/
structure BookingRequest where
  nombre : String
  apellido : String
  email : Option String
  telefono : String
  servicio : Option Nat
  fecha : String
  hora : Option Hora
  comentarios : Option String
deriving DecidableEq, Repr

/-- The argument of `Client.findOrCreateByPhone`. -/
structure ClientData where
  nombre : String
  apellido : String
  email : Option String
  telefono : String
  notas : Option String
  fecha_nacimiento : Option String := none
deriving DecidableEq, Repr

/-- What `createBooking` takes from outside the tables.  The three validators
(`isValidDate`, `isValidEmail`, the comparison `selectedDate < today`), the client
lookup `Client.findOrCreateByPhone` (new `clientes` table and the client, `none` when it
throws) and the successive values of the random code expression are parameters: the
properties below hold whatever they are. -/
structure BookingEnv where
  isValidDate : String → Bool
  isValidEmail : String → Bool
  isPastDate : String → Bool
  findOrCreateByPhone : List Cliente → ClientData → List Cliente × Option Cliente
  randomCodes : List String

/-- The `data` object of a successful booking answer (the fields of the appointment). -/
structure BookingData where
  appointment_id : Nat
  confirmationCode : String
  fecha : String
  hora_inicio : Hora
  hora_fin : JsStr
deriving DecidableEq, Repr

/-- An answer of `createBooking`: HTTP status and the JSON body. -/
structure BookingResponse where
  status : Nat
  success : Bool
  message : String
  data : Option BookingData
deriving DecidableEq, Repr

/-- The TIME value the store keeps for the text `HH:MM`, as it is read back. -/
def storedTime (s : JsStr) : Hora :=
  { hh := Fin.ofNat (minutesOf s / 60), mm := Fin.ofNat (minutesOf s % 60), secs := true }

/-- The function `getServiceInfoById`: the active service with that id, or `null`. -/
def getServiceInfoById (store : Store) (serviceId : Nat) : Option Servicio :=
  (store.servicios.filter fun s => s.id == serviceId && s.estado == "activo").head?

/-- The function `Appointment.generateCancelCode`: the first random code that no row of
`turnos` carries; `none` when none of the codes drawn is free (the loop goes on). -/
def generateCancelCode (turnos : List Turno) (randomCodes : List String) : Option String :=
  randomCodes.find? fun code =>
    (turnos.filter fun t => t.codigo_cancelacion == code).length == 0

/-- The `insertId` of a new row of `turnos`. -/
def nextId (turnos : List Turno) : Nat := (turnos.map fun t => t.id).foldl max 0 + 1

/-- The function `Client.incrementVisits`. -/
def incrementVisits (clientes : List Cliente) (id : Nat) : List Cliente :=
  clientes.map fun c => if c.id = id then { c with total_visitas := c.total_visitas + 1 } else c

/-- The characters `String.prototype.trim` removes: the WhiteSpace and LineTerminator
code points of ECMAScript (tab, line feed, vertical tab, form feed, carriage return,
space, no-break space, the other space separators, line and paragraph separator, and
U+FEFF). -/
def jsWhiteSpace (c : Char) : Bool :=
  [0x9, 0xA, 0xB, 0xC, 0xD, 0x20, 0xA0, 0x1680, 0x2028, 0x2029, 0x202F, 0x205F, 0x3000,
    0xFEFF].contains c.toNat || (decide (0x2000 ≤ c.toNat) && decide (c.toNat ≤ 0x200A))

/-- The value `s.trim()`: the text without the white space at its two ends. -/
def jsTrim (s : String) : String :=
  String.mk ((((s.toList.dropWhile jsWhiteSpace).reverse).dropWhile jsWhiteSpace).reverse)

/-- The test `email && !BookingController.isValidEmail(email)`. -/
def emailRejected (env : BookingEnv) (req : BookingRequest) : Bool :=
  match req.email with
  | some email => email != "" && !env.isValidEmail email
  | none => false

/-- The object `clientData` of `createBooking`: the texts trimmed, a missing or empty
email or comment as `null`. -/
def clientDataOf (req : BookingRequest) : ClientData :=
  { nombre := jsTrim req.nombre
    apellido := jsTrim req.apellido
    email := match req.email with
      | some email => if email = "" then none else some (jsTrim email)
      | none => none
    telefono := jsTrim req.telefono
    notas := match req.comentarios with
      | some c => if c = "" then none else some (jsTrim c)
      | none => none }

/-- The function `BookingController.createBooking`: the tables after the request and
the answer (`none` when the request is never answered). -/
def createBooking (env : BookingEnv) (store : Store) (req : BookingRequest) :
    Store × Option BookingResponse :=
  match req.servicio, req.hora with
  | some servicio, some hora =>
    if req.nombre = "" ∨ req.apellido = "" ∨ req.telefono = "" ∨ servicio = 0 ∨
        req.fecha = "" then
      (store, some ⟨400, false, "Todos los campos obligatorios deben estar completos", none⟩)
    else if !env.isValidDate req.fecha then
      (store, some ⟨400, false, "El formato de fecha no es válido", none⟩)
    else if emailRejected env req then
      (store, some ⟨400, false, "El formato del email no es válido", none⟩)
    else if env.isPastDate req.fecha then
      (store, some ⟨400, false, "No se pueden hacer reservas para fechas pasadas", none⟩)
    else
      match getServiceInfoById store servicio with
      | none => (store, some ⟨400, false, "El servicio seleccionado no está disponible", none⟩)
      | some serviceInfo =>
        let id_usuario := serviceInfo.id_usuario
        let serviceDuration := orDefault (some serviceInfo.duracion) 30
        let horaInicio := dateOf hora
        let horaFin := horaInicio + serviceDuration
        let horaFinStr := toTimeString5 horaFin
        let isAvailable :=
          checkAvailability store.turnos id_usuario req.fecha hora (storedTime horaFinStr) none
        if !isAvailable then
          (store, some ⟨400, false, "El horario seleccionado no está disponible", none⟩)
        else
          match env.findOrCreateByPhone store.clientes (clientDataOf req) with
          | (clientes, none) =>
            ({ store with clientes := clientes },
              some ⟨500, false, "Error interno del servidor al procesar la reserva", none⟩)
          | (clientes, some client) =>
            match generateCancelCode store.turnos env.randomCodes with
            | none => ({ store with clientes := clientes }, none)
            | some codigo_cancelacion =>
              if !env.isValidDate req.fecha then
                ({ store with clientes := clientes },
                  some ⟨500, false, "Error interno del servidor al procesar la reserva", none⟩)
              else
                let appointment : Turno :=
                  { id := nextId store.turnos
                    id_usuario := id_usuario
                    fecha := req.fecha
                    hora_inicio := { hora with secs := true }
                    hora_fin := storedTime horaFinStr
                    estado := Estado.reservado
                    id_cliente := client.id
                    id_servicio := serviceInfo.id
                    codigo_cancelacion := codigo_cancelacion }
                ({ store with
                    turnos := store.turnos ++ [appointment]
                    clientes := incrementVisits clientes client.id },
                  some ⟨201, true, "Reserva creada exitosamente",
                    some { appointment_id := appointment.id
                           confirmationCode := codigo_cancelacion
                           fecha := req.fecha
                           hora_inicio := hora
                           hora_fin := horaFinStr }⟩)
  | _, _ =>
    (store, some ⟨400, false, "Todos los campos obligatorios deben estar completos", none⟩)

/-! ## Dashboard: createAppointment and updateAppointment -/

/-- The body of the dashboard requests that create or update an appointment. -/
structure AppointmentBody where
  cliente_id : Option Nat
  servicio_id : Option Nat
  fecha : String
  hora_inicio : Option Hora
  estado : Option Estado
  notas : Option String
deriving DecidableEq, Repr

/-- An answer of the dashboard requests. -/
structure DashResponse where
  status : Nat
  success : Bool
  message : String
  id : Option Nat
  codigo_cancelacion : Option String
deriving DecidableEq, Repr

/-- The function `calcularHoraFin(hora_inicio, duracion)`: hours and minutes of
`hora_inicio`, `duracion` minutes added, as the text `HH:MM` of the time of day. -/
def calcularHoraFin (hora_inicio : Hora) (duracion : Nat) : JsStr :=
  toTimeString5 (hora_inicio.hh.val * 60 + (hora_inicio.mm.val + duracion))

/-- The dashboard function `createAppointment` for the logged-in user `userId`;
`randomCode` is the value of `generarCodigoCancelacion()`.  The second argument handed to
`calcularHoraFin` is `servicio[0].precio`. -/
def createAppointment (randomCode : String) (store : Store) (userId : Nat)
    (body : AppointmentBody) : Store × DashResponse :=
  match body.cliente_id, body.servicio_id, body.hora_inicio with
  | some cliente_id, some servicio_id, some hora_inicio =>
    if cliente_id = 0 ∨ servicio_id = 0 ∨ body.fecha = "" then
      (store, ⟨400, false, "Cliente, servicio, fecha y hora son requeridos", none, none⟩)
    else if (store.clientes.filter fun c => c.id == cliente_id).length = 0 then
      (store, ⟨400, false, "Cliente no encontrado", none, none⟩)
    else
      match (store.servicios.filter fun s => s.id == servicio_id && s.id_usuario == userId).head?
        with
      | none => (store, ⟨400, false, "Servicio no encontrado", none, none⟩)
      | some servicio =>
        let hora_fin := calcularHoraFin hora_inicio servicio.precio
        let codigo_cancelacion := randomCode
        let cita : Turno :=
          { id := nextId store.turnos
            id_usuario := userId
            fecha := body.fecha
            hora_inicio := { hora_inicio with secs := true }
            hora_fin := storedTime hora_fin
            estado := body.estado.getD Estado.reservado
            id_cliente := cliente_id
            id_servicio := servicio_id
            codigo_cancelacion := codigo_cancelacion }
        ({ store with turnos := store.turnos ++ [cita] },
          ⟨201, true, "Cita creada exitosamente", some cita.id, some codigo_cancelacion⟩)
  | _, _, _ => (store, ⟨400, false, "Cliente, servicio, fecha y hora son requeridos", none, none⟩)

/-- The dashboard function `updateAppointment` for the logged-in user `userId` and the
appointment `id`. -/
def updateAppointment (store : Store) (userId id : Nat) (body : AppointmentBody) :
    Store × DashResponse :=
  match body.cliente_id, body.servicio_id, body.hora_inicio with
  | some cliente_id, some servicio_id, some hora_inicio =>
    if cliente_id = 0 ∨ servicio_id = 0 ∨ body.fecha = "" then
      (store, ⟨400, false, "Cliente, servicio, fecha y hora son requeridos", none, none⟩)
    else if (store.turnos.filter fun t => t.id == id && t.id_usuario == userId).length = 0 then
      (store, ⟨404, false, "Cita no encontrada", none, none⟩)
    else if (store.clientes.filter fun c => c.id == cliente_id).length = 0 then
      (store, ⟨400, false, "Cliente no encontrado", none, none⟩)
    else
      match (store.servicios.filter fun s => s.id == servicio_id && s.id_usuario == userId).head?
        with
      | none => (store, ⟨400, false, "Servicio no encontrado", none, none⟩)
      | some servicio =>
        let hora_fin := calcularHoraFin hora_inicio servicio.precio
        ({ store with
            turnos := store.turnos.map fun t =>
              if t.id = id ∧ t.id_usuario = userId then
                { t with
                  fecha := body.fecha
                  hora_inicio := { hora_inicio with secs := true }
                  hora_fin := storedTime hora_fin
                  id_cliente := cliente_id
                  id_servicio := servicio_id
                  estado := body.estado.getD Estado.reservado }
              else t },
          ⟨200, true, "Cita actualizada exitosamente", none, none⟩)
  | _, _, _ => (store, ⟨400, false, "Cliente, servicio, fecha y hora son requeridos", none, none⟩)

/-- No two occupied appointments of the same barber and date overlap. -/
def noDoubleBooking (turnos : List Turno) : Prop :=
  turnos.Pairwise fun t1 t2 =>
    t1.id_usuario = t2.id_usuario → t1.fecha = t2.fecha →
    notInTerminal t1.estado = true → notInTerminal t2.estado = true →
    ¬ overlaps (dateOf t1.hora_inicio) (dateOf t1.hora_fin)
      (dateOf t2.hora_inicio) (dateOf t2.hora_fin)

instance (turnos : List Turno) : Decidable (noDoubleBooking turnos) := by
  unfold noDoubleBooking; infer_instance

/-- An environment whose validators accept everything, whose client lookup finds the
client by phone or adds a new one, and which draws the code K3X9QZ. -/
def entornoAbierto : BookingEnv :=
  { isValidDate := fun _ => true
    isValidEmail := fun _ => true
    isPastDate := fun _ => false
    findOrCreateByPhone := fun clientes data =>
      match clientes.find? fun c => c.telefono == some data.telefono with
      | some c => (clientes, some c)
      | none =>
        (clientes ++ [⟨clientes.length + 1, data.nombre, data.apellido, data.email,
            some data.telefono, data.notas, none, 0⟩],
          some ⟨clientes.length + 1, data.nombre, data.apellido, data.email,
            some data.telefono, data.notas, none, 0⟩)
    randomCodes := ["K3X9QZ"] }

/-- A store with barber 1, the 30-minute service 7 priced 30, the client 1 and the
reserved appointment 10:05-11:05 of barber 1 on 2024-12-16. -/
def tiendaConTurno : Store :=
  { usuarios := [⟨1, "Ana", "Paz", none, "barbero", "activo"⟩]
    servicios := [⟨7, 1, 30, 30, "activo"⟩]
    horarios_laborales := [⟨1, 1, "lunes", "activo", bloqueManana⟩]
    dias_especiales := []
    configuracion_barbero := []
    turnos := [turnoDiez]
    clientes := [⟨1, "Luis", "Rey", none, some "1122334455", none, none, 0⟩] }

/-- A booking request of Luis Rey for service 7 on 2024-12-16 at the given time. -/
def pedido (hora : Hora) : BookingRequest :=
  { nombre := "Luis", apellido := "Rey", email := none, telefono := "1122334455",
    servicio := some 7, fecha := "2024-12-16", hora := some hora, comentarios := none }

/-- The dashboard body asking for client 1, service 7, 2024-12-16 at 10:30. -/
def cuerpoDiezTreinta : AppointmentBody :=
  { cliente_id := some 1, servicio_id := some 7, fecha := "2024-12-16",
    hora_inicio := some ⟨10, 30, false⟩, estado := none, notas := none }

/-- The store `tiendaConTurno` with a second reserved appointment 12:00-12:30 of barber 1
on the same date. -/
def tiendaDosTurnos : Store :=
  { tiendaConTurno with
    turnos := [turnoDiez,
      { id := 2, id_usuario := 1, fecha := "2024-12-16", hora_inicio := ⟨12, 0, true⟩,
        hora_fin := ⟨12, 30, true⟩, estado := Estado.reservado }] }

/-- A confirmed appointment 14:00-15:00 of barber 1 on 2024-12-16. -/
def turnoCatorce : Turno :=
  { id := 2, id_usuario := 1, fecha := "2024-12-16", hora_inicio := ⟨14, 0, true⟩,
    hora_fin := ⟨15, 0, true⟩, estado := Estado.confirmado }

/-- The cancellation codes of the appointments are pairwise distinct. -/
def codigosDistintos (turnos : List Turno) : Prop :=
  (turnos.map fun t => t.codigo_cancelacion).Nodup

instance (turnos : List Turno) : Decidable (codigosDistintos turnos) := by
  unfold codigosDistintos; infer_instance

/-- The store `tiendaConTurno` with the code ABC123 on its appointment and the price of
service 7 set to 100 (its duration stays 30). -/
def tiendaPrecio : Store :=
  { tiendaConTurno with
    servicios := [⟨7, 1, 30, 100, "activo"⟩]
    turnos := [{ turnoDiez with codigo_cancelacion := "ABC123" }] }

/-- The appointment `turnoDiez` naming its client 1 and its service 7. -/
def turnoDiezCliente : Turno :=
  { turnoDiez with id_cliente := 1, id_servicio := 7 }

/-- The store `tiendaConTurno` whose appointment names the client 1 and the service 7,
rows that exist. -/
def tiendaIntegra : Store :=
  { tiendaConTurno with turnos := [turnoDiezCliente] }

/-- The store `tiendaConTurno` with, in place of its appointment, a reserved appointment
23:50-23:59 of barber 1 on 2024-12-16. -/
def tiendaNoche : Store :=
  { tiendaConTurno with
    turnos := [⟨1, 1, "2024-12-16", ⟨23, 50, true⟩, ⟨23, 59, true⟩, Estado.reservado, 1, 7,
      "N0CHE1"⟩] }

/-! ## Status changes: dashboard, cancellation by code, auto-completion -/

/-- The row `turno[0]` of `SELECT id, estado FROM turnos WHERE id = ? AND id_usuario = ?`. -/
def findTurno (store : Store) (id userId : Nat) : Option Turno :=
  (store.turnos.filter fun t => t.id == id && t.id_usuario == userId).head?

/-- The statement `UPDATE turnos SET estado = ? WHERE id = ? AND id_usuario = ?`. -/
def setEstado (store : Store) (id userId : Nat) (estado : Estado) : Store :=
  { store with
    turnos := store.turnos.map fun t =>
      if t.id = id ∧ t.id_usuario = userId then { t with estado := estado } else t }

/-- The dashboard function `confirmAppointment`. -/
def confirmAppointment (store : Store) (userId id : Nat) : Store × DashResponse :=
  match findTurno store id userId with
  | none => (store, ⟨404, false, "Turno no encontrado", none, none⟩)
  | some turno =>
    if turno.estado = Estado.confirmado then
      (store, ⟨400, false, "El turno ya está confirmado", none, none⟩)
    else
      (setEstado store id userId Estado.confirmado,
        ⟨200, true, "Turno confirmado exitosamente", none, none⟩)

/-- The dashboard function `cancelAppointment`. -/
def cancelAppointment (store : Store) (userId id : Nat) : Store × DashResponse :=
  match findTurno store id userId with
  | none => (store, ⟨404, false, "Turno no encontrado", none, none⟩)
  | some turno =>
    if turno.estado = Estado.cancelado then
      (store, ⟨400, false, "El turno ya está cancelado", none, none⟩)
    else if turno.estado = Estado.completado then
      (store, ⟨400, false, "No se puede cancelar un turno completado", none, none⟩)
    else
      (setEstado store id userId Estado.cancelado,
        ⟨200, true, "Turno cancelado exitosamente", none, none⟩)

/-- The dashboard function `completeAppointment`. -/
def completeAppointment (store : Store) (userId id : Nat) : Store × DashResponse :=
  match findTurno store id userId with
  | none => (store, ⟨404, false, "Turno no encontrado", none, none⟩)
  | some turno =>
    if turno.estado = Estado.completado then
      (store, ⟨400, false, "El turno ya está completado", none, none⟩)
    else if turno.estado = Estado.cancelado then
      (store, ⟨400, false, "No se puede completar un turno cancelado", none, none⟩)
    else
      (setEstado store id userId Estado.completado,
        ⟨200, true, "Turno marcado como completado exitosamente", none, none⟩)

/-- The dashboard function `updateAppointmentStatus`; `estado` is `none` when the text
sent is not one of the six valid states. -/
def updateAppointmentStatus (store : Store) (userId id : Nat) (estado : Option Estado) :
    Store × DashResponse :=
  match estado with
  | none => (store, ⟨400, false, "Estado no válido", none, none⟩)
  | some estado =>
    if (store.turnos.filter fun t => t.id == id && t.id_usuario == userId).length = 0 then
      (store, ⟨404, false, "Cita no encontrada", none, none⟩)
    else
      (setEstado store id userId estado,
        ⟨200, true, "Estado de cita actualizado exitosamente", none, none⟩)

/-- The function `Appointment.findByCancelCode`: the first appointment with that code
whose client and service exist (the query joins both tables). -/
def findByCancelCode (store : Store) (codigo_cancelacion : String) : Option Turno :=
  (store.turnos.filter fun t =>
    t.codigo_cancelacion == codigo_cancelacion &&
      store.clientes.any (fun c => c.id == t.id_cliente) &&
      store.servicios.any (fun s => s.id == t.id_servicio)).head?

/-- The function `Appointment.cancelByCode`: the statement `UPDATE turnos SET estado =
'cancelado' WHERE codigo_cancelacion = ? AND estado IN ('reservado', 'confirmado')`, and
the appointment found by the code when a row was affected. -/
def cancelByCode (store : Store) (codigo_cancelacion : String) : Store × Option Turno :=
  let hit := fun (t : Turno) =>
    t.codigo_cancelacion == codigo_cancelacion &&
      (t.estado == Estado.reservado || t.estado == Estado.confirmado)
  let affectedRows := (store.turnos.filter hit).length
  let store' : Store :=
    { store with
      turnos := store.turnos.map fun t => if hit t then { t with estado := Estado.cancelado }
        else t }
  if affectedRows > 0 then (store', findByCancelCode store' codigo_cancelacion)
  else (store', none)

/-- The module-level object `appointmentCache` (the fields that are read). -/
structure AppointmentCache where
  lastUpdate : Option Nat
  pendingCount : Nat
deriving DecidableEq, Repr

/-- The current instant as the service reads it: `Date.now()` in milliseconds, the text
`currentDate.toISOString().split('T')[0]`, and the seconds since local midnight, of
which `currentDate.toTimeString().slice(0, 8)` is the text. -/
structure Instante where
  now : Nat
  currentDateStr : String
  segundos : Nat
deriving DecidableEq, Repr

/-- The value `date.toTimeString().slice(0, 8)`, the text `HH:MM:SS`. -/
def toTimeString8 (segundos : Nat) : JsStr :=
  pad2 (segundos / 3600 % 24) ++ [58] ++ pad2 (segundos / 60 % 60) ++ [58] ++
    pad2 (segundos % 60)

/-- The comparison `a <= b` of two date texts `YYYY-MM-DD`. -/
def fechaLe (a b : String) : Bool := !strLt (unitsOf b) (unitsOf a)

/-- The function `shouldUseCache`. -/
def shouldUseCache (cache : AppointmentCache) (now : Nat) : Bool :=
  match cache.lastUpdate with
  | none => false
  | some lastUpdate =>
    if lastUpdate = 0 then false
    else decide ((now : Int) - (lastUpdate : Int) < 3600000) && cache.pendingCount == 0

/-- The answer of `autoCompleteAppointments`. -/
structure AutoCompleteResult where
  success : Bool
  updatedCount : Nat
  appointments : List Turno
  fromCache : Bool
deriving DecidableEq, Repr

/-- The WHERE clause of the auto-completion query: `t.fecha <= ? AND t.hora_fin < ? AND
t.estado IN ('reservado', 'confirmado', 'en_proceso')`, with the current date text and
the current time of day. -/
def autoCompleteCondition (ahora : Instante) (t : Turno) : Bool :=
  fechaLe t.fecha ahora.currentDateStr && decide (dateOf t.hora_fin * 60 < ahora.segundos) &&
    inPendingStates t.estado

/-- The function `AppointmentService.autoCompleteAppointments`: the cache afterwards,
the tables afterwards and the answer. -/
def autoCompleteAppointments (cache : AppointmentCache) (store : Store) (ahora : Instante) :
    AppointmentCache × Store × AutoCompleteResult :=
  if shouldUseCache cache ahora.now then
    (cache, store, ⟨true, 0, [], true⟩)
  else
    let appointments :=
      ((store.turnos.filter (autoCompleteCondition ahora)).insertionSort fun a b =>
        strLt (unitsOf a.fecha) (unitsOf b.fecha) = true ∨
          (a.fecha = b.fecha ∧ dateOf a.hora_fin ≤ dateOf b.hora_fin)).take 50
    if appointments.length = 0 then
      (⟨some ahora.now, 0⟩, store, ⟨true, 0, [], false⟩)
    else
      let appointmentIds := appointments.map fun a => a.id
      (⟨some ahora.now, 0⟩,
        { store with
          turnos := store.turnos.map fun t =>
            if t.id ∈ appointmentIds then { t with estado := Estado.completado } else t },
        ⟨true, appointments.length, appointments, false⟩)

/-- The value `shouldComplete` of `AppointmentService.shouldAutoComplete`: `false` when
no appointment has the id. -/
def shouldAutoComplete (store : Store) (ahora : Instante) (appointmentId : Nat) : Bool :=
  match (store.turnos.filter fun t => t.id == appointmentId).head? with
  | none => false
  | some appointment =>
    fechaLe appointment.fecha ahora.currentDateStr &&
      strLt appointment.hora_fin.str (toTimeString8 ahora.segundos) &&
      inPendingStates appointment.estado

/-- A completed appointment of barber 1. -/
def turnoCompletado : Turno :=
  { id := 1, id_usuario := 1, fecha := "2024-12-14", hora_inicio := ⟨10, 0, true⟩,
    hora_fin := ⟨10, 30, true⟩, estado := Estado.completado, id_cliente := 1,
    id_servicio := 7, codigo_cancelacion := "AAA111" }

/-- A store with four appointments of barber 1: 1 completado, 2 cancelado, 3 confirmado
on 2024-12-15 ending 18:00, 4 reservado on 2024-12-16 ending 08:30. -/
def tiendaEstados : Store :=
  { tiendaConTurno with
    turnos :=
      [ turnoCompletado,
        { id := 2, id_usuario := 1, fecha := "2024-12-14", hora_inicio := ⟨11, 0, true⟩,
          hora_fin := ⟨11, 30, true⟩, estado := Estado.cancelado, id_cliente := 1,
          id_servicio := 7, codigo_cancelacion := "BBB222" },
        { id := 3, id_usuario := 1, fecha := "2024-12-15", hora_inicio := ⟨17, 30, true⟩,
          hora_fin := ⟨18, 0, true⟩, estado := Estado.confirmado, id_cliente := 1,
          id_servicio := 7, codigo_cancelacion := "CCC333" },
        { id := 4, id_usuario := 1, fecha := "2024-12-16", hora_inicio := ⟨8, 0, true⟩,
          hora_fin := ⟨8, 30, true⟩, estado := Estado.reservado, id_cliente := 1,
          id_servicio := 7, codigo_cancelacion := "DDD444" } ] }

/-- The instant 2024-12-16 09:00:00, for a server whose local date is the UTC date. -/
def lunesNueve : Instante :=
  { now := 1734339600000, currentDateStr := "2024-12-16", segundos := 32400 }

/-! ## createBooking in two steps, for requests served together -/

/-- What `createBooking` holds once `await Appointment.checkAvailability` has answered
true: the request, its `hora` and the service row. -/
structure BookingChecked where
  req : BookingRequest
  hora : Hora
  serviceInfo : Servicio
deriving DecidableEq, Repr

/-- The part of `createBooking` up to the answer of `await Appointment.checkAvailability`,
on the tables as they are then: the answer sent when the function returns there, or
what it goes on with. -/
def createBookingCheck (env : BookingEnv) (store : Store) (req : BookingRequest) :
    Except BookingResponse BookingChecked :=
  match req.servicio, req.hora with
  | some servicio, some hora =>
    if req.nombre = "" ∨ req.apellido = "" ∨ req.telefono = "" ∨ servicio = 0 ∨
        req.fecha = "" then
      .error ⟨400, false, "Todos los campos obligatorios deben estar completos", none⟩
    else if !env.isValidDate req.fecha then
      .error ⟨400, false, "El formato de fecha no es válido", none⟩
    else if emailRejected env req then
      .error ⟨400, false, "El formato del email no es válido", none⟩
    else if env.isPastDate req.fecha then
      .error ⟨400, false, "No se pueden hacer reservas para fechas pasadas", none⟩
    else
      match getServiceInfoById store servicio with
      | none => .error ⟨400, false, "El servicio seleccionado no está disponible", none⟩
      | some serviceInfo =>
        let id_usuario := serviceInfo.id_usuario
        let serviceDuration := orDefault (some serviceInfo.duracion) 30
        let horaInicio := dateOf hora
        let horaFin := horaInicio + serviceDuration
        let horaFinStr := toTimeString5 horaFin
        let isAvailable :=
          checkAvailability store.turnos id_usuario req.fecha hora (storedTime horaFinStr) none
        if !isAvailable then
          .error ⟨400, false, "El horario seleccionado no está disponible", none⟩
        else
          .ok ⟨req, hora, serviceInfo⟩
  | _, _ => .error ⟨400, false, "Todos los campos obligatorios deben estar completos", none⟩

/-- The part of `createBooking` after it, on the tables as they are then:
`Client.findOrCreateByPhone`, `Appointment.generateCancelCode`, `Appointment.create`,
`Client.incrementVisits` and the answer. -/
def createBookingWrite (env : BookingEnv) (store : Store) (c : BookingChecked) :
    Store × Option BookingResponse :=
  let horaFinStr := toTimeString5 (dateOf c.hora + orDefault (some c.serviceInfo.duracion) 30)
  match env.findOrCreateByPhone store.clientes (clientDataOf c.req) with
  | (clientes, none) =>
    ({ store with clientes := clientes },
      some ⟨500, false, "Error interno del servidor al procesar la reserva", none⟩)
  | (clientes, some client) =>
    match generateCancelCode store.turnos env.randomCodes with
    | none => ({ store with clientes := clientes }, none)
    | some codigo_cancelacion =>
      if !env.isValidDate c.req.fecha then
        ({ store with clientes := clientes },
          some ⟨500, false, "Error interno del servidor al procesar la reserva", none⟩)
      else
        let appointment : Turno :=
          { id := nextId store.turnos
            id_usuario := c.serviceInfo.id_usuario
            fecha := c.req.fecha
            hora_inicio := { c.hora with secs := true }
            hora_fin := storedTime horaFinStr
            estado := Estado.reservado
            id_cliente := client.id
            id_servicio := c.serviceInfo.id
            codigo_cancelacion := codigo_cancelacion }
        ({ store with
            turnos := store.turnos ++ [appointment]
            clientes := incrementVisits clientes client.id },
          some ⟨201, true, "Reserva creada exitosamente",
            some { appointment_id := appointment.id
                   confirmationCode := codigo_cancelacion
                   fecha := c.req.fecha
                   hora_inicio := c.hora
                   hora_fin := horaFinStr }⟩)

/-- Two requests of `createBooking` served together, in the order in which the awaited
queries can complete: both get the answer of `Appointment.checkAvailability` before
either reaches `Client.findOrCreateByPhone`; then the first request runs to its end,
then the second.  The result is the tables and the two answers. -/
def createBookingInterleaved (env1 env2 : BookingEnv) (store : Store)
    (req1 req2 : BookingRequest) : Store × Option BookingResponse × Option BookingResponse :=
  match createBookingCheck env1 store req1, createBookingCheck env2 store req2 with
  | .ok c1, .ok c2 =>
    let r1 := createBookingWrite env1 store c1
    let r2 := createBookingWrite env2 r1.1 c2
    (r2.1, r1.2, r2.2)
  | .ok c1, .error e2 =>
    let r1 := createBookingWrite env1 store c1
    (r1.1, r1.2, some e2)
  | .error e1, .ok c2 =>
    let r2 := createBookingWrite env2 store c2
    (r2.1, some e1, r2.2)
  | .error e1, .error e2 => (store, some e1, some e2)

/-- The environment `entornoAbierto` drawing the code M7P2RD. -/
def entornoSegundo : BookingEnv :=
  { entornoAbierto with randomCodes := ["M7P2RD"] }

/-- The store `tiendaConTurno` with a holiday of barber 1 recorded for 2024-12-16. -/
def tiendaTurnoFeriado : Store :=
  { tiendaConTurno with
    dias_especiales := [⟨1, "2024-12-16", "feriado", some "Feriado", true, none, none⟩] }

/-! ## Client.findOrCreateByPhone -/

/-- What the helper `query` of `config/db` does with a parameter that is `undefined`:
the statement fails, or the parameter is sent as SQL NULL. -/
inductive UndefinedBind
  | rejects
  | asNull
deriving DecidableEq, Repr

/-- The value `telefono.replace(/\D/g, '').trim()`: the decimal digits of the text. -/
def cleanPhoneOf (telefono : String) : String :=
  String.mk (telefono.toList.filter Char.isDigit)

/-- The function `Client.findByPhone`: the first row with that `telefono`, or `null`. -/
def Client.findByPhone (clientes : List Cliente) (telefono : String) : Option Cliente :=
  (clientes.filter fun c => c.telefono == some telefono).head?

/-- The function `Client.findById`. -/
def Client.findById (clientes : List Cliente) (id : Nat) : Option Cliente :=
  (clientes.filter fun c => c.id == id).head?

/-- The object `updateData` of `findOrCreateByPhone`; it has no property `telefono`. -/
structure UpdateData where
  nombre : String
  apellido : String
  email : Option String
  notas : Option String
  fecha_nacimiento : Option String
deriving DecidableEq, Repr

/-- The function `Client.update` on the object `updateData`: the statement
`UPDATE clientes SET nombre = ?, apellido = ?, email = ?, telefono = ?,
fecha_nacimiento = ?, notas = ? WHERE id = ?` with `undefined` bound for `telefono`;
`none` when the statement fails and the function throws. -/
def Client.update (bind : UndefinedBind) (clientes : List Cliente) (id : Nat)
    (updateData : UpdateData) : Option (List Cliente) :=
  match bind with
  | UndefinedBind.rejects => none
  | UndefinedBind.asNull =>
    some (clientes.map fun c =>
      if c.id = id then
        { c with
          nombre := updateData.nombre
          apellido := updateData.apellido
          email := updateData.email
          telefono := none
          fecha_nacimiento := updateData.fecha_nacimiento
          notas := updateData.notas }
      else c)

/-- The `insertId` of a new row of `clientes`. -/
def nextClienteId (clientes : List Cliente) : Nat := (clientes.map fun c => c.id).foldl max 0 + 1

/-- JavaScript `x ? x.trim() : dflt` on a text that may be `null`. -/
def trimOr (x : Option String) (dflt : Option String) : Option String :=
  match x with
  | some s => if s = "" then dflt else some (jsTrim s)
  | none => dflt

/-- JavaScript `x || dflt` on a text that may be `null`, with a default that may be. -/
def orNull (x : Option String) (dflt : Option String) : Option String :=
  match x with
  | some s => if s = "" then dflt else some s
  | none => dflt

/-- The function `Client.findOrCreateByPhone`: the table `clientes` afterwards and the
client returned, `none` when the function throws. -/
def findOrCreateByPhone (bind : UndefinedBind) (clientes : List Cliente)
    (clientData : ClientData) : List Cliente × Option Cliente :=
  if clientData.nombre = "" ∨ clientData.apellido = "" ∨ clientData.telefono = "" then
    (clientes, none)
  else
    let cleanPhone := cleanPhoneOf clientData.telefono
    if cleanPhone.length < 7 then (clientes, none)
    else
      match Client.findByPhone clientes cleanPhone with
      | some existingClient =>
        let updateData : UpdateData :=
          { nombre := jsTrim clientData.nombre
            apellido := jsTrim clientData.apellido
            email := trimOr clientData.email existingClient.email
            notas := trimOr clientData.notas existingClient.notas
            fecha_nacimiento :=
              orNull clientData.fecha_nacimiento existingClient.fecha_nacimiento }
        let hasChanges :=
          updateData.nombre != existingClient.nombre ||
          updateData.apellido != existingClient.apellido ||
          updateData.email != existingClient.email ||
          updateData.notas != existingClient.notas ||
          updateData.fecha_nacimiento != existingClient.fecha_nacimiento
        if hasChanges then
          match Client.update bind clientes existingClient.id updateData with
          | none => (clientes, none)
          | some updated => (updated, Client.findById updated existingClient.id)
        else
          (clientes, some existingClient)
      | none =>
        let created : Cliente :=
          { id := nextClienteId clientes
            nombre := jsTrim clientData.nombre
            apellido := jsTrim clientData.apellido
            email := trimOr clientData.email none
            telefono := some cleanPhone
            notas := trimOr clientData.notas none
            fecha_nacimiento := clientData.fecha_nacimiento
            total_visitas := 0 }
        (clientes ++ [created], some created)

/-- The client Luis Rey as `createBooking` passes it, with the phone written with a
space and a hyphen and the given email. -/
def datosLuis (email : Option String) : ClientData :=
  { nombre := "Luis", apellido := "Rey", email := email, telefono := "11 2233-4455",
    notas := none }

/-! ## Lemmas on strings and times -/

theorem strLt_hhmm (a b a' b' : Nat) (sfx : JsStr) (hb : b < 60) (hb' : b' < 60) :
    strLt (pad2 a ++ [58] ++ pad2 b) (pad2 a' ++ [58] ++ pad2 b' ++ sfx) = true ↔
      (a * 60 + b < a' * 60 + b' ∨ (a * 60 + b = a' * 60 + b' ∧ sfx ≠ [])) := by
  have e1 : a = 10 * (a / 10) + a % 10 := by omega
  have e2 : a' = 10 * (a' / 10) + a' % 10 := by omega
  have e3 : b = 10 * (b / 10) + b % 10 := by omega
  have e4 : b' = 10 * (b' / 10) + b' % 10 := by omega
  have l1 : a % 10 < 10 := by omega
  have l2 : a' % 10 < 10 := by omega
  have l3 : b % 10 < 10 := by omega
  have l4 : b' % 10 < 10 := by omega
  simp only [pad2, List.cons_append, List.nil_append]
  generalize a / 10 = x1 at *
  generalize a % 10 = x2 at *
  generalize a' / 10 = y1 at *
  generalize a' % 10 = y2 at *
  generalize b / 10 = x3 at *
  generalize b % 10 = x4 at *
  generalize b' / 10 = y3 at *
  generalize b' % 10 = y4 at *
  cases sfx <;>
    simp only [strLt, Bool.or_eq_true, Bool.and_eq_true, decide_eq_true_eq,
      Bool.false_eq_true, or_false, and_false, and_true, ne_eq, not_true_eq_false,
      reduceCtorEq, not_false_eq_true, true_and, lt_self_iff_false, false_or,
      Nat.add_lt_add_iff_left, Nat.add_left_cancel_iff] <;> omega

theorem strLt_hhmm_left (a b a' b' : Nat) (sfx : JsStr) (hb : b < 60) (hb' : b' < 60) :
    strLt (pad2 a ++ [58] ++ pad2 b ++ sfx) (pad2 a' ++ [58] ++ pad2 b') = true ↔
      a * 60 + b < a' * 60 + b' := by
  have e1 : a = 10 * (a / 10) + a % 10 := by omega
  have e2 : a' = 10 * (a' / 10) + a' % 10 := by omega
  have e3 : b = 10 * (b / 10) + b % 10 := by omega
  have e4 : b' = 10 * (b' / 10) + b' % 10 := by omega
  have l1 : a % 10 < 10 := by omega
  have l2 : a' % 10 < 10 := by omega
  have l3 : b % 10 < 10 := by omega
  have l4 : b' % 10 < 10 := by omega
  simp only [pad2, List.cons_append, List.nil_append]
  generalize a / 10 = x1 at *
  generalize a % 10 = x2 at *
  generalize a' / 10 = y1 at *
  generalize a' % 10 = y2 at *
  generalize b / 10 = x3 at *
  generalize b % 10 = x4 at *
  generalize b' / 10 = y3 at *
  generalize b' % 10 = y4 at *
  cases sfx <;>
    simp only [strLt, Bool.or_eq_true, Bool.and_eq_true, decide_eq_true_eq,
      Bool.false_eq_true, or_false, and_false, and_true, ne_eq, not_true_eq_false,
      reduceCtorEq, not_false_eq_true, true_and, lt_self_iff_false, false_or,
      Nat.add_lt_add_iff_left, Nat.add_left_cancel_iff] <;> omega

theorem dateOf_lt (h : Hora) : dateOf h < 1440 := by
  unfold dateOf; omega

theorem minutesOf_toTimeString5 (t : Nat) (h : t < 1440) : minutesOf (toTimeString5 t) = t := by
  simp only [toTimeString5, pad2, minutesOf, List.cons_append, List.nil_append]
  omega

theorem strLt_toTimeString5_str (c : Nat) (p : Hora) (hc : c < 1440) :
    strLt (toTimeString5 c) p.str = true ↔
      (if p.secs then c ≤ dateOf p else c < dateOf p) := by
  have h24 : c / 60 % 24 = c / 60 := by omega
  unfold toTimeString5 Hora.str dateOf
  rw [strLt_hhmm _ _ _ _ _ (by omega) (by omega), h24]
  cases p.secs <;> simp <;> omega

theorem strLt_str_toTimeString5 (e : Nat) (p : Hora) (he : e < 1440) :
    strLt p.str (toTimeString5 e) = true ↔ dateOf p < e := by
  have h24 : e / 60 % 24 = e / 60 := by omega
  unfold toTimeString5 Hora.str dateOf
  rw [strLt_hhmm_left _ _ _ _ _ (by omega) (by omega), h24]
  omega

theorem orDefault_pos (x : Option Nat) : 0 < orDefault x 5 := by
  unfold orDefault
  split
  · split <;> omega
  · omega

theorem isInBreak_iff (w : WorkHour) (c e : Nat) (hc : c < 1440) (he : e < 1440) :
    isInBreak w (toTimeString5 c) (toTimeString5 e) = true ↔ breakHit w c e := by
  unfold isInBreak breakHit
  split
  · simp only [Bool.and_eq_true, strLt_toTimeString5_str c _ hc, strLt_str_toTimeString5 e _ he]
  · simp

theorem isOccupied_iff (appts : List Turno) (c e : Nat) :
    isOccupied appts c e = true ↔
      ∃ a ∈ appts, overlaps c e (dateOf a.hora_inicio) (dateOf a.hora_fin) := by
  simp [isOccupied, overlaps]

theorem emits_iff (w : WorkHour) (appts : List Turno) (d c : Nat) (he : c + d < 1440) :
    emits w appts d c = true ↔
      ¬ breakHit w c (c + d) ∧
        ∀ a ∈ appts, ¬ overlaps c (c + d) (dateOf a.hora_inicio) (dateOf a.hora_fin) := by
  have hc : c < 1440 := by omega
  unfold emits
  rw [Bool.and_eq_true, Bool.not_eq_true', Bool.not_eq_true', ← Bool.not_eq_true,
    ← Bool.not_eq_true, isInBreak_iff w c (c + d) hc he, isOccupied_iff]
  simp

/-! ## Lemmas on the loop -/

theorem whileStep_currentTime (w : WorkHour) (appts : List Turno) (d buf e : Nat)
    (st st' : LoopState) (h : whileStep w appts d buf e st = some st') :
    st'.currentTime = st.currentTime + d + buf ∧ st.currentTime < e ∧
      st.currentTime + d ≤ e := by
  unfold whileStep at h
  split at h
  · simp only at h
    split at h
    · simp at h
    · simp only [Option.some.injEq] at h
      subst h
      simp only [true_and]
      omega
  · simp at h

theorem whileStep_slots (w : WorkHour) (appts : List Turno) (d buf e : Nat)
    (st st' : LoopState) (h : whileStep w appts d buf e st = some st') :
    st'.slots = st.slots ++
      (if emits w appts d st.currentTime then [mkSlot st.currentTime d] else []) := by
  unfold whileStep at h
  split at h
  · simp only at h
    split at h
    · simp at h
    · simp only [Option.some.injEq] at h
      subst h
      unfold emits
      cases isInBreak w (toTimeString5 st.currentTime) (toTimeString5 (st.currentTime + d)) <;>
        cases isOccupied appts st.currentTime (st.currentTime + d) <;> simp
  · simp at h

theorem whileStep_eq_none (w : WorkHour) (appts : List Turno) (d buf e : Nat)
    (st : LoopState) :
    whileStep w appts d buf e st = none ↔ ¬ (st.currentTime < e ∧ st.currentTime + d ≤ e) := by
  unfold whileStep
  split
  · simp only
    split
    · simp; omega
    · simp; omega
  · simp; omega

/-- The fuel given to the loop is enough: after `fuel` passes with
`endTime - currentTime ≤ fuel` and a step of at least one minute the loop has been left. -/
theorem whileLoop_done (w : WorkHour) (appts : List Turno) (d buf e : Nat)
    (hstep : 0 < d + buf) (fuel : Nat) (st : LoopState) (hf : e - st.currentTime ≤ fuel) :
    whileStep w appts d buf e (whileLoop w appts d buf e fuel st) = none := by
  induction fuel generalizing st with
  | zero =>
    rw [whileLoop, whileStep_eq_none]
    omega
  | succ n ih =>
    rw [whileLoop]
    cases hs : whileStep w appts d buf e st with
    | none => simpa using hs
    | some st' =>
      simp only
      apply ih
      have := whileStep_currentTime w appts d buf e st st' hs
      omega

theorem whileLoop_slots (w : WorkHour) (appts : List Turno) (d buf e : Nat)
    (fuel : Nat) (st : LoopState) :
    (whileLoop w appts d buf e fuel st).slots =
      st.slots ++ gridSlots w appts d buf e fuel st.currentTime := by
  induction fuel generalizing st with
  | zero => simp [whileLoop, gridSlots]
  | succ n ih =>
    rw [whileLoop, gridSlots]
    cases hs : whileStep w appts d buf e st with
    | none =>
      have := (whileStep_eq_none w appts d buf e st).1 hs
      simp [this]
    | some st' =>
      have h1 := whileStep_currentTime w appts d buf e st st' hs
      have h2 := whileStep_slots w appts d buf e st st' hs
      simp only [ih, h1.1, h2, h1.2.1, h1.2.2, and_self, if_true, List.append_assoc]

theorem forEachBody_eq (appts : List Turno) (d buf : Nat) (slots : List Slot) (w : WorkHour) :
    forEachBody appts d buf slots w = slots ++ blockSlots appts d buf w := by
  simp [forEachBody, blockSlots, whileLoop_slots]

theorem foldl_forEachBody (appts : List Turno) (d buf : Nat) (ws : List WorkHour)
    (slots : List Slot) :
    ws.foldl (forEachBody appts d buf) slots = slots ++ ws.flatMap (blockSlots appts d buf) := by
  induction ws generalizing slots with
  | nil => simp
  | cons w ws ih => simp [List.foldl_cons, ih, forEachBody_eq, List.flatMap_cons]

/-- The result is the concatenation, in block order, of what each block contributes. -/
theorem generateSmartSlots_eq (ws : List WorkHour) (appts : List Turno) (d : Nat)
    (config : Option SlotConfig) :
    generateSmartSlots ws appts d config =
      ws.flatMap (blockSlots appts d (orDefault (config.bind fun c => c.bufferTime) 5)) := by
  simp [generateSmartSlots, foldl_forEachBody]

theorem mem_gridSlots (w : WorkHour) (appts : List Turno) (d buf e : Nat) (s : Slot)
    (fuel c : Nat) :
    s ∈ gridSlots w appts d buf e fuel c ↔
      ∃ k, k < fuel ∧ c + k * (d + buf) < e ∧ c + k * (d + buf) + d ≤ e ∧
        emits w appts d (c + k * (d + buf)) = true ∧ s = mkSlot (c + k * (d + buf)) d := by
  induction fuel generalizing c with
  | zero => simp [gridSlots]
  | succ n ih =>
    rw [gridSlots]
    constructor
    · intro h
      split at h
      · rename_i hc
        rcases List.mem_append.1 h with h | h
        · split at h
          · rename_i hem
            simp only [List.mem_singleton] at h
            exact ⟨0, by omega, by simpa using hc.1, by simpa using hc.2, by simpa using hem,
              by simpa using h⟩
          · simp at h
        · obtain ⟨k, hk, h1, h2, h3, h4⟩ := (ih _).1 h
          have he : c + d + buf + k * (d + buf) = c + (k + 1) * (d + buf) := by ring
          rw [he] at h1 h2 h3 h4
          exact ⟨k + 1, by omega, h1, h2, h3, h4⟩
      · simp at h
    · rintro ⟨k, hk, h1, h2, h3, h4⟩
      have hge : c ≤ c + k * (d + buf) := Nat.le_add_right _ _
      rw [if_pos ⟨by omega, by omega⟩]
      cases k with
      | zero =>
        simp only [Nat.zero_mul, Nat.add_zero] at h3 h4
        simp [h3, h4]
      | succ k =>
        apply List.mem_append_right
        apply (ih _).2
        have he : c + d + buf + k * (d + buf) = c + (k + 1) * (d + buf) := by ring
        exact ⟨k, by omega, by rw [he]; exact h1, by rw [he]; exact h2, by rw [he]; exact h3,
          by rw [he]; exact h4⟩

theorem mem_blockSlots (appts : List Turno) (d buf : Nat) (hbuf : 0 < buf) (w : WorkHour)
    (s : Slot) :
    s ∈ blockSlots appts d buf w ↔
      ∃ k, dateOf w.hora_inicio + k * (d + buf) + d ≤ dateOf w.hora_fin ∧
        dateOf w.hora_inicio + k * (d + buf) < dateOf w.hora_fin ∧
        emits w appts d (dateOf w.hora_inicio + k * (d + buf)) = true ∧
        s = mkSlot (dateOf w.hora_inicio + k * (d + buf)) d := by
  unfold blockSlots
  rw [mem_gridSlots]
  constructor
  · rintro ⟨k, _, h1, h2, h3, h4⟩
    exact ⟨k, h2, h1, h3, h4⟩
  · rintro ⟨k, h2, h1, h3, h4⟩
    refine ⟨k, ?_, h1, h2, h3, h4⟩
    have : k ≤ k * (d + buf) := Nat.le_mul_of_pos_right k (by omega)
    omega

theorem mem_generateSmartSlots (ws : List WorkHour) (appts : List Turno) (d : Nat)
    (config : Option SlotConfig) (s : Slot) :
    s ∈ generateSmartSlots ws appts d config ↔
      ∃ w ∈ ws, ∃ k,
        dateOf w.hora_inicio + k * (d + orDefault (config.bind fun c => c.bufferTime) 5) + d
            ≤ dateOf w.hora_fin ∧
        dateOf w.hora_inicio + k * (d + orDefault (config.bind fun c => c.bufferTime) 5)
            < dateOf w.hora_fin ∧
        emits w appts d
          (dateOf w.hora_inicio + k * (d + orDefault (config.bind fun c => c.bufferTime) 5))
            = true ∧
        s = mkSlot
          (dateOf w.hora_inicio + k * (d + orDefault (config.bind fun c => c.bufferTime) 5)) d := by
  rw [generateSmartSlots_eq, List.mem_flatMap]
  constructor
  · rintro ⟨w, hw, hs⟩
    exact ⟨w, hw, (mem_blockSlots appts d _ (orDefault_pos _) w s).1 hs⟩
  · rintro ⟨w, hw, hs⟩
    exact ⟨w, hw, (mem_blockSlots appts d _ (orDefault_pos _) w s).2 hs⟩

/-- What membership in the result says about a slot, in minutes: it is the candidate
of some block at a grid position, it lies inside the block, and it passed both tests. -/
theorem slot_of_mem (ws : List WorkHour) (appts : List Turno) (d : Nat)
    (config : Option SlotConfig) (s : Slot) (hs : s ∈ generateSmartSlots ws appts d config) :
    ∃ w ∈ ws, ∃ c, s = mkSlot c d ∧ dateOf w.hora_inicio ≤ c ∧ c + d ≤ dateOf w.hora_fin ∧
      minutesOf s.hora_inicio = c ∧ minutesOf s.hora_fin = c + d ∧
      ¬ breakHit w c (c + d) ∧
      ∀ a ∈ appts, ¬ overlaps c (c + d) (dateOf a.hora_inicio) (dateOf a.hora_fin) := by
  obtain ⟨w, hw, k, h1, h2, h3, h4⟩ := (mem_generateSmartSlots ws appts d config s).1 hs
  have hlt := dateOf_lt w.hora_fin
  refine ⟨w, hw, _, h4, Nat.le_add_right _ _, h1, ?_, ?_, ?_⟩
  · rw [h4]; exact minutesOf_toTimeString5 _ (by omega)
  · rw [h4]; exact minutesOf_toTimeString5 _ (by omega)
  · exact (emits_iff w appts d _ (by omega)).1 h3

theorem gridSlots_all (w : WorkHour) (appts : List Turno) (d buf e : Nat) (hd : 0 < d)
    (hem : ∀ c, emits w appts d c = true) (fuel : Nat) :
    ∀ (c n : Nat), n ≤ fuel → (∀ k, k < n ↔ c + k * (d + buf) + d ≤ e) →
      gridSlots w appts d buf e fuel c =
        (List.range n).map (fun k => mkSlot (c + k * (d + buf)) d) := by
  induction fuel with
  | zero =>
    intro c n hn _
    have : n = 0 := by omega
    subst this
    simp [gridSlots]
  | succ f ih =>
    intro c n hn hk
    rw [gridSlots]
    cases n with
    | zero =>
      have h0 := hk 0
      simp only [Nat.zero_mul, Nat.add_zero, Nat.lt_irrefl, false_iff] at h0
      rw [if_neg (by omega)]
      simp
    | succ m =>
      have h0 := (hk 0).1 (by omega)
      simp only [Nat.zero_mul, Nat.add_zero] at h0
      rw [if_pos ⟨by omega, h0⟩, hem c, if_pos rfl]
      have hm : ∀ k, k < m ↔ c + d + buf + k * (d + buf) + d ≤ e := by
        intro k
        have he : c + d + buf + k * (d + buf) = c + (k + 1) * (d + buf) := by ring
        rw [he, ← hk (k + 1)]
        omega
      rw [ih (c + d + buf) m (by omega) hm, List.range_succ_eq_map]
      simp only [List.singleton_append, List.map_cons, Nat.zero_mul, Nat.add_zero, List.map_map,
        List.cons.injEq, true_and]
      apply List.map_congr_left
      intro k _
      simp only [Function.comp]
      have he : c + d + buf + k * (d + buf) = c + (k + 1) * (d + buf) := by ring
      rw [he]

theorem emits_free (w : WorkHour) (d c : Nat)
    (hbreak : w.pausa_inicio = none ∨ w.pausa_fin = none) : emits w [] d c = true := by
  unfold emits isInBreak isOccupied
  rcases hbreak with h | h <;> rw [h] <;> cases w.pausa_inicio <;> cases w.pausa_fin <;> simp_all

theorem gridSlots_pairwise (w : WorkHour) (appts : List Turno) (d buf e : Nat) (he : e < 1440)
    (fuel : Nat) : ∀ c,
    (gridSlots w appts d buf e fuel c).Pairwise
      (fun s1 s2 => minutesOf s1.hora_fin ≤ minutesOf s2.hora_inicio) := by
  induction fuel with
  | zero => intro c; simp [gridSlots]
  | succ f ih =>
    intro c
    rw [gridSlots]
    split
    · rename_i hc
      rw [List.pairwise_append]
      refine ⟨?_, ih _, ?_⟩
      · split <;> simp
      · intro a ha b hb
        split at ha
        · simp only [List.mem_singleton] at ha
          obtain ⟨k, _, _, h2, _, h4⟩ := (mem_gridSlots w appts d buf e b f _).1 hb
          rw [ha, h4]
          simp only [mkSlot]
          rw [minutesOf_toTimeString5 _ (by omega), minutesOf_toTimeString5 _ (by omega)]
          have : c + d + buf ≤ c + d + buf + k * (d + buf) := Nat.le_add_right _ _
          omega
        · simp at ha
    · simp

theorem conflictCondition_iff (a b s e : Nat) (hse : s < e) (hab : a < b) :
    conflictCondition a b s e = true ↔ overlaps s e a b := by
  unfold conflictCondition overlaps
  simp only [Bool.or_eq_true, Bool.and_eq_true, decide_eq_true_eq]
  omega

/-! ## Properties of the slot engine -/

/-- C1: no slot returned by `generateSmartSlots` overlaps a busy appointment, for
every list of working blocks, every busy list, every duration and every buffer;
`[s1, e1)` and `[s2, e2)` overlap iff `s1 < e2` and `s2 < e1`. -/
theorem generateSmartSlots_avoids_busy (ws : List WorkHour) (appts : List Turno) (d : Nat)
    (config : Option SlotConfig) :
    ∀ s ∈ generateSmartSlots ws appts d config, ∀ a ∈ appts,
      ¬ overlaps (minutesOf s.hora_inicio) (minutesOf s.hora_fin)
        (dateOf a.hora_inicio) (dateOf a.hora_fin) := by
  intro s hs a ha
  obtain ⟨w, _, c, _, _, _, e1, e2, _, hb⟩ := slot_of_mem ws appts d config s hs
  rw [e1, e2]
  exact hb a ha

theorem generateSmartSlots_avoids_busy_witness :
    mkSlot 540 60 ∈ generateSmartSlots [bloqueDia] [turnoDiez] 60 (some ⟨some 5⟩) ∧
      ¬ overlaps (minutesOf (mkSlot 540 60).hora_inicio) (minutesOf (mkSlot 540 60).hora_fin)
        (dateOf turnoDiez.hora_inicio) (dateOf turnoDiez.hora_fin) :=
  ⟨by decide, generateSmartSlots_avoids_busy [bloqueDia] [turnoDiez] 60 (some ⟨some 5⟩)
    (mkSlot 540 60) (by decide) turnoDiez (by decide)⟩

/-- C2 at the failing input: in the block 12:00-16:00 with the break 13:00:00-14:00:00,
duration 55 and buffer 5, the loop visits the cursor 14:00 after two passes; the
candidate 14:00-14:55 fits the block, does not intersect the break `[13:00, 14:00)` and
no appointment is busy, yet the break test holds and the pass pushes nothing. -/
theorem whileStep_rejects_candidate_at_break_end :
    whileLoop bloqueTarde [] 55 5 960 2 ⟨720, []⟩ = ⟨840, [mkSlot 720 55]⟩ ∧
    840 + 55 ≤ dateOf bloqueTarde.hora_fin ∧
    ¬ overlaps 840 (840 + 55) 780 840 ∧
    isOccupied [] 840 (840 + 55) = false ∧
    isInBreak bloqueTarde (toTimeString5 840) (toTimeString5 (840 + 55)) = true ∧
    whileStep bloqueTarde [] 55 5 960 ⟨840, [mkSlot 720 55]⟩ = some ⟨900, [mkSlot 720 55]⟩ := by
  decide

/-- C3: every slot emitted for a working block has `hora_fin = hora_inicio + serviceDuration`
minutes, `duracion = serviceDuration`, `disponible = true`, and lies inside the block
(block start ≤ hora_inicio, hora_fin ≤ block end); and a pass whose candidate would end
after the block end, even by one minute, leaves the loop without pushing anything. -/
theorem generateSmartSlots_slot_shape (ws : List WorkHour) (appts : List Turno) (d : Nat)
    (config : Option SlotConfig) :
    (∀ s ∈ generateSmartSlots ws appts d config, ∃ w ∈ ws,
        minutesOf s.hora_fin = minutesOf s.hora_inicio + d ∧
        s.hora_fin = toTimeString5 (minutesOf s.hora_inicio + d) ∧
        s.duracion = d ∧ s.disponible = true ∧
        dateOf w.hora_inicio ≤ minutesOf s.hora_inicio ∧
        minutesOf s.hora_fin ≤ dateOf w.hora_fin) ∧
    (∀ (w : WorkHour) (buf e : Nat) (st : LoopState), e < st.currentTime + d →
        whileStep w appts d buf e st = none) := by
  constructor
  · intro s hs
    obtain ⟨w, hw, c, hc, h1, h2, e1, e2, _, _⟩ := slot_of_mem ws appts d config s hs
    refine ⟨w, hw, by omega, ?_, ?_, ?_, by omega, by omega⟩
    · rw [e1, hc]; rfl
    · rw [hc]; rfl
    · rw [hc]; rfl
  · intro w buf e st h
    rw [whileStep_eq_none]
    omega

theorem generateSmartSlots_slot_shape_witness :
    mkSlot 540 60 ∈ generateSmartSlots [bloqueDia] [turnoDiez] 60 (some ⟨some 5⟩) ∧
    (∃ w ∈ [bloqueDia],
        minutesOf (mkSlot 540 60).hora_fin = minutesOf (mkSlot 540 60).hora_inicio + 60 ∧
        (mkSlot 540 60).hora_fin = toTimeString5 (minutesOf (mkSlot 540 60).hora_inicio + 60) ∧
        (mkSlot 540 60).duracion = 60 ∧ (mkSlot 540 60).disponible = true ∧
        dateOf w.hora_inicio ≤ minutesOf (mkSlot 540 60).hora_inicio ∧
        minutesOf (mkSlot 540 60).hora_fin ≤ dateOf w.hora_fin) ∧
    1020 < (LoopState.mk 961 []).currentTime + 60 ∧
    whileStep bloqueDia [turnoDiez] 60 5 1020 ⟨961, []⟩ = none :=
  ⟨by decide,
    (generateSmartSlots_slot_shape [bloqueDia] [turnoDiez] 60 (some ⟨some 5⟩)).1
      (mkSlot 540 60) (by decide),
    by decide,
    (generateSmartSlots_slot_shape [bloqueDia] [turnoDiez] 60 (some ⟨some 5⟩)).2
      bloqueDia 5 1020 ⟨961, []⟩ (by decide)⟩

/-- C4 at the failing input: with `config.bufferTime = 0` every pass of the loop moves
the cursor by `serviceDuration + 5`, not by `serviceDuration + 0`. -/
theorem whileStep_bufferTime_zero (w : WorkHour) (appts : List Turno) (d e : Nat)
    (st st' : LoopState)
    (h : whileStep w appts d
      (orDefault ((some (SlotConfig.mk (some 0))).bind fun c => c.bufferTime) 5) e st = some st') :
    st'.currentTime = st.currentTime + d + 5 :=
  (whileStep_currentTime w appts d _ e st st' h).1

theorem whileStep_bufferTime_zero_witness :
    whileStep bloqueManana [] 30
        (orDefault ((some (SlotConfig.mk (some 0))).bind fun c => c.bufferTime) 5) 720 ⟨540, []⟩ =
      some ⟨575, [mkSlot 540 30]⟩ ∧
    (LoopState.mk 575 [mkSlot 540 30]).currentTime = (LoopState.mk 540 []).currentTime + 30 + 5 :=
  ⟨by decide, whileStep_bufferTime_zero bloqueManana [] 30 720 ⟨540, []⟩
    ⟨575, [mkSlot 540 30]⟩ (by decide)⟩

/-- C5 at the failing input: for the block 09:00-12:00 without break, no busy
appointment, duration 30 and a buffer of 0 (`intervalo_turnos = 0`, or
`config.bufferTime = 0` directly) the result is the five slots starting 09:00, 09:35,
10:10, 10:45, 11:20, spaced by the default buffer of 5, not the six back-to-back slots. -/
theorem generateSmartSlots_buffer_zero :
    intervalConfig (some 0) = some { bufferTime := some 5 } ∧
    generateSmartSlots [bloqueManana] [] 30 (intervalConfig (some 0)) =
      [mkSlot 540 30, mkSlot 575 30, mkSlot 610 30, mkSlot 645 30, mkSlot 680 30] ∧
    generateSmartSlots [bloqueManana] [] 30 (some { bufferTime := some 0 }) =
      [mkSlot 540 30, mkSlot 575 30, mkSlot 610 30, mkSlot 645 30, mkSlot 680 30] ∧
    (generateSmartSlots [bloqueManana] [] 30 (some { bufferTime := some 0 })).length = 5 := by
  decide

/-- C6: a single block without a break, an empty busy list, a duration `d > 0` and a
buffer `b ≥ 1` give exactly the slots starting at `start + k * (d + b)` for
`k = 0 .. (end - start - d) / (d + b)`, in that order, and no slot when
`end - start < d`; for 09:00-12:00, `d = 30`, `b = 5` these are the five slots starting
09:00, 09:35, 10:10, 10:45, 11:20. -/
theorem generateSmartSlots_free_block :
    (∀ (w : WorkHour) (d b : Nat), 0 < d → 1 ≤ b →
      (w.pausa_inicio = none ∨ w.pausa_fin = none) →
      generateSmartSlots [w] [] d (some ⟨some b⟩) =
        if dateOf w.hora_fin - dateOf w.hora_inicio < d then []
        else (List.range ((dateOf w.hora_fin - dateOf w.hora_inicio - d) / (d + b) + 1)).map
          (fun k => mkSlot (dateOf w.hora_inicio + k * (d + b)) d)) ∧
    generateSmartSlots [bloqueManana] [] 30 (some ⟨some 5⟩) =
      [mkSlot 540 30, mkSlot 575 30, mkSlot 610 30, mkSlot 645 30, mkSlot 680 30] := by
  refine ⟨?_, by decide⟩
  intro w d b hd hb hbreak
  have hbuf : orDefault ((some (SlotConfig.mk (some b))).bind fun c => c.bufferTime) 5 = b := by
    simp only [Option.some_bind, orDefault]
    rw [if_neg (by omega)]
  rw [generateSmartSlots_eq, hbuf]
  simp only [List.flatMap_cons, List.flatMap_nil, List.append_nil, blockSlots]
  split
  · rename_i hlt
    rw [gridSlots_all w [] d b _ hd (fun c => emits_free w d c hbreak) _ _ 0 (Nat.zero_le _)]
    · simp
    · intro k
      constructor
      · intro h; omega
      · intro h
        have : dateOf w.hora_inicio ≤ dateOf w.hora_inicio + k * (d + b) := Nat.le_add_right _ _
        omega
  · rename_i hge
    apply gridSlots_all w [] d b _ hd (fun c => emits_free w d c hbreak)
    · have := Nat.div_le_self (dateOf w.hora_fin - dateOf w.hora_inicio - d) (d + b)
      omega
    · intro k
      rw [Nat.lt_succ_iff, Nat.le_div_iff_mul_le (by omega)]
      omega

theorem generateSmartSlots_free_block_witness :
    (0 < 30 ∧ 1 ≤ 5 ∧ (bloqueManana.pausa_inicio = none ∨ bloqueManana.pausa_fin = none)) ∧
    generateSmartSlots [bloqueManana] [] 30 (some ⟨some 5⟩) =
      if dateOf bloqueManana.hora_fin - dateOf bloqueManana.hora_inicio < 30 then []
      else (List.range ((dateOf bloqueManana.hora_fin - dateOf bloqueManana.hora_inicio - 30)
          / (30 + 5) + 1)).map
        (fun k => mkSlot (dateOf bloqueManana.hora_inicio + k * (30 + 5)) 30) :=
  ⟨by decide, generateSmartSlots_free_block.1 bloqueManana 30 5 (by decide) (by decide)
    (by decide)⟩

/-- C7, as stated, fails: with the overlapping blocks 09:00-10:00 and 09:15-10:00 and a
30-minute service the result holds the two distinct slots 09:00-09:30 and 09:15-09:45,
which overlap. -/
theorem generateSmartSlots_overlapping_blocks :
    generateSmartSlots bloquesSolapados [] 30 (some ⟨some 5⟩) = [mkSlot 540 30, mkSlot 555 30] ∧
    mkSlot 540 30 ≠ mkSlot 555 30 ∧
    overlaps (minutesOf (mkSlot 540 30).hora_inicio) (minutesOf (mkSlot 540 30).hora_fin)
      (minutesOf (mkSlot 555 30).hora_inicio) (minutesOf (mkSlot 555 30).hora_fin) := by
  decide

/-- C7 (as the code has it): when the working blocks are pairwise non-overlapping, no
two slots at different positions of the returned list overlap each other. -/
theorem generateSmartSlots_pairwise_disjoint (ws : List WorkHour) (appts : List Turno)
    (d : Nat) (config : Option SlotConfig)
    (hws : ws.Pairwise (fun w1 w2 => ¬ overlaps (dateOf w1.hora_inicio) (dateOf w1.hora_fin)
      (dateOf w2.hora_inicio) (dateOf w2.hora_fin))) :
    (generateSmartSlots ws appts d config).Pairwise
      (fun s1 s2 => ¬ overlaps (minutesOf s1.hora_inicio) (minutesOf s1.hora_fin)
        (minutesOf s2.hora_inicio) (minutesOf s2.hora_fin)) := by
  rw [generateSmartSlots_eq, List.pairwise_flatMap]
  constructor
  · intro w _
    refine List.Pairwise.imp ?_ (gridSlots_pairwise w appts d _ _ (dateOf_lt _) _ _)
    intro a b hab hov
    unfold overlaps at hov
    omega
  · refine List.Pairwise.imp_of_mem ?_ hws
    intro w1 w2 h1 h2 hw x hx y hy hov
    have hx' : x ∈ generateSmartSlots [w1] appts d config := by
      rw [generateSmartSlots_eq]; simpa using hx
    have hy' : y ∈ generateSmartSlots [w2] appts d config := by
      rw [generateSmartSlots_eq]; simpa using hy
    obtain ⟨v1, hv1, c1, _, a1, a2, a3, a4, _, _⟩ := slot_of_mem _ _ _ _ _ hx'
    obtain ⟨v2, hv2, c2, _, b1, b2, b3, b4, _, _⟩ := slot_of_mem _ _ _ _ _ hy'
    simp only [List.mem_singleton] at hv1 hv2
    subst hv1 hv2
    unfold overlaps at hov hw
    omega

theorem generateSmartSlots_pairwise_disjoint_witness :
    [bloqueManana, bloqueTarde].Pairwise
      (fun w1 w2 => ¬ overlaps (dateOf w1.hora_inicio) (dateOf w1.hora_fin)
        (dateOf w2.hora_inicio) (dateOf w2.hora_fin)) ∧
    (generateSmartSlots [bloqueManana, bloqueTarde] [turnoDiez] 55 (some ⟨some 5⟩)).Pairwise
      (fun s1 s2 => ¬ overlaps (minutesOf s1.hora_inicio) (minutesOf s1.hora_fin)
        (minutesOf s2.hora_inicio) (minutesOf s2.hora_fin)) :=
  ⟨by decide, generateSmartSlots_pairwise_disjoint [bloqueManana, bloqueTarde] [turnoDiez] 55
    (some ⟨some 5⟩) (by decide)⟩

/-- C8: break exclusion.  Every emitted slot is the candidate of a block whose break,
if it has one, the slot does not overlap: a candidate inside the break or reaching
across either break bound by a minute or more is never emitted, for break bounds given
as `HH:MM` or as `HH:MM:SS`.  A candidate rejected by the break test is not moved: the
pass pushes nothing and the cursor advances by `serviceDuration + bufferTime`. -/
theorem generateSmartSlots_break_exclusion (ws : List WorkHour) (appts : List Turno) (d : Nat)
    (config : Option SlotConfig) :
    (∀ s ∈ generateSmartSlots ws appts d config, ∃ w ∈ ws,
        dateOf w.hora_inicio ≤ minutesOf s.hora_inicio ∧
        minutesOf s.hora_fin ≤ dateOf w.hora_fin ∧
        ∀ pausa_inicio pausa_fin, w.pausa_inicio = some pausa_inicio →
          w.pausa_fin = some pausa_fin →
          ¬ overlaps (minutesOf s.hora_inicio) (minutesOf s.hora_fin)
            (dateOf pausa_inicio) (dateOf pausa_fin)) ∧
    (∀ (w : WorkHour) (buf e : Nat) (st : LoopState), st.currentTime < e →
        st.currentTime + d ≤ e →
        isInBreak w (toTimeString5 st.currentTime) (toTimeString5 (st.currentTime + d)) = true →
        whileStep w appts d buf e st =
          some { currentTime := st.currentTime + d + buf, slots := st.slots }) := by
  constructor
  · intro s hs
    obtain ⟨w, hw, c, _, h1, h2, e1, e2, hb, _⟩ := slot_of_mem ws appts d config s hs
    refine ⟨w, hw, by omega, by omega, ?_⟩
    intro pi pf hpi hpf hov
    apply hb
    rw [e1, e2] at hov
    unfold overlaps at hov
    unfold breakHit
    rw [hpi, hpf]
    simp only
    refine ⟨?_, hov.2⟩
    split
    · omega
    · omega
  · intro w buf e st h1 h2 hb
    unfold whileStep
    rw [if_pos h1]
    simp only [hb, Bool.not_true, Bool.false_eq_true, if_false]
    rw [if_neg (by omega)]

theorem generateSmartSlots_break_exclusion_witness :
    mkSlot 540 60 ∈ generateSmartSlots [bloqueDia] [turnoDiez] 60 (some ⟨some 5⟩) ∧
    (∃ w ∈ [bloqueDia],
        dateOf w.hora_inicio ≤ minutesOf (mkSlot 540 60).hora_inicio ∧
        minutesOf (mkSlot 540 60).hora_fin ≤ dateOf w.hora_fin ∧
        ∀ pausa_inicio pausa_fin, w.pausa_inicio = some pausa_inicio →
          w.pausa_fin = some pausa_fin →
          ¬ overlaps (minutesOf (mkSlot 540 60).hora_inicio) (minutesOf (mkSlot 540 60).hora_fin)
            (dateOf pausa_inicio) (dateOf pausa_fin)) ∧
    isInBreak bloqueDia (toTimeString5 735) (toTimeString5 (735 + 60)) = true ∧
    whileStep bloqueDia [turnoDiez] 60 5 1020 ⟨735, [mkSlot 540 60]⟩ =
      some { currentTime := 735 + 60 + 5, slots := [mkSlot 540 60] } :=
  ⟨by decide,
    (generateSmartSlots_break_exclusion [bloqueDia] [turnoDiez] 60 (some ⟨some 5⟩)).1
      (mkSlot 540 60) (by decide),
    by decide,
    (generateSmartSlots_break_exclusion [bloqueDia] [turnoDiez] 60 (some ⟨some 5⟩)).2
      bloqueDia 5 1020 ⟨735, [mkSlot 540 60]⟩ (by decide) (by decide) (by decide)⟩

/-- C9 at the failing input: block 12:00-16:00, break 13:00-14:00, duration 55, buffer 5,
no busy appointment, so the candidates start 12:00, 13:00, 14:00, 15:00.  With the break
bounds written `HH:MM` the candidates 12:00 (ending before the break) and 14:00 (starting
at the break end) are emitted; with the bounds `13:00:00`, `14:00:00` that the
working-hours query returns the candidate starting at 14:00 is rejected. -/
theorem generateSmartSlots_break_end_with_seconds :
    generateSmartSlots [bloqueTardeCorto] [] 55 (some ⟨some 5⟩) =
      [mkSlot 720 55, mkSlot 840 55, mkSlot 900 55] ∧
    generateSmartSlots [bloqueTarde] [] 55 (some ⟨some 5⟩) = [mkSlot 720 55, mkSlot 900 55] ∧
    strLt (toTimeString5 840) (Hora.str ⟨14, 0, true⟩) = true ∧
    strLt (toTimeString5 840) (Hora.str ⟨14, 0, false⟩) = false := by
  decide

/-! ## Properties of the availability re-check -/

/-- C10: for a window `[s, e)` with `s < e` and a stored appointment `[a, b)` with
`a < b` the three-case SQL condition holds iff `a < e` and `s < b`, the overlap test of
slot generation; hence `checkAvailability` returns true iff no occupied appointment of
that barber and date (other than the excluded one) overlaps the window, and a window
that only touches an appointment (`e = a` or `s = b`) is not in conflict. -/
theorem checkAvailability_strict_overlap :
    (∀ a b s e : Nat, s < e → a < b →
      (conflictCondition a b s e = true ↔ overlaps s e a b)) ∧
    (∀ (t : Turno) (s e : Nat), s < e → dateOf t.hora_inicio < dateOf t.hora_fin →
      conflictCondition (dateOf t.hora_inicio) (dateOf t.hora_fin) s e = isOccupied [t] s e) ∧
    (∀ (turnos : List Turno) (id_usuario : Nat) (fecha : String) (hora_inicio hora_fin : Hora)
      (exclude_id : Option Nat), dateOf hora_inicio < dateOf hora_fin →
      (∀ t ∈ turnos, dateOf t.hora_inicio < dateOf t.hora_fin) →
      (checkAvailability turnos id_usuario fecha hora_inicio hora_fin exclude_id = true ↔
        ∀ t ∈ turnos, t.id_usuario = id_usuario → t.fecha = fecha →
          notInTerminal t.estado = true →
          (∀ x, exclude_id = some x → x ≠ 0 → t.id ≠ x) →
          ¬ overlaps (dateOf hora_inicio) (dateOf hora_fin)
            (dateOf t.hora_inicio) (dateOf t.hora_fin))) ∧
    (∀ a b s e : Nat, s < e → a < b → (e = a ∨ s = b) → conflictCondition a b s e = false) := by
  refine ⟨conflictCondition_iff, ?_, ?_, ?_⟩
  · intro t s e hse hab
    rw [Bool.eq_iff_iff, conflictCondition_iff _ _ _ _ hse hab, isOccupied_iff]
    simp
  · intro turnos u f hi hf excl hse hall
    unfold checkAvailability
    simp only [beq_iff_eq, List.length_eq_zero, List.filter_eq_nil_iff, Bool.and_eq_true,
      decide_eq_true_eq, not_and]
    constructor
    · intro h t ht h1 h2 h3 h4 hov
      refine h t ht ⟨⟨⟨h1, h2⟩, h3⟩, (conflictCondition_iff _ _ _ _ hse (hall t ht)).2 hov⟩ ?_
      cases excl with
      | none => rfl
      | some x =>
        simp only
        split
        · rfl
        · rename_i hx
          exact decide_eq_true (h4 x rfl hx)
    · rintro h t ht ⟨⟨⟨h1, h2⟩, h3⟩, h4⟩ h5
      refine h t ht h1 h2 h3 ?_ ((conflictCondition_iff _ _ _ _ hse (hall t ht)).1 h4)
      intro x hx hx0
      subst hx
      simp only [if_neg hx0, decide_eq_true_eq] at h5
      exact h5
  · intro a b s e hse hab htouch
    rw [← Bool.not_eq_true, conflictCondition_iff _ _ _ _ hse hab]
    unfold overlaps
    omega

theorem checkAvailability_strict_overlap_witness :
    (665 < 725 ∧ 605 < 665) ∧
    (conflictCondition 605 665 665 725 = true ↔ overlaps 665 725 605 665) ∧
    conflictCondition (dateOf turnoDiez.hora_inicio) (dateOf turnoDiez.hora_fin) 665 725 =
      isOccupied [turnoDiez] 665 725 ∧
    (checkAvailability [turnoDiez] 1 "2024-12-16" ⟨11, 5, false⟩ ⟨12, 5, false⟩ none = true ↔
      ∀ t ∈ [turnoDiez], t.id_usuario = 1 → t.fecha = "2024-12-16" →
        notInTerminal t.estado = true →
        (∀ x, (none : Option Nat) = some x → x ≠ 0 → t.id ≠ x) →
        ¬ overlaps (dateOf (Hora.mk 11 5 false)) (dateOf (Hora.mk 12 5 false))
          (dateOf t.hora_inicio) (dateOf t.hora_fin)) ∧
    checkAvailability [turnoDiez] 1 "2024-12-16" ⟨11, 5, false⟩ ⟨12, 5, false⟩ none = true ∧
    conflictCondition 605 665 665 725 = false :=
  ⟨by decide,
    checkAvailability_strict_overlap.1 605 665 665 725 (by decide) (by decide),
    checkAvailability_strict_overlap.2.1 turnoDiez 665 725 (by decide) (by decide),
    checkAvailability_strict_overlap.2.2.1 [turnoDiez] 1 "2024-12-16" ⟨11, 5, false⟩
      ⟨12, 5, false⟩ none (by decide) (by decide),
    by decide,
    checkAvailability_strict_overlap.2.2.2 605 665 665 725 (by decide) (by decide)
      (Or.inr rfl)⟩

/-! ## Further properties of the slot engine -/

theorem gridSlots_pairwise_start (w : WorkHour) (appts : List Turno) (d buf e : Nat)
    (he : e < 1440) (hstep : 0 < d + buf) (fuel : Nat) : ∀ c,
    (gridSlots w appts d buf e fuel c).Pairwise
      (fun s1 s2 => minutesOf s1.hora_inicio < minutesOf s2.hora_inicio) := by
  induction fuel with
  | zero => intro c; simp [gridSlots]
  | succ f ih =>
    intro c
    rw [gridSlots]
    split
    · rename_i hc
      rw [List.pairwise_append]
      refine ⟨?_, ih _, ?_⟩
      · split <;> simp
      · intro a ha b hb
        split at ha
        · simp only [List.mem_singleton] at ha
          obtain ⟨k, _, _, h2, _, h4⟩ := (mem_gridSlots w appts d buf e b f _).1 hb
          rw [ha, h4]
          simp only [mkSlot]
          rw [minutesOf_toTimeString5 _ (by omega), minutesOf_toTimeString5 _ (by omega)]
          have : c + d + buf ≤ c + d + buf + k * (d + buf) := Nat.le_add_right _ _
          omega
        · simp at ha
    · simp

theorem whileLoop_stable (w : WorkHour) (appts : List Turno) (d buf e : Nat) (n : Nat) :
    ∀ (st : LoopState), whileStep w appts d buf e (whileLoop w appts d buf e n st) = none →
      ∀ m, n ≤ m → whileLoop w appts d buf e m st = whileLoop w appts d buf e n st := by
  induction n with
  | zero =>
    intro st h m _
    rw [whileLoop] at h ⊢
    cases m with
    | zero => rfl
    | succ m => rw [whileLoop, h]
  | succ n ih =>
    intro st h m hm
    obtain ⟨m, rfl⟩ : ∃ k, m = k + 1 := ⟨m - 1, by omega⟩
    rw [whileLoop] at h ⊢
    rw [whileLoop]
    cases hs : whileStep w appts d buf e st with
    | none => rfl
    | some st' =>
      rw [hs] at h
      exact ih st' h m (by omega)

theorem mem_getTodayAppointments (turnos : List Turno) (clientes : List Cliente)
    (servicios : List Servicio) (id_usuario : Nat) (fecha : String) (t : Turno) :
    t ∈ getTodayAppointments turnos clientes servicios id_usuario fecha ↔
      (t ∈ turnos ∧ (∃ c ∈ clientes, c.id = t.id_cliente) ∧
        (∃ s ∈ servicios, s.id = t.id_servicio) ∧ t.id_usuario = id_usuario ∧
        t.fecha = fecha ∧ notInTerminal t.estado = true) := by
  have h1 : ∀ estado : Estado, inPendingStates estado = notInTerminal estado := by
    intro estado; cases estado <;> rfl
  unfold getTodayAppointments
  rw [(List.perm_insertionSort _ _).mem_iff, List.mem_filter, h1]
  simp only [List.mem_flatMap, List.mem_map, List.mem_filter, Bool.and_eq_true,
    decide_eq_true_eq, beq_iff_eq]
  constructor
  · rintro ⟨⟨t', ht', c, ⟨hc, hce⟩, s, ⟨hs, hse⟩, rfl⟩, h⟩
    exact ⟨ht', ⟨c, hc, hce.symm⟩, ⟨s, hs, hse.symm⟩, h.1.1, h.1.2, h.2⟩
  · rintro ⟨ht, ⟨c, hc, hce⟩, ⟨s, hs, hse⟩, hu, hf, hn⟩
    exact ⟨⟨t, ht, c, ⟨hc, hce.symm⟩, s, ⟨hs, hse.symm⟩, rfl⟩, ⟨hu, hf⟩, hn⟩

theorem checkAvailability_iff (turnos : List Turno) (id_usuario : Nat) (fecha : String)
    (hora_inicio hora_fin : Hora) :
    checkAvailability turnos id_usuario fecha hora_inicio hora_fin none = true ↔
      ∀ t ∈ turnos, t.id_usuario = id_usuario → t.fecha = fecha →
        notInTerminal t.estado = true →
        conflictCondition (dateOf t.hora_inicio) (dateOf t.hora_fin)
          (dateOf hora_inicio) (dateOf hora_fin) = false := by
  unfold checkAvailability
  simp only [beq_iff_eq, List.length_eq_zero, List.filter_eq_nil_iff, Bool.and_eq_true,
    decide_eq_true_eq, not_and, Bool.not_eq_true, and_true]
  constructor
  · intro h t ht h1 h2 h3
    exact h t ht ⟨⟨h1, h2⟩, h3⟩
  · intro h t ht h12
    exact h t ht h12.1.1 h12.1.2 h12.2

/-- C13, as stated, fails: the appointment of `tiendaConTurno` is reservado and names a
client and a service that have no row.  `checkAvailability` counts it (the window
10:30-11:00 is taken), while `getTodayAppointments`, which joins `clientes` and
`servicios`, does not return it. -/
theorem getTodayAppointments_skips_unjoined :
    tiendaConTurno.turnos = [turnoDiez] ∧
    inPendingStates turnoDiez.estado = true ∧ notInTerminal turnoDiez.estado = true ∧
    (tiendaConTurno.clientes.filter fun c => turnoDiez.id_cliente == c.id) = [] ∧
    (tiendaConTurno.servicios.filter fun s => turnoDiez.id_servicio == s.id) = [] ∧
    getTodayAppointments tiendaConTurno.turnos tiendaConTurno.clientes
      tiendaConTurno.servicios 1 "2024-12-16" = [] ∧
    checkAvailability tiendaConTurno.turnos 1 "2024-12-16" ⟨10, 30, false⟩ ⟨11, 0, true⟩
      none = false := by
  decide

/-- C13 (as the code has it): over the six states the filter of `getTodayAppointments`
(IN reservado, confirmado, en_proceso) and the filter of `checkAvailability` (NOT IN
cancelado, no_show, completado) are the same.  The listing returns exactly the
appointments of the barber and date in such a state that have a client row and a
service row; the re-check tests every appointment of the barber and date in such a
state; when every appointment has its client row and its service row, the listing is
exactly the appointments the re-check tests. -/
theorem occupied_filters_agree :
    (∀ estado : Estado, inPendingStates estado = notInTerminal estado) ∧
    (∀ estado : Estado, notInTerminal estado = true ↔
      estado ≠ Estado.cancelado ∧ estado ≠ Estado.no_show ∧ estado ≠ Estado.completado) ∧
    (∀ (turnos : List Turno) (clientes : List Cliente) (servicios : List Servicio)
      (id_usuario : Nat) (fecha : String) (t : Turno),
      t ∈ getTodayAppointments turnos clientes servicios id_usuario fecha ↔
        (t ∈ turnos ∧ (∃ c ∈ clientes, c.id = t.id_cliente) ∧
          (∃ s ∈ servicios, s.id = t.id_servicio) ∧ t.id_usuario = id_usuario ∧
          t.fecha = fecha ∧ notInTerminal t.estado = true)) ∧
    (∀ (turnos : List Turno) (id_usuario : Nat) (fecha : String) (hora_inicio hora_fin : Hora),
      checkAvailability turnos id_usuario fecha hora_inicio hora_fin none = true ↔
        ∀ t ∈ turnos, t.id_usuario = id_usuario → t.fecha = fecha →
          notInTerminal t.estado = true →
          conflictCondition (dateOf t.hora_inicio) (dateOf t.hora_fin)
            (dateOf hora_inicio) (dateOf hora_fin) = false) ∧
    (∀ (turnos : List Turno) (clientes : List Cliente) (servicios : List Servicio)
      (id_usuario : Nat) (fecha : String),
      (∀ t ∈ turnos, (∃ c ∈ clientes, c.id = t.id_cliente) ∧
        (∃ s ∈ servicios, s.id = t.id_servicio)) →
      ∀ t : Turno, t ∈ getTodayAppointments turnos clientes servicios id_usuario fecha ↔
        (t ∈ turnos ∧ t.id_usuario = id_usuario ∧ t.fecha = fecha ∧
          notInTerminal t.estado = true)) := by
  refine ⟨?_, ?_, mem_getTodayAppointments, checkAvailability_iff, ?_⟩
  · intro estado; cases estado <;> rfl
  · intro estado; cases estado <;> simp [notInTerminal]
  · intro turnos clientes servicios u f hint t
    rw [mem_getTodayAppointments]
    constructor
    · rintro ⟨ht, _, _, h⟩
      exact ⟨ht, h⟩
    · rintro ⟨ht, h⟩
      exact ⟨ht, (hint t ht).1, (hint t ht).2, h⟩

theorem occupied_filters_agree_witness :
    (∀ t ∈ tiendaIntegra.turnos, (∃ c ∈ tiendaIntegra.clientes, c.id = t.id_cliente) ∧
      (∃ s ∈ tiendaIntegra.servicios, s.id = t.id_servicio)) ∧
    (turnoDiezCliente ∈ getTodayAppointments tiendaIntegra.turnos tiendaIntegra.clientes
        tiendaIntegra.servicios 1 "2024-12-16" ↔
      (turnoDiezCliente ∈ tiendaIntegra.turnos ∧ turnoDiezCliente.id_usuario = 1 ∧
        turnoDiezCliente.fecha = "2024-12-16" ∧
        notInTerminal turnoDiezCliente.estado = true)) :=
  ⟨by decide,
    occupied_filters_agree.2.2.2.2 tiendaIntegra.turnos tiendaIntegra.clientes
      tiendaIntegra.servicios 1 "2024-12-16" (by decide) turnoDiezCliente⟩

/-- C14: working blocks are processed independently and their results concatenated in
the configured order: `generateSmartSlots (B1 ++ B2) = generateSmartSlots B1 ++
generateSmartSlots B2` for the same busy list, duration and config. -/
theorem generateSmartSlots_append (B1 B2 : List WorkHour) (appts : List Turno) (d : Nat)
    (config : Option SlotConfig) :
    generateSmartSlots (B1 ++ B2) appts d config =
      generateSmartSlots B1 appts d config ++ generateSmartSlots B2 appts d config := by
  simp only [generateSmartSlots_eq, List.flatMap_append]

/-- C15, as stated, fails: with the blocks configured as 12:00-16:00 followed by
09:00-12:00 the result lists the slot starting 12:00 before the slot starting 09:00. -/
theorem generateSmartSlots_block_order_kept :
    generateSmartSlots bloquesDesordenados [] 55 (some ⟨some 5⟩) =
      [mkSlot 720 55, mkSlot 840 55, mkSlot 900 55, mkSlot 540 55, mkSlot 600 55,
        mkSlot 660 55] ∧
    ¬ (minutesOf (mkSlot 720 55).hora_inicio ≤ minutesOf (mkSlot 540 55).hora_inicio) := by
  decide

/-- C15 (as the code has it): the slots of one block are in ascending order of start
time and blocks contribute in their configured order, so the returned list is ordered
by start time ascending whenever the blocks are configured in ascending order, each
ending no later than the next begins. -/
theorem generateSmartSlots_sorted (ws : List WorkHour) (appts : List Turno) (d : Nat)
    (config : Option SlotConfig)
    (hws : ws.Pairwise (fun w1 w2 => dateOf w1.hora_fin ≤ dateOf w2.hora_inicio)) :
    (generateSmartSlots ws appts d config).Pairwise
      (fun s1 s2 => minutesOf s1.hora_inicio < minutesOf s2.hora_inicio) := by
  have hbuf := orDefault_pos (config.bind fun c => c.bufferTime)
  rw [generateSmartSlots_eq, List.pairwise_flatMap]
  constructor
  · intro w _
    exact gridSlots_pairwise_start w appts d _ _ (dateOf_lt _) (by omega) _ _
  · refine List.Pairwise.imp_of_mem ?_ hws
    intro w1 w2 _ _ hw x hx y hy
    obtain ⟨k1, a1, a2, _, a4⟩ := (mem_blockSlots appts d _ hbuf w1 x).1 hx
    obtain ⟨k2, b1, b2, _, b4⟩ := (mem_blockSlots appts d _ hbuf w2 y).1 hy
    have hlt := dateOf_lt w1.hora_fin
    have hlt2 := dateOf_lt w2.hora_fin
    rw [a4, b4]
    simp only [mkSlot]
    rw [minutesOf_toTimeString5 _ (by omega), minutesOf_toTimeString5 _ (by omega)]
    have : dateOf w2.hora_inicio ≤ dateOf w2.hora_inicio +
      k2 * (d + orDefault (config.bind fun c => c.bufferTime) 5) := Nat.le_add_right _ _
    omega

theorem generateSmartSlots_sorted_witness :
    [bloqueManana, bloqueTarde].Pairwise
      (fun w1 w2 => dateOf w1.hora_fin ≤ dateOf w2.hora_inicio) ∧
    (generateSmartSlots [bloqueManana, bloqueTarde] [turnoDiez] 55 (some ⟨some 5⟩)).Pairwise
      (fun s1 s2 => minutesOf s1.hora_inicio < minutesOf s2.hora_inicio) :=
  ⟨by decide, generateSmartSlots_sorted [bloqueManana, bloqueTarde] [turnoDiez] 55
    (some ⟨some 5⟩) (by decide)⟩

/-- C16: `generateSmartSlots` terminates.  For every block, busy list, duration and
config, each pass of the loop moves the cursor strictly forward, by
`serviceDuration + bufferTime` with `bufferTime ≥ 1` (it is the configured buffer `b`
when `b ≥ 1`); the loop is left after at most `endTime - startTime` passes, and running
it for more passes does not change the result. -/
theorem generateSmartSlots_terminates (w : WorkHour) (appts : List Turno) (d : Nat)
    (config : Option SlotConfig) (slots : List Slot) :
    (∀ (e : Nat) (st st' : LoopState),
      whileStep w appts d (orDefault (config.bind fun c => c.bufferTime) 5) e st = some st' →
        st'.currentTime = st.currentTime + d + orDefault (config.bind fun c => c.bufferTime) 5 ∧
        st.currentTime < st'.currentTime ∧ st.currentTime < e) ∧
    (∀ b : Nat, 1 ≤ b → orDefault ((some (SlotConfig.mk (some b))).bind fun c => c.bufferTime) 5
      = b) ∧
    whileStep w appts d (orDefault (config.bind fun c => c.bufferTime) 5) (dateOf w.hora_fin)
      (whileLoop w appts d (orDefault (config.bind fun c => c.bufferTime) 5) (dateOf w.hora_fin)
        (dateOf w.hora_fin - dateOf w.hora_inicio) ⟨dateOf w.hora_inicio, slots⟩) = none ∧
    (∀ m, dateOf w.hora_fin - dateOf w.hora_inicio ≤ m →
      whileLoop w appts d (orDefault (config.bind fun c => c.bufferTime) 5) (dateOf w.hora_fin)
          m ⟨dateOf w.hora_inicio, slots⟩ =
        whileLoop w appts d (orDefault (config.bind fun c => c.bufferTime) 5) (dateOf w.hora_fin)
          (dateOf w.hora_fin - dateOf w.hora_inicio) ⟨dateOf w.hora_inicio, slots⟩) ∧
    forEachBody appts d (orDefault (config.bind fun c => c.bufferTime) 5) slots w =
      slots ++ generateSmartSlots [w] appts d config := by
  have hbuf := orDefault_pos (config.bind fun c => c.bufferTime)
  have hdone := whileLoop_done w appts d (orDefault (config.bind fun c => c.bufferTime) 5)
    (dateOf w.hora_fin) (by omega) (dateOf w.hora_fin - dateOf w.hora_inicio)
    ⟨dateOf w.hora_inicio, slots⟩ (Nat.le_refl _)
  refine ⟨?_, ?_, hdone, ?_, ?_⟩
  · intro e st st' h
    have := whileStep_currentTime w appts d _ e st st' h
    omega
  · intro b hb
    simp only [Option.some_bind, orDefault]
    rw [if_neg (by omega)]
  · intro m hm
    exact whileLoop_stable w appts d _ _ _ _ hdone m hm
  · rw [forEachBody_eq, generateSmartSlots_eq]
    simp

theorem generateSmartSlots_terminates_witness :
    whileStep bloqueManana [] 30 (orDefault ((some (SlotConfig.mk (some 5))).bind
      fun c => c.bufferTime) 5) 720 ⟨540, []⟩ = some ⟨575, [mkSlot 540 30]⟩ ∧
    ((LoopState.mk 575 [mkSlot 540 30]).currentTime = (LoopState.mk 540 []).currentTime + 30 +
        orDefault ((some (SlotConfig.mk (some 5))).bind fun c => c.bufferTime) 5 ∧
      (LoopState.mk 540 []).currentTime < (LoopState.mk 575 [mkSlot 540 30]).currentTime ∧
      (LoopState.mk 540 []).currentTime < 720) ∧
    (1 ≤ 5 ∧ orDefault ((some (SlotConfig.mk (some 5))).bind fun c => c.bufferTime) 5 = 5) ∧
    (dateOf bloqueManana.hora_fin - dateOf bloqueManana.hora_inicio ≤ 1000 ∧
      whileLoop bloqueManana [] 30 (orDefault ((some (SlotConfig.mk (some 5))).bind
          fun c => c.bufferTime) 5) (dateOf bloqueManana.hora_fin) 1000
          ⟨dateOf bloqueManana.hora_inicio, []⟩ =
        whileLoop bloqueManana [] 30 (orDefault ((some (SlotConfig.mk (some 5))).bind
          fun c => c.bufferTime) 5) (dateOf bloqueManana.hora_fin)
          (dateOf bloqueManana.hora_fin - dateOf bloqueManana.hora_inicio)
          ⟨dateOf bloqueManana.hora_inicio, []⟩) :=
  ⟨by decide,
    (generateSmartSlots_terminates bloqueManana [] 30 (some ⟨some 5⟩) []).1 720 ⟨540, []⟩
      ⟨575, [mkSlot 540 30]⟩ (by decide),
    ⟨by decide,
      (generateSmartSlots_terminates bloqueManana [] 30 (some ⟨some 5⟩) []).2.1 5 (by decide)⟩,
    by decide,
    (generateSmartSlots_terminates bloqueManana [] 30 (some ⟨some 5⟩) []).2.2.2.1 1000
      (by decide)⟩

/-! ## Lemmas on the calendar -/

theorem gregorianDaysBeforeYear_closed (y : Nat) :
    gregorianDaysBeforeYear y + (y + 99) / 100 = 365 * y + (y + 3) / 4 + (y + 399) / 400 := by
  induction y with
  | zero => simp [gregorianDaysBeforeYear]
  | succ n ih =>
    rw [gregorianDaysBeforeYear]
    unfold gregorianLeap
    by_cases h4 : n % 4 = 0 <;> by_cases h100 : n % 100 = 0 <;> by_cases h400 : n % 400 = 0 <;>
      simp [h4, h100, h400] <;> omega

theorem dayFromYear_eq (y : Nat) :
    dayFromYear (y : Int) = (gregorianDaysBeforeYear y : Int) - 719528 := by
  have h := gregorianDaysBeforeYear_closed y
  unfold dayFromYear
  omega

theorem inLeapYear_eq (y : Nat) : inLeapYear (y : Int) = gregorianLeap y := by
  unfold inLeapYear gregorianLeap
  by_cases h4 : y % 4 = 0 <;> by_cases h100 : y % 100 = 0 <;> by_cases h400 : y % 400 = 0 <;>
    simp [h4, h100, h400] <;> omega

theorem monthStart_eq (y m : Nat) (h1 : 1 ≤ m) (h12 : m ≤ 12) :
    monthStart ((m : Int) - 1) (gregorianLeap y) = (gregorianDaysThroughMonth y (m - 1) : Int) := by
  interval_cases m <;> cases hl : gregorianLeap y <;>
    simp [monthStart, gregorianDaysThroughMonth, gregorianMonthLength, hl]

theorem gregorianDaysThroughMonth_le (y m : Nat) (h12 : m ≤ 12) :
    gregorianDaysThroughMonth y m ≤ 366 := by
  interval_cases m <;> cases hl : gregorianLeap y <;>
    simp [gregorianDaysThroughMonth, gregorianMonthLength, hl]

theorem gregorianMonthLength_le (y m : Nat) : gregorianMonthLength y m ≤ 31 := by
  unfold gregorianMonthLength
  split
  · split <;> omega
  · split <;> omega

theorem map_jsNumber_splitDash_fechaText (y m d : Nat) (hy : y ≤ 9999) (hm : m ≤ 99)
    (hd : d ≤ 99) :
    (splitDash (fechaText y m d)).map jsNumber = [some y, some m, some d] := by
  have hne : ∀ a : Nat, (48 + a == 45) = false := by
    intro a
    rw [beq_eq_false_iff_ne]
    omega
  simp only [splitDash, fechaText, pad2, List.cons_append, List.nil_append, List.splitOn,
    List.splitOnP_cons, hne, Bool.false_eq_true, if_false, beq_self_eq_true, if_true,
    List.splitOnP_nil, List.modifyHead, List.map_cons, List.map_nil, jsNumber, List.all_cons,
    List.all_nil, List.foldl_cons, List.foldl_nil, Bool.and_true]
  have e1 : (decide (48 ≤ 48 + y / 1000) && decide (48 + y / 1000 ≤ 57) &&
      (decide (48 ≤ 48 + y / 100 % 10) && decide (48 + y / 100 % 10 ≤ 57) &&
        (decide (48 ≤ 48 + y / 10 % 10) && decide (48 + y / 10 % 10 ≤ 57) &&
          (decide (48 ≤ 48 + y % 10) && decide (48 + y % 10 ≤ 57))))) = true := by
    simp only [Bool.and_eq_true, decide_eq_true_eq]
    omega
  have e2 : (decide (48 ≤ 48 + m / 10) && decide (48 + m / 10 ≤ 57) &&
      (decide (48 ≤ 48 + m % 10) && decide (48 + m % 10 ≤ 57))) = true := by
    simp only [Bool.and_eq_true, decide_eq_true_eq]
    omega
  have e3 : (decide (48 ≤ 48 + d / 10) && decide (48 + d / 10 ≤ 57) &&
      (decide (48 ≤ 48 + d % 10) && decide (48 + d % 10 ≤ 57))) = true := by
    simp only [Bool.and_eq_true, decide_eq_true_eq]
    omega
  rw [if_pos e1, if_pos e2, if_pos e3]
  simp only [List.cons.injEq, Option.some.injEq, and_true]
  omega

theorem gregorianDayNumber_anchor : gregorianDayNumber 2000 1 1 = 730486 := by
  have h := gregorianDaysBeforeYear_closed 2000
  simp only [gregorianDayNumber, gregorianDaysThroughMonth]
  omega
theorem gregorianWeekday_lt (y m d : Nat) : gregorianWeekday y m d < 7 := by
  unfold gregorianWeekday
  omega

theorem getDayOfWeek_fechaText (y m d : Nat) (h100 : 100 ≤ y) (hv : validDate y m d) :
    getDayOfWeek (fechaText y m d) = days[gregorianWeekday y m d]? := by
  obtain ⟨hy, hm1, hm12, hd1, hd⟩ := hv
  have hml := gregorianMonthLength_le y m
  have hparse := map_jsNumber_splitDash_fechaText y m d hy (by omega) (by omega)
  have hclosed := gregorianDaysBeforeYear_closed y
  have hthrough := gregorianDaysThroughMonth_le y (m - 1) (by omega)
  have hfull : makeFullYear (y : Int) = (y : Int) := by
    unfold makeFullYear
    rw [if_neg (by omega)]
  have hq : ((m : Int) - 1) / 12 = 0 := by omega
  have hr : ((m : Int) - 1) % 12 = (m : Int) - 1 := by omega
  have hday : makeDay (y : Int) ((m : Int) - 1) (d : Int) =
      (gregorianDaysBeforeYear y : Int) - 719528 + (gregorianDaysThroughMonth y (m - 1) : Int)
        + (d : Int) - 1 := by
    unfold makeDay
    simp only [hq, hr, Int.add_zero, dayFromYear_eq, inLeapYear_eq, monthStart_eq y m hm1 hm12]
  unfold getDayOfWeek
  rw [hparse]
  simp only [dateUTC, hfull, hday]
  rw [if_pos (by omega)]
  have hw : weekDay ((gregorianDaysBeforeYear y : Int) - 719528 +
      (gregorianDaysThroughMonth y (m - 1) : Int) + (d : Int) - 1) = gregorianWeekday y m d := by
    unfold weekDay gregorianWeekday
    rw [gregorianDayNumber_anchor]
    unfold gregorianDayNumber
    omega
  simp only [hw]

/-- C18, as stated, fails for the years 0000 to 0099, which `Date.UTC` reads as 1900 to
1999: 0001-01-01 is a valid date and a Monday in the proleptic Gregorian calendar, and
`getDayOfWeek('0001-01-01')` is 'martes', the weekday of 1901-01-01. -/
theorem getDayOfWeek_two_digit_year :
    validDate 1 1 1 ∧ getDayOfWeek (fechaText 1 1 1) = some "martes" ∧
      days[gregorianWeekday 1 1 1]? = some "lunes" := by
  refine ⟨by unfold validDate; decide, by decide, ?_⟩
  unfold gregorianWeekday
  rw [gregorianDayNumber_anchor]
  decide

/-- C18 (as the code has it): for every valid calendar date `YYYY-MM-DD` with a year
from 0100 to 9999, `getDayOfWeek` returns the Spanish name (domingo, lunes, martes,
miercoles, jueves, viernes, sabado) of that date's weekday in the proleptic Gregorian
calendar; it is computed from (year, month, day) by `Date.UTC` and `getUTCDay`, which
read no timezone; '2024-12-15' gives 'domingo'. -/
theorem getDayOfWeek_gregorian :
    (∀ y m d : Nat, 100 ≤ y → validDate y m d →
      getDayOfWeek (fechaText y m d) = days[gregorianWeekday y m d]? ∧
        gregorianWeekday y m d < 7) ∧
    getDayOfWeek (fechaText 2024 12 15) = some "domingo" := by
  refine ⟨fun y m d h100 hv => ⟨getDayOfWeek_fechaText y m d h100 hv,
    gregorianWeekday_lt y m d⟩, by decide⟩

theorem getDayOfWeek_gregorian_witness :
    (100 ≤ 2024 ∧ validDate 2024 12 16) ∧
    getDayOfWeek (fechaText 2024 12 16) = days[gregorianWeekday 2024 12 16]? ∧
      gregorianWeekday 2024 12 16 < 7 :=
  ⟨⟨by decide, by unfold validDate; decide⟩,
    getDayOfWeek_gregorian.1 2024 12 16 (by decide) (by unfold validDate; decide)⟩

/-! ## Properties of getAvailableSlots -/

theorem checkSpecialDay_of_exists (store : Store) (id_usuario : Nat) (fecha : String)
    (h : ∃ e ∈ store.dias_especiales, e.id_usuario = id_usuario ∧ e.fecha = fecha) :
    ∃ specialDay ∈ store.dias_especiales, specialDay.id_usuario = id_usuario ∧
      specialDay.fecha = fecha ∧ checkSpecialDay store id_usuario fecha = some specialDay := by
  obtain ⟨e, he, h1, h2⟩ := h
  unfold checkSpecialDay
  have hmem : e ∈ store.dias_especiales.filter
      (fun e => e.id_usuario == id_usuario && e.fecha == fecha) := by
    simp [List.mem_filter, he, h1, h2]
  cases hl : store.dias_especiales.filter
      (fun e => e.id_usuario == id_usuario && e.fecha == fecha) with
  | nil => rw [hl] at hmem; simp at hmem
  | cons x xs =>
    have hx : x ∈ store.dias_especiales.filter
        (fun e => e.id_usuario == id_usuario && e.fecha == fecha) := by
      rw [hl]; simp
    rw [List.mem_filter] at hx
    simp only [Bool.and_eq_true, beq_iff_eq] at hx
    exact ⟨x, hx.1, hx.2.1, hx.2.2, rfl⟩

/-- C17: special-day precedence.  When the request names a date, a barber is resolved
and `dias_especiales` holds a record for that barber and date, `getAvailableSlots`
answers success with an empty slot list and a message that ends with the description of
the record when it has one that is not empty, and with its type when the description is
missing or empty; the answer does not depend on working hours, appointments,
configuration or the requested service. -/
theorem getAvailableSlots_special_day (store : Store) (q : SlotsQuery) (fecha : String)
    (barbero : Usuario) (hf : q.fecha = some fecha) (hne : fecha ≠ "")
    (hb : resolveBarbero store q.barbero_id = some barbero)
    (hs : ∃ e ∈ store.dias_especiales, e.id_usuario = barbero.id ∧ e.fecha = fecha) :
    ∃ specialDay ∈ store.dias_especiales, specialDay.id_usuario = barbero.id ∧
      specialDay.fecha = fecha ∧
      (getAvailableSlots store q).status = 200 ∧
      (getAvailableSlots store q).success = true ∧
      (getAvailableSlots store q).data = [] ∧
      (getAvailableSlots store q).barbero = some (barberoInfo barbero) ∧
      (∀ descripcion : String, specialDay.descripcion = some descripcion →
        descripcion ≠ "" →
        (getAvailableSlots store q).message =
          some ("No hay horarios disponibles: " ++ descripcion)) ∧
      (specialDay.descripcion = none ∨ specialDay.descripcion = some "" →
        (getAvailableSlots store q).message =
          some ("No hay horarios disponibles: " ++ specialDay.tipo)) := by
  obtain ⟨specialDay, hmem, h1, h2, h3⟩ := checkSpecialDay_of_exists store barbero.id fecha hs
  have hres : getAvailableSlots store q =
      { status := 200, success := true, data := [],
        message := some ("No hay horarios disponibles: " ++
          orText specialDay.descripcion specialDay.tipo),
        barbero := some (barberoInfo barbero) } := by
    unfold getAvailableSlots
    simp only [hf, if_neg hne, hb, h3]
  refine ⟨specialDay, hmem, h1, h2, ?_⟩
  rw [hres]
  refine ⟨rfl, rfl, rfl, rfl, ?_, ?_⟩
  · intro descripcion hd hdne
    simp only [orText, hd, if_neg hdne]
  · rintro (hd | hd)
    · simp only [orText, hd]
    · simp only [orText, hd, if_true]

theorem getAvailableSlots_special_day_witness :
    ((SlotsQuery.mk (some "2024-12-16") (some 7) none none).fecha = some "2024-12-16" ∧
      "2024-12-16" ≠ "" ∧
      resolveBarbero tiendaTurnoFeriado
        (SlotsQuery.mk (some "2024-12-16") (some 7) none none).barbero_id
        = some ⟨1, "Ana", "Paz", none, "barbero", "activo"⟩ ∧
      tiendaTurnoFeriado.dias_especiales =
        [⟨1, "2024-12-16", "feriado", some "Feriado", true, none, none⟩] ∧
      tiendaTurnoFeriado.horarios_laborales ≠ [] ∧ tiendaTurnoFeriado.turnos ≠ []) ∧
    (getAvailableSlots tiendaTurnoFeriado ⟨some "2024-12-16", some 7, none, none⟩).success
      = true ∧
    (getAvailableSlots tiendaTurnoFeriado ⟨some "2024-12-16", some 7, none, none⟩).data
      = [] ∧
    (getAvailableSlots tiendaTurnoFeriado ⟨some "2024-12-16", some 7, none, none⟩).message
      = some "No hay horarios disponibles: Feriado" := by
  obtain ⟨specialDay, hmem, _, _, _, hsuccess, hdata, _, hmsg, _⟩ :=
    getAvailableSlots_special_day tiendaTurnoFeriado ⟨some "2024-12-16", some 7, none, none⟩
      "2024-12-16" ⟨1, "Ana", "Paz", none, "barbero", "activo"⟩ rfl (by decide) (by decide)
      ⟨⟨1, "2024-12-16", "feriado", some "Feriado", true, none, none⟩, by decide, rfl, rfl⟩
  have hrow : specialDay ∈
      [(⟨1, "2024-12-16", "feriado", some "Feriado", true, none, none⟩ : DiaEspecial)] := hmem
  rw [List.mem_singleton] at hrow
  subst hrow
  exact ⟨by decide, hsuccess, hdata, (hmsg "Feriado" rfl (by decide)).trans (by decide)⟩

/-- C19, as stated, fails: for a service whose stored `duracion` is 0 the answer is
success = true and the slot list is the one `generateSmartSlots` builds for
`serviceDuration = 0` (slots of length zero), not a validation error. -/
theorem getAvailableSlots_zero_duration :
    serviceDurationOf tiendaDuracionCero (some 7) = 0 ∧
    getAvailableSlots tiendaDuracionCero ⟨some "2024-12-16", some 7, none, none⟩ =
      { status := 200, success := true,
        data := generateSmartSlots [bloqueManana] [] 0 (some ⟨some 60⟩),
        message := none,
        barbero := some ⟨1, "Ana Paz", "Barbería", "barbero"⟩ } ∧
    generateSmartSlots [bloqueManana] [] 0 (some ⟨some 60⟩) =
      [mkSlot 540 0, mkSlot 600 0, mkSlot 660 0] := by
  decide

/-- C19 (as the code has it): `getAvailableSlots` does not check the duration.  Once
the date is given, a barber is resolved, no special day is recorded and the weekday has
working hours, it answers success = true with the slots of `generateSmartSlots` called
with the stored `duracion` of the requested active service, for every stored `duracion`
that is a whole number from zero up, and with 30 when no service id is given or no
active service has that id. -/
theorem getAvailableSlots_passes_duration (store : Store) (q : SlotsQuery) (fecha : String)
    (barbero : Usuario) (hf : q.fecha = some fecha) (hne : fecha ≠ "")
    (hb : resolveBarbero store q.barbero_id = some barbero)
    (hs : checkSpecialDay store barbero.id fecha = none)
    (hw : getWorkingHours store barbero.id (getDayOfWeek (unitsOf fecha)) ≠ []) :
    getAvailableSlots store q =
      { status := 200, success := true,
        data := generateSmartSlots
          (getWorkingHours store barbero.id (getDayOfWeek (unitsOf fecha)))
          (match q.exclude_id with
            | some x =>
              (getTodayAppointments store.turnos store.clientes store.servicios barbero.id
                fecha).filter fun app => app.id != x
            | none =>
              getTodayAppointments store.turnos store.clientes store.servicios barbero.id
                fecha)
          (serviceDurationOf store q.servicio_id)
          (intervalConfig (getBarberConfig store barbero.id)),
        message := none,
        barbero := some (barberoInfo barbero) } ∧
    (∀ (id : Nat) (servicio : Servicio), q.servicio_id = some id →
      (store.servicios.filter fun s => s.id == id && s.estado == "activo").head? = some servicio →
      serviceDurationOf store q.servicio_id = servicio.duracion) ∧
    (q.servicio_id = none → serviceDurationOf store q.servicio_id = 30) ∧
    (∀ id : Nat, q.servicio_id = some id →
      (store.servicios.filter fun s => s.id == id && s.estado == "activo").head? = none →
      serviceDurationOf store q.servicio_id = 30) := by
  refine ⟨?_, ?_, ?_, ?_⟩
  · unfold getAvailableSlots
    have hw' : (getWorkingHours store barbero.id (getDayOfWeek (unitsOf fecha))).isEmpty
        = false := by
      cases h : getWorkingHours store barbero.id (getDayOfWeek (unitsOf fecha)) with
      | nil => exact absurd h hw
      | cons _ _ => rfl
    simp only [hf, if_neg hne, hb, hs, hw', Bool.false_eq_true, if_false]
  · intro id servicio h1 h2
    simp only [serviceDurationOf, h1, h2]
  · intro h
    simp only [serviceDurationOf, h]
  · intro id h1 h2
    simp only [serviceDurationOf, h1, h2]

theorem getAvailableSlots_passes_duration_witness :
    ((SlotsQuery.mk (some "2024-12-16") (some 7) none none).fecha = some "2024-12-16" ∧
      "2024-12-16" ≠ "" ∧
      resolveBarbero tiendaDuracionCero
        (SlotsQuery.mk (some "2024-12-16") (some 7) none none).barbero_id
        = some ⟨1, "Ana", "Paz", none, "barbero", "activo"⟩ ∧
      checkSpecialDay tiendaDuracionCero 1 "2024-12-16" = none ∧
      getWorkingHours tiendaDuracionCero 1 (getDayOfWeek (unitsOf "2024-12-16")) ≠ []) ∧
    (getAvailableSlots tiendaDuracionCero ⟨some "2024-12-16", some 7, none, none⟩).success
      = true ∧
    serviceDurationOf tiendaDuracionCero
      (SlotsQuery.mk (some "2024-12-16") (some 7) none none).servicio_id = 0 :=
  ⟨by decide,
    by
      rw [(getAvailableSlots_passes_duration tiendaDuracionCero
        ⟨some "2024-12-16", some 7, none, none⟩ "2024-12-16"
        ⟨1, "Ana", "Paz", none, "barbero", "activo"⟩ rfl (by decide) (by decide) (by decide)
        (by decide)).1],
    (getAvailableSlots_passes_duration tiendaDuracionCero
        ⟨some "2024-12-16", some 7, none, none⟩ "2024-12-16"
        ⟨1, "Ana", "Paz", none, "barbero", "activo"⟩ rfl (by decide) (by decide) (by decide)
        (by decide)).2.1 7 ⟨7, 1, 0, 100, "activo"⟩ rfl (by decide)⟩

/-! ## Properties of createBooking and of the dashboard writes -/

theorem minutesOf_toTimeString5_mod (t : Nat) : minutesOf (toTimeString5 t) = t % 1440 := by
  simp only [toTimeString5, pad2, minutesOf, List.cons_append, List.nil_append]
  omega

theorem dateOf_storedTime (t : Nat) : dateOf (storedTime (toTimeString5 t)) = t % 1440 := by
  unfold storedTime dateOf
  rw [minutesOf_toTimeString5_mod]
  simp only [Fin.ofNat, Fin.val_mk]
  omega

theorem orDefault_pos30 (x : Option Nat) : 0 < orDefault x 30 := by
  unfold orDefault
  split
  · split <;> omega
  · omega

theorem conflictCondition_of_overlaps (a b s e : Nat) (h : overlaps s e a b) :
    conflictCondition a b s e = true := by
  unfold overlaps at h
  unfold conflictCondition
  simp only [Bool.or_eq_true, Bool.and_eq_true, decide_eq_true_eq]
  omega

theorem checkAvailability_false_of_overlap (turnos : List Turno) (id_usuario : Nat)
    (fecha : String) (hora_inicio hora_fin : Hora) (t : Turno) (ht : t ∈ turnos)
    (h1 : t.id_usuario = id_usuario) (h2 : t.fecha = fecha)
    (h3 : notInTerminal t.estado = true)
    (h4 : overlaps (dateOf hora_inicio) (dateOf hora_fin)
      (dateOf t.hora_inicio) (dateOf t.hora_fin)) :
    checkAvailability turnos id_usuario fecha hora_inicio hora_fin none = false := by
  unfold checkAvailability
  rw [← Bool.not_eq_true]
  simp only [beq_iff_eq, List.length_eq_zero, List.filter_eq_nil_iff, Bool.and_eq_true,
    decide_eq_true_eq, not_and, not_forall]
  exact ⟨t, ht, ⟨⟨⟨h1, h2⟩, h3⟩, conflictCondition_of_overlaps _ _ _ _ h4⟩, by simp⟩

theorem checkAvailability_true_no_overlap (turnos : List Turno) (id_usuario : Nat)
    (fecha : String) (hora_inicio hora_fin : Hora)
    (h : checkAvailability turnos id_usuario fecha hora_inicio hora_fin none = true)
    (t : Turno) (ht : t ∈ turnos) (h1 : t.id_usuario = id_usuario) (h2 : t.fecha = fecha)
    (h3 : notInTerminal t.estado = true) :
    ¬ overlaps (dateOf hora_inicio) (dateOf hora_fin)
      (dateOf t.hora_inicio) (dateOf t.hora_fin) := by
  intro hov
  rw [checkAvailability_false_of_overlap turnos id_usuario fecha hora_inicio hora_fin t ht h1 h2
    h3 hov] at h
  exact Bool.false_ne_true h

theorem createBooking_refuses_overlap (env : BookingEnv) (store : Store) (req : BookingRequest)
    (servicio : Nat) (hora : Hora) (serviceInfo : Servicio)
    (hs : req.servicio = some servicio) (hh : req.hora = some hora)
    (hreq : req.nombre ≠ "" ∧ req.apellido ≠ "" ∧ req.telefono ≠ "" ∧ servicio ≠ 0 ∧
      req.fecha ≠ "")
    (hdate : env.isValidDate req.fecha = true)
    (hemail : ∀ email, req.email = some email → email ≠ "" → env.isValidEmail email = true)
    (hpast : env.isPastDate req.fecha = false)
    (hserv : getServiceInfoById store servicio = some serviceInfo)
    (hconf : ∃ t ∈ store.turnos, t.id_usuario = serviceInfo.id_usuario ∧ t.fecha = req.fecha ∧
      notInTerminal t.estado = true ∧
      overlaps (dateOf hora) ((dateOf hora + orDefault (some serviceInfo.duracion) 30) % 1440)
        (dateOf t.hora_inicio) (dateOf t.hora_fin)) :
    createBooking env store req =
      (store, some ⟨400, false, "El horario seleccionado no está disponible", none⟩) := by
  obtain ⟨t, ht, h1, h2, h3, h4⟩ := hconf
  obtain ⟨r1, r2, r3, r4, r5⟩ := hreq
  have hav : checkAvailability store.turnos serviceInfo.id_usuario req.fecha hora
      (storedTime (toTimeString5 (dateOf hora + orDefault (some serviceInfo.duracion) 30)))
      none = false := by
    apply checkAvailability_false_of_overlap _ _ _ _ _ t ht h1 h2 h3
    rw [dateOf_storedTime]
    exact h4
  have hem : emailRejected env req = false := by
    unfold emailRejected
    cases he : req.email with
    | none => rfl
    | some email =>
      simp only
      by_cases hE : email = ""
      · simp [hE]
      · simp [hE, hemail email he hE]
  unfold createBooking
  simp only [hs, hh, r1, r2, r3, r4, r5, or_self, if_false, hdate, Bool.not_true,
    Bool.false_eq_true, hem, hpast, hserv, hav, Bool.not_false, if_true]

/-- C11: a request that passes the validations before the re-check (required fields,
date, email, not a past date, active service) and whose window `hora` to `hora` plus the
service duration (30 when the service has none) ends before midnight and overlaps an
occupied appointment of the service's barber on that date is answered 400 with
success = false and the message 'El horario seleccionado no está disponible', all
tables unchanged.  At the failing input the window runs past midnight: barber 1 has the
reserved appointment 23:50-23:59, the request asks for 23:45 with the 30-minute
service 7, the window 23:45-24:15 overlaps the appointment, and `createBooking` answers
201 and stores the appointment 23:45-00:15. -/
theorem createBooking_conflict :
    (∀ (env : BookingEnv) (store : Store) (req : BookingRequest) (servicio : Nat)
      (hora : Hora) (serviceInfo : Servicio),
      req.servicio = some servicio → req.hora = some hora →
      (req.nombre ≠ "" ∧ req.apellido ≠ "" ∧ req.telefono ≠ "" ∧ servicio ≠ 0 ∧
        req.fecha ≠ "") →
      env.isValidDate req.fecha = true →
      (∀ email, req.email = some email → email ≠ "" → env.isValidEmail email = true) →
      env.isPastDate req.fecha = false →
      getServiceInfoById store servicio = some serviceInfo →
      dateOf hora + orDefault (some serviceInfo.duracion) 30 < 1440 →
      (∃ t ∈ store.turnos, t.id_usuario = serviceInfo.id_usuario ∧ t.fecha = req.fecha ∧
        notInTerminal t.estado = true ∧
        overlaps (dateOf hora) (dateOf hora + orDefault (some serviceInfo.duracion) 30)
          (dateOf t.hora_inicio) (dateOf t.hora_fin)) →
      createBooking env store req =
        (store, some ⟨400, false, "El horario seleccionado no está disponible", none⟩)) ∧
    (tiendaNoche.turnos.map fun t =>
        (t.id_usuario, t.fecha, t.hora_inicio, t.hora_fin, t.estado)) =
      [(1, "2024-12-16", ⟨23, 50, true⟩, ⟨23, 59, true⟩, Estado.reservado)] ∧
    getServiceInfoById tiendaNoche 7 = some ⟨7, 1, 30, 30, "activo"⟩ ∧
    overlaps (dateOf ⟨23, 45, false⟩) (dateOf ⟨23, 45, false⟩ + orDefault (some 30) 30)
      (dateOf ⟨23, 50, true⟩) (dateOf ⟨23, 59, true⟩) ∧
    ((createBooking entornoAbierto tiendaNoche (pedido ⟨23, 45, false⟩)).2.map
      fun r => (r.status, r.success, r.message)) =
      some (201, true, "Reserva creada exitosamente") ∧
    ((createBooking entornoAbierto tiendaNoche (pedido ⟨23, 45, false⟩)).1.turnos.map
      fun t => (t.id_usuario, t.fecha, t.hora_inicio, t.hora_fin, t.estado)) =
      [(1, "2024-12-16", ⟨23, 50, true⟩, ⟨23, 59, true⟩, Estado.reservado),
        (1, "2024-12-16", ⟨23, 45, true⟩, ⟨0, 15, true⟩, Estado.reservado)] := by
  refine ⟨?_, by decide, by decide, by decide, by decide, by decide⟩
  intro env store req servicio hora serviceInfo hs hh hreq hdate hemail hpast hserv hday hconf
  obtain ⟨t, ht, h1, h2, h3, h4⟩ := hconf
  apply createBooking_refuses_overlap env store req servicio hora serviceInfo hs hh hreq hdate
    hemail hpast hserv
  refine ⟨t, ht, h1, h2, h3, ?_⟩
  rw [Nat.mod_eq_of_lt hday]
  exact h4

theorem createBooking_conflict_witness :
    ((pedido ⟨10, 30, false⟩).servicio = some 7 ∧
      (pedido ⟨10, 30, false⟩).hora = some ⟨10, 30, false⟩ ∧
      getServiceInfoById tiendaConTurno 7 = some ⟨7, 1, 30, 30, "activo"⟩ ∧
      dateOf ⟨10, 30, false⟩ + orDefault (some 30) 30 < 1440 ∧
      turnoDiez ∈ tiendaConTurno.turnos ∧
      overlaps (dateOf ⟨10, 30, false⟩) (dateOf ⟨10, 30, false⟩ + orDefault (some 30) 30)
        (dateOf turnoDiez.hora_inicio) (dateOf turnoDiez.hora_fin)) ∧
    createBooking entornoAbierto tiendaConTurno (pedido ⟨10, 30, false⟩) =
      (tiendaConTurno, some ⟨400, false, "El horario seleccionado no está disponible", none⟩) :=
  ⟨by decide,
    createBooking_conflict.1 entornoAbierto tiendaConTurno (pedido ⟨10, 30, false⟩) 7
      ⟨10, 30, false⟩ ⟨7, 1, 30, 30, "activo"⟩ rfl rfl (by decide) rfl
      (by intro email h; cases h) rfl (by decide) (by decide)
      ⟨turnoDiez, by decide, rfl, rfl, rfl, by decide⟩⟩

theorem createBooking_turnos (env : BookingEnv) (store : Store) (req : BookingRequest) :
    (createBooking env store req).1.turnos = store.turnos ∨
    ∃ (hora : Hora) (a : Turno),
      (createBooking env store req).1.turnos = store.turnos ++ [a] ∧
      req.hora = some hora ∧ a.fecha = req.fecha ∧ a.estado = Estado.reservado ∧
      a.hora_inicio = { hora with secs := true } ∧
      (∃ d, 1 ≤ d ∧ a.hora_fin = storedTime (toTimeString5 (dateOf hora + d))) ∧
      checkAvailability store.turnos a.id_usuario a.fecha hora a.hora_fin none = true := by
  unfold createBooking
  split
  · rename_i servicio hora hs hh
    split
    · exact Or.inl rfl
    · split
      · exact Or.inl rfl
      · split
        · exact Or.inl rfl
        · split
          · exact Or.inl rfl
          · split
            · exact Or.inl rfl
            · rename_i serviceInfo _
              dsimp only
              split
              · exact Or.inl rfl
              · rename_i hav
                split
                · exact Or.inl rfl
                · split
                  · exact Or.inl rfl
                  · refine Or.inr ⟨hora, _, rfl, hh, rfl, rfl, rfl,
                      ⟨orDefault (some serviceInfo.duracion) 30, ?_, rfl⟩, ?_⟩
                    · exact orDefault_pos30 _
                    · simpa using hav
  · exact Or.inl rfl

theorem overlaps_symm (s1 e1 s2 e2 : Nat) (h : overlaps s1 e1 s2 e2) : overlaps s2 e2 s1 e1 := by
  unfold overlaps at h ⊢
  omega

theorem createBooking_keeps_noDoubleBooking (env : BookingEnv) (store : Store)
    (req : BookingRequest) (h : noDoubleBooking store.turnos) :
    noDoubleBooking (createBooking env store req).1.turnos := by
  rcases createBooking_turnos env store req with h1 | ⟨hora, a, h1, _, _, _, hin, _, hav⟩
  · rw [h1]; exact h
  · rw [h1]
    unfold noDoubleBooking at h ⊢
    rw [List.pairwise_append]
    refine ⟨h, List.pairwise_singleton _ _, ?_⟩
    intro t ht b hb
    simp only [List.mem_singleton] at hb
    subst hb
    intro e1 e2 o1 _ hov
    have hno := checkAvailability_true_no_overlap _ _ _ _ _ hav t ht e1 e2 o1
    apply hno
    have hd : dateOf b.hora_inicio = dateOf hora := by rw [hin]; rfl
    rw [← hd]
    exact overlaps_symm _ _ _ _ hov

/-- C12 at the failing inputs.  `createBooking` keeps the invariant: it writes only after
the re-check found no conflict.  The dashboard writes do not run the re-check: with the
reserved appointment 10:05-11:05 of barber 1 in the store, `createAppointment` for the
same barber and date at 10:30 answers 201 and inserts 10:30-11:00, and
`updateAppointment` moves the appointment 12:00-12:30 to 10:30-11:00 and answers 200,
although `checkAvailability` reports the window as taken; both leave two overlapping
occupied appointments. -/
theorem dashboard_writes_skip_recheck :
    (∀ (env : BookingEnv) (store : Store) (req : BookingRequest),
      noDoubleBooking store.turnos → noDoubleBooking (createBooking env store req).1.turnos) ∧
    checkAvailability tiendaConTurno.turnos 1 "2024-12-16" ⟨10, 30, false⟩
      (storedTime (calcularHoraFin ⟨10, 30, false⟩ 30)) none = false ∧
    (noDoubleBooking tiendaConTurno.turnos ∧
      (createAppointment "ABC123" tiendaConTurno 1 cuerpoDiezTreinta).2.status = 201 ∧
      ¬ noDoubleBooking (createAppointment "ABC123" tiendaConTurno 1 cuerpoDiezTreinta).1.turnos) ∧
    (noDoubleBooking tiendaDosTurnos.turnos ∧
      (updateAppointment tiendaDosTurnos 1 2 cuerpoDiezTreinta).2.status = 200 ∧
      ¬ noDoubleBooking (updateAppointment tiendaDosTurnos 1 2 cuerpoDiezTreinta).1.turnos) := by
  exact ⟨createBooking_keeps_noDoubleBooking, by decide, by decide, by decide⟩

theorem dashboard_writes_skip_recheck_witness :
    noDoubleBooking tiendaConTurno.turnos ∧
    noDoubleBooking (createBooking entornoAbierto tiendaConTurno (pedido ⟨11, 5, false⟩)).1.turnos :=
  ⟨by decide,
    dashboard_writes_skip_recheck.1 entornoAbierto tiendaConTurno (pedido ⟨11, 5, false⟩)
      (by decide)⟩

/-- C20 at the failing input: a booking of the 30-minute service at 23:45 is accepted
(201) and the appointment is written with `hora_inicio` 23:45 and `hora_fin` 00:15, the
time of day after midnight, so `hora_inicio < hora_fin` does not hold. -/
theorem createBooking_late_start :
    (createBooking entornoAbierto tiendaConTurno (pedido ⟨23, 45, false⟩)).2 =
      some ⟨201, true, "Reserva creada exitosamente",
        some ⟨2, "K3X9QZ", "2024-12-16", ⟨23, 45, false⟩, toTimeString5 15⟩⟩ ∧
    (createBooking entornoAbierto tiendaConTurno (pedido ⟨23, 45, false⟩)).1.turnos =
      [turnoDiez,
        { id := 2, id_usuario := 1, fecha := "2024-12-16", hora_inicio := ⟨23, 45, true⟩,
          hora_fin := ⟨0, 15, true⟩, estado := Estado.reservado, id_cliente := 1,
          id_servicio := 7, codigo_cancelacion := "K3X9QZ" }] ∧
    ¬ (dateOf (Hora.mk 23 45 true) < dateOf (Hora.mk 0 15 true)) := by
  decide

/-! ## Listing against the re-check, and the busy list -/

theorem gridSlots_congr (w : WorkHour) (b1 b2 : List Turno) (d buf e : Nat)
    (h : ∀ c, emits w b1 d c = emits w b2 d c) (fuel : Nat) :
    ∀ c, gridSlots w b1 d buf e fuel c = gridSlots w b2 d buf e fuel c := by
  induction fuel with
  | zero => intro c; rfl
  | succ f ih =>
    intro c
    rw [gridSlots, gridSlots, h c, ih]

theorem isOccupied_perm (b1 b2 : List Turno) (hp : b1.Perm b2) (c e : Nat) :
    isOccupied b1 c e = isOccupied b2 c e := by
  rw [Bool.eq_iff_iff, isOccupied_iff, isOccupied_iff]
  constructor
  · rintro ⟨a, ha, h⟩
    exact ⟨a, hp.mem_iff.1 ha, h⟩
  · rintro ⟨a, ha, h⟩
    exact ⟨a, hp.mem_iff.2 ha, h⟩

theorem emits_append (w : WorkHour) (busy : List Turno) (a : Turno) (d c : Nat) :
    emits w (busy ++ [a]) d c =
      (emits w busy d c &&
        !(decide (c < dateOf a.hora_fin) && decide (c + d > dateOf a.hora_inicio))) := by
  unfold emits isOccupied
  simp only [List.any_append, List.any_cons, List.any_nil, Bool.or_false, Bool.not_or,
    Bool.and_assoc]

theorem gridSlots_append_filter (w : WorkHour) (busy : List Turno) (a : Turno)
    (d buf e : Nat) (he : e < 1440) (fuel : Nat) : ∀ c,
    gridSlots w (busy ++ [a]) d buf e fuel c =
      (gridSlots w busy d buf e fuel c).filter fun s =>
        decide (¬ overlaps (minutesOf s.hora_inicio) (minutesOf s.hora_fin)
          (dateOf a.hora_inicio) (dateOf a.hora_fin)) := by
  induction fuel with
  | zero => intro c; simp [gridSlots]
  | succ f ih =>
    intro c
    rw [gridSlots, gridSlots]
    split
    · rename_i hc
      rw [List.filter_append, ← ih, emits_append]
      congr 1
      have h1 : minutesOf (mkSlot c d).hora_inicio = c := by
        simp only [mkSlot]; exact minutesOf_toTimeString5 _ (by omega)
      have h2 : minutesOf (mkSlot c d).hora_fin = c + d := by
        simp only [mkSlot]; exact minutesOf_toTimeString5 _ (by omega)
      cases hem : emits w busy d c
      · simp
      · by_cases hov : overlaps c (c + d) (dateOf a.hora_inicio) (dateOf a.hora_fin)
        · have hov' := hov
          unfold overlaps at hov'
          simp [List.filter_cons, h1, h2, hov, hov'.1, hov'.2]
        · have hov' := hov
          unfold overlaps at hov'
          have : (decide (c < dateOf a.hora_fin) && decide (c + d > dateOf a.hora_inicio))
              = false := by
            rw [← Bool.not_eq_true]
            simp only [Bool.and_eq_true, decide_eq_true_eq]
            omega
          simp [List.filter_cons, h1, h2, hov, this]
    · simp

theorem filter_flatMap_eq {α β : Type} (p : β → Bool) (f : α → List β) (l : List α) :
    (l.flatMap f).filter p = l.flatMap fun x => (f x).filter p := by
  induction l with
  | nil => rfl
  | cons x xs ih => simp [List.flatMap_cons, List.filter_append, ih]

/-- C27, as stated, fails: the appointment 10:05-11:05 of `tiendaConTurno` names a
client and a service that have no row, so the listing, which joins both tables, does not
read it.  `getAvailableSlots` lists the slot 10:10-10:40 for service 7, and
`createBooking` for 10:10 on the same data is refused by the re-check. -/
theorem listed_slot_refused :
    mkSlot 610 30 ∈
      (getAvailableSlots tiendaConTurno ⟨some "2024-12-16", some 7, none, none⟩).data ∧
    (mkSlot 610 30).hora_inicio = toTimeString5 (dateOf ⟨10, 10, false⟩) ∧
    createBooking entornoAbierto tiendaConTurno (pedido ⟨10, 10, false⟩) =
      (tiendaConTurno,
        some ⟨400, false, "El horario seleccionado no está disponible", none⟩) := by
  refine ⟨by decide, by decide, by decide⟩

/-- C27 (as the code has it): for a busy list whose appointments all have
`hora_inicio < hora_fin` and a duration above zero, every slot `generateSmartSlots`
emits meets the conflict condition of `checkAvailability` with none of these
appointments; and when the busy list is the listing `getTodayAppointments` of the
barber and date and every appointment of `turnos` has its client row and its service
row, `checkAvailability` for the slot's window answers true on the same tables. -/
theorem listed_slot_passes_recheck (ws : List WorkHour) (busy : List Turno) (d : Nat)
    (config : Option SlotConfig) (hd : 0 < d)
    (hbusy : ∀ a ∈ busy, dateOf a.hora_inicio < dateOf a.hora_fin) :
    ∀ s ∈ generateSmartSlots ws busy d config,
      (∀ a ∈ busy, conflictCondition (dateOf a.hora_inicio) (dateOf a.hora_fin)
        (minutesOf s.hora_inicio) (minutesOf s.hora_fin) = false) ∧
      (∀ (turnos : List Turno) (clientes : List Cliente) (servicios : List Servicio)
        (id_usuario : Nat) (fecha : String),
        busy = getTodayAppointments turnos clientes servicios id_usuario fecha →
        (∀ t ∈ turnos, (∃ c ∈ clientes, c.id = t.id_cliente) ∧
          (∃ s ∈ servicios, s.id = t.id_servicio)) →
        checkAvailability turnos id_usuario fecha (storedTime s.hora_inicio)
          (storedTime s.hora_fin) none = true) := by
  intro s hs
  obtain ⟨w, _, c, hc, _, h2, e1, e2, _, hno⟩ := slot_of_mem ws busy d config s hs
  have hlt := dateOf_lt w.hora_fin
  have key : ∀ a ∈ busy, conflictCondition (dateOf a.hora_inicio) (dateOf a.hora_fin)
      c (c + d) = false := by
    intro a ha
    rw [← Bool.not_eq_true, conflictCondition_iff _ _ _ _ (by omega) (hbusy a ha)]
    exact hno a ha
  refine ⟨?_, ?_⟩
  · intro a ha
    rw [e1, e2]
    exact key a ha
  · intro turnos clientes servicios u f hb hint
    have d1 : dateOf (storedTime s.hora_inicio) = c := by
      rw [hc]; simp only [mkSlot]; rw [dateOf_storedTime]; omega
    have d2 : dateOf (storedTime s.hora_fin) = c + d := by
      rw [hc]; simp only [mkSlot]; rw [dateOf_storedTime]; omega
    rw [checkAvailability_iff, d1, d2]
    intro t ht h1 h3 h4
    apply key
    rw [hb]
    exact (mem_getTodayAppointments turnos clientes servicios u f t).2
      ⟨ht, (hint t ht).1, (hint t ht).2, h1, h3, h4⟩

theorem listed_slot_passes_recheck_witness :
    (0 < 30 ∧
      (∀ a ∈ getTodayAppointments tiendaIntegra.turnos tiendaIntegra.clientes
          tiendaIntegra.servicios 1 "2024-12-16",
        dateOf a.hora_inicio < dateOf a.hora_fin) ∧
      getTodayAppointments tiendaIntegra.turnos tiendaIntegra.clientes
        tiendaIntegra.servicios 1 "2024-12-16" = [turnoDiezCliente] ∧
      mkSlot 575 30 ∈ generateSmartSlots [bloqueManana]
        (getTodayAppointments tiendaIntegra.turnos tiendaIntegra.clientes
          tiendaIntegra.servicios 1 "2024-12-16") 30 (some ⟨some 5⟩) ∧
      (∀ t ∈ tiendaIntegra.turnos, (∃ c ∈ tiendaIntegra.clientes, c.id = t.id_cliente) ∧
        (∃ s ∈ tiendaIntegra.servicios, s.id = t.id_servicio))) ∧
    (∀ a ∈ getTodayAppointments tiendaIntegra.turnos tiendaIntegra.clientes
        tiendaIntegra.servicios 1 "2024-12-16",
      conflictCondition (dateOf a.hora_inicio) (dateOf a.hora_fin)
        (minutesOf (mkSlot 575 30).hora_inicio) (minutesOf (mkSlot 575 30).hora_fin) = false) ∧
    checkAvailability tiendaIntegra.turnos 1 "2024-12-16"
      (storedTime (mkSlot 575 30).hora_inicio) (storedTime (mkSlot 575 30).hora_fin) none
      = true :=
  ⟨by decide,
    (listed_slot_passes_recheck [bloqueManana]
      (getTodayAppointments tiendaIntegra.turnos tiendaIntegra.clientes
        tiendaIntegra.servicios 1 "2024-12-16")
      30 (some ⟨some 5⟩) (by decide) (by decide) (mkSlot 575 30) (by decide)).1,
    (listed_slot_passes_recheck [bloqueManana]
      (getTodayAppointments tiendaIntegra.turnos tiendaIntegra.clientes
        tiendaIntegra.servicios 1 "2024-12-16")
      30 (some ⟨some 5⟩) (by decide) (by decide) (mkSlot 575 30) (by decide)).2
      tiendaIntegra.turnos tiendaIntegra.clientes tiendaIntegra.servicios 1 "2024-12-16" rfl
      (by decide)⟩

/-- C29: slot availability is monotone in the busy list.  Adding an appointment `a` to
the busy list gives the former result with exactly the slots overlapping `a` removed, so
no slot is added, moved or reordered (the new result is a sublist of the old one); and
two busy lists with the same appointments in a different order give the same result. -/
theorem generateSmartSlots_busy_monotone (ws : List WorkHour) (busy : List Turno) (d : Nat)
    (config : Option SlotConfig) :
    (∀ a : Turno, generateSmartSlots ws (busy ++ [a]) d config =
      (generateSmartSlots ws busy d config).filter fun s =>
        decide (¬ overlaps (minutesOf s.hora_inicio) (minutesOf s.hora_fin)
          (dateOf a.hora_inicio) (dateOf a.hora_fin))) ∧
    (∀ a : Turno, (generateSmartSlots ws (busy ++ [a]) d config).Sublist
      (generateSmartSlots ws busy d config)) ∧
    (∀ busy2 : List Turno, busy.Perm busy2 →
      generateSmartSlots ws busy d config = generateSmartSlots ws busy2 d config) := by
  have h1 : ∀ a : Turno, generateSmartSlots ws (busy ++ [a]) d config =
      (generateSmartSlots ws busy d config).filter fun s =>
        decide (¬ overlaps (minutesOf s.hora_inicio) (minutesOf s.hora_fin)
          (dateOf a.hora_inicio) (dateOf a.hora_fin)) := by
    intro a
    rw [generateSmartSlots_eq, generateSmartSlots_eq, filter_flatMap_eq]
    congr 1
    funext w
    exact gridSlots_append_filter w busy a d _ _ (dateOf_lt _) _ _
  refine ⟨h1, ?_, ?_⟩
  · intro a
    rw [h1 a]
    exact List.filter_sublist _
  · intro busy2 hp
    rw [generateSmartSlots_eq, generateSmartSlots_eq]
    congr 1
    funext w
    apply gridSlots_congr
    intro c
    unfold emits
    rw [isOccupied_perm busy busy2 hp]

theorem generateSmartSlots_busy_monotone_witness :
    [turnoDiez, turnoCatorce].Perm [turnoCatorce, turnoDiez] ∧
    generateSmartSlots [bloqueDia] [turnoDiez, turnoCatorce] 60 none =
      generateSmartSlots [bloqueDia] [turnoCatorce, turnoDiez] 60 none :=
  ⟨List.Perm.swap _ _ _,
    (generateSmartSlots_busy_monotone [bloqueDia] [turnoDiez, turnoCatorce] 60 none).2.2 _
      (List.Perm.swap _ _ _)⟩

/-! ## Further properties of the writes -/

theorem createBooking_cases (env : BookingEnv) (store : Store) (req : BookingRequest) :
    ((createBooking env store req).1.turnos = store.turnos ∧
      ∀ r, (createBooking env store req).2 = some r → r.status ≠ 201) ∨
    ∃ (servicio : Nat) (hora : Hora) (serviceInfo : Servicio) (clientes : List Cliente)
      (client : Cliente) (codigo : String),
      req.servicio = some servicio ∧ req.hora = some hora ∧
      (req.nombre ≠ "" ∧ req.apellido ≠ "" ∧ req.telefono ≠ "" ∧ servicio ≠ 0 ∧
        req.fecha ≠ "") ∧
      env.isValidDate req.fecha = true ∧ emailRejected env req = false ∧
      env.isPastDate req.fecha = false ∧
      getServiceInfoById store servicio = some serviceInfo ∧
      checkAvailability store.turnos serviceInfo.id_usuario req.fecha hora
        (storedTime (toTimeString5 (dateOf hora + orDefault (some serviceInfo.duracion) 30)))
        none = true ∧
      env.findOrCreateByPhone store.clientes (clientDataOf req) = (clientes, some client) ∧
      generateCancelCode store.turnos env.randomCodes = some codigo ∧
      createBooking env store req =
        ({ store with
            turnos := store.turnos ++
              [{ id := nextId store.turnos
                 id_usuario := serviceInfo.id_usuario
                 fecha := req.fecha
                 hora_inicio := { hora with secs := true }
                 hora_fin := storedTime
                   (toTimeString5 (dateOf hora + orDefault (some serviceInfo.duracion) 30))
                 estado := Estado.reservado
                 id_cliente := client.id
                 id_servicio := serviceInfo.id
                 codigo_cancelacion := codigo }]
            clientes := incrementVisits clientes client.id },
          some ⟨201, true, "Reserva creada exitosamente",
            some { appointment_id := nextId store.turnos
                   confirmationCode := codigo
                   fecha := req.fecha
                   hora_inicio := hora
                   hora_fin :=
                     toTimeString5 (dateOf hora + orDefault (some serviceInfo.duracion) 30) }⟩) := by
  have hfail : ∀ (s : Store) (o : Option BookingResponse), s.turnos = store.turnos →
      (∀ r, o = some r → r.status ≠ 201) →
      ((s, o).1.turnos = store.turnos ∧ ∀ r, (s, o).2 = some r → r.status ≠ 201) :=
    fun s o h1 h2 => ⟨h1, h2⟩
  unfold createBooking
  split
  · rename_i servicio hora hs hh
    split
    · exact Or.inl (hfail _ _ rfl (by intro r h; cases h; decide))
    · rename_i hreq
      split
      · exact Or.inl (hfail _ _ rfl (by intro r h; cases h; decide))
      · rename_i hdate
        split
        · exact Or.inl (hfail _ _ rfl (by intro r h; cases h; decide))
        · rename_i hemail
          split
          · exact Or.inl (hfail _ _ rfl (by intro r h; cases h; decide))
          · rename_i hpast
            split
            · exact Or.inl (hfail _ _ rfl (by intro r h; cases h; decide))
            · rename_i serviceInfo hserv
              dsimp only
              split
              · exact Or.inl (hfail _ _ rfl (by intro r h; cases h; decide))
              · rename_i hav
                split
                · exact Or.inl (hfail _ _ rfl (by intro r h; cases h; decide))
                · rename_i clientes client hcl
                  split
                  · exact Or.inl (hfail _ _ rfl (by intro r h; cases h))
                  · rename_i codigo hcod
                    refine Or.inr ⟨servicio, hora, serviceInfo, clientes, client, codigo, hs, hh,
                      ?_, ?_, ?_, ?_, hserv, ?_, hcl, hcod, rfl⟩
                    · simp only [not_or] at hreq
                      exact ⟨hreq.1, hreq.2.1, hreq.2.2.1, hreq.2.2.2.1, hreq.2.2.2.2⟩
                    · simpa using hdate
                    · simpa using hemail
                    · simpa using hpast
                    · simpa using hav
  · exact Or.inl (hfail _ _ rfl (by intro r h; cases h; decide))

theorem generateCancelCode_fresh (turnos : List Turno) (randomCodes : List String)
    (codigo : String) (h : generateCancelCode turnos randomCodes = some codigo) :
    ∀ t ∈ turnos, t.codigo_cancelacion ≠ codigo := by
  unfold generateCancelCode at h
  have hp := List.find?_some h
  simp only [beq_iff_eq, List.length_eq_zero, List.filter_eq_nil_iff] at hp
  intro t ht
  exact hp t ht

theorem createBooking_keeps_codigosDistintos (env : BookingEnv) (store : Store)
    (req : BookingRequest) (h : codigosDistintos store.turnos) :
    codigosDistintos (createBooking env store req).1.turnos := by
  rcases createBooking_cases env store req with ⟨h1, _⟩ |
    ⟨servicio, hora, serviceInfo, clientes, client, codigo, _, _, _, _, _, _, _, _, _, hcod, heq⟩
  · rw [h1]; exact h
  · rw [heq]
    unfold codigosDistintos at h ⊢
    simp only [List.map_append, List.map_cons, List.map_nil]
    rw [List.nodup_append]
    refine ⟨h, List.nodup_singleton _, ?_⟩
    intro c hc hc'
    simp only [List.mem_singleton] at hc'
    subst hc'
    obtain ⟨t, ht, rfl⟩ := List.mem_map.1 hc
    exact generateCancelCode_fresh _ _ _ hcod t ht rfl

/-- C21 at the failing input: service 7 has the duration 30 and the price 100.  The
dashboard `createAppointment` and `updateAppointment` for service 7 at 10:30 store
`hora_fin` 12:10, one hundred minutes after `hora_inicio`: the second argument they
give to `calcularHoraFin` is the price of the service; with the duration the end would
be 11:00. -/
theorem dashboard_end_from_price :
    (createAppointment "XYZ789" tiendaPrecio 1 cuerpoDiezTreinta).2.status = 201 ∧
    (createAppointment "XYZ789" tiendaPrecio 1 cuerpoDiezTreinta).1.turnos =
      tiendaPrecio.turnos ++
        [{ id := 2, id_usuario := 1, fecha := "2024-12-16", hora_inicio := ⟨10, 30, true⟩,
           hora_fin := ⟨12, 10, true⟩, estado := Estado.reservado, id_cliente := 1,
           id_servicio := 7, codigo_cancelacion := "XYZ789" }] ∧
    (updateAppointment tiendaPrecio 1 1 cuerpoDiezTreinta).2.status = 200 ∧
    (updateAppointment tiendaPrecio 1 1 cuerpoDiezTreinta).1.turnos =
      [{ id := 1, id_usuario := 1, fecha := "2024-12-16", hora_inicio := ⟨10, 30, true⟩,
         hora_fin := ⟨12, 10, true⟩, estado := Estado.reservado, id_cliente := 1,
         id_servicio := 7, codigo_cancelacion := "ABC123" }] ∧
    storedTime (calcularHoraFin ⟨10, 30, false⟩ 30) = ⟨11, 0, true⟩ := by
  decide

/-- C24 at the failing input.  `createBooking` keeps the cancellation codes distinct: the
code it stores comes out of the retry loop of `generateCancelCode` and no existing row
carries it.  The dashboard `createAppointment` stores the one value of
`generarCodigoCancelacion()` without looking it up: when that value is ABC123 and an
appointment already carries ABC123, it answers 201 and two rows share the code. -/
theorem dashboard_code_not_checked :
    (∀ (env : BookingEnv) (store : Store) (req : BookingRequest),
      codigosDistintos store.turnos → codigosDistintos (createBooking env store req).1.turnos) ∧
    codigosDistintos tiendaPrecio.turnos ∧
    (createAppointment "ABC123" tiendaPrecio 1 cuerpoDiezTreinta).2 =
      ⟨201, true, "Cita creada exitosamente", some 2, some "ABC123"⟩ ∧
    (createAppointment "ABC123" tiendaPrecio 1 cuerpoDiezTreinta).1.turnos.map
      (fun t => t.codigo_cancelacion) = ["ABC123", "ABC123"] ∧
    ¬ codigosDistintos (createAppointment "ABC123" tiendaPrecio 1 cuerpoDiezTreinta).1.turnos :=
  ⟨createBooking_keeps_codigosDistintos, by decide, by decide, by decide, by decide⟩

theorem dashboard_code_not_checked_witness :
    codigosDistintos tiendaPrecio.turnos ∧
    codigosDistintos
      (createBooking entornoAbierto tiendaPrecio (pedido ⟨11, 5, false⟩)).1.turnos :=
  ⟨by decide,
    dashboard_code_not_checked.1 entornoAbierto tiendaPrecio (pedido ⟨11, 5, false⟩)
      (by decide)⟩

/-! ## Properties of the status changes -/

theorem findTurno_mem (store : Store) (id userId : Nat) (turno : Turno)
    (h : findTurno store id userId = some turno) :
    turno ∈ store.turnos ∧ turno.id = id ∧ turno.id_usuario = userId := by
  unfold findTurno at h
  have hm := List.mem_of_mem_head? h
  rw [List.mem_filter] at hm
  simp only [Bool.and_eq_true, beq_iff_eq] at hm
  exact ⟨hm.1, hm.2.1, hm.2.2⟩

theorem turno_eq_of_id (turnos : List Turno) (hn : (turnos.map fun t => t.id).Nodup)
    (t1 t2 : Turno) (h1 : t1 ∈ turnos) (h2 : t2 ∈ turnos) (h : t1.id = t2.id) : t1 = t2 :=
  List.inj_on_of_nodup_map hn h1 h2 h

theorem setEstado_keeps (store : Store) (id userId : Nat) (estado : Estado) (turno : Turno)
    (hn : (store.turnos.map fun t => t.id).Nodup)
    (hf : findTurno store id userId = some turno) (t : Turno) (ht : t ∈ store.turnos)
    (hne : t.estado ≠ turno.estado) : t ∈ (setEstado store id userId estado).turnos := by
  obtain ⟨hm, hid, _⟩ := findTurno_mem store id userId turno hf
  unfold setEstado
  simp only [List.mem_map]
  refine ⟨t, ht, ?_⟩
  rw [if_neg]
  rintro ⟨h1, _⟩
  apply hne
  rw [turno_eq_of_id store.turnos hn t turno ht hm (by rw [h1, hid])]

/-- C22, as stated, fails: `updateAppointmentStatus` sets the requested state whatever
the current one is (the appointment 1, completado, becomes reservado), and
`confirmAppointment` refuses only an appointment that is already confirmado (the
appointment 2, cancelado, becomes confirmado). -/
theorem terminal_state_changed :
    (tiendaEstados.turnos.map fun t => (t.id, t.estado)) =
      [(1, Estado.completado), (2, Estado.cancelado), (3, Estado.confirmado),
        (4, Estado.reservado)] ∧
    (updateAppointmentStatus tiendaEstados 1 1 (some Estado.reservado)).2.status = 200 ∧
    ((updateAppointmentStatus tiendaEstados 1 1 (some Estado.reservado)).1.turnos.map
      fun t => (t.id, t.estado)) =
      [(1, Estado.reservado), (2, Estado.cancelado), (3, Estado.confirmado),
        (4, Estado.reservado)] ∧
    (confirmAppointment tiendaEstados 1 2).2.status = 200 ∧
    ((confirmAppointment tiendaEstados 1 2).1.turnos.map fun t => (t.id, t.estado)) =
      [(1, Estado.completado), (2, Estado.confirmado), (3, Estado.confirmado),
        (4, Estado.reservado)] := by
  decide

/-- C22 (as the code has it): with the ids of `turnos` distinct, `cancelAppointment`,
`completeAppointment`, `Appointment.cancelByCode` and `autoCompleteAppointments` leave
every appointment that is completado or cancelado as it is; `updateAppointmentStatus`
sets, for an appointment of the user, whichever of the six states is requested. -/
theorem guarded_operations_keep_terminal (store : Store)
    (hn : (store.turnos.map fun t => t.id).Nodup) (t : Turno) (ht : t ∈ store.turnos)
    (hterm : t.estado = Estado.completado ∨ t.estado = Estado.cancelado) :
    (∀ userId id : Nat, t ∈ (cancelAppointment store userId id).1.turnos) ∧
    (∀ userId id : Nat, t ∈ (completeAppointment store userId id).1.turnos) ∧
    (∀ codigo : String, t ∈ (cancelByCode store codigo).1.turnos) ∧
    (∀ (cache : AppointmentCache) (ahora : Instante),
      t ∈ (autoCompleteAppointments cache store ahora).2.1.turnos) ∧
    (∀ (userId id : Nat) (estado : Estado) (turno : Turno),
      findTurno store id userId = some turno →
      (updateAppointmentStatus store userId id (some estado)).1 =
        setEstado store id userId estado) := by
  refine ⟨?_, ?_, ?_, ?_, ?_⟩
  · intro userId id
    unfold cancelAppointment
    split
    · exact ht
    · rename_i turno hf
      split
      · exact ht
      · split
        · exact ht
        · rename_i h1 h2
          apply setEstado_keeps store id userId _ turno hn hf t ht
          rcases hterm with h | h <;> rw [h] <;> intro hc
          · exact h2 hc.symm
          · exact h1 hc.symm
  · intro userId id
    unfold completeAppointment
    split
    · exact ht
    · rename_i turno hf
      split
      · exact ht
      · split
        · exact ht
        · rename_i h1 h2
          apply setEstado_keeps store id userId _ turno hn hf t ht
          rcases hterm with h | h <;> rw [h] <;> intro hc
          · exact h1 hc.symm
          · exact h2 hc.symm
  · intro codigo
    have hkeep : t ∈ store.turnos.map fun t =>
        if (t.codigo_cancelacion == codigo &&
          (t.estado == Estado.reservado || t.estado == Estado.confirmado)) = true then
          { t with estado := Estado.cancelado } else t := by
      simp only [List.mem_map]
      refine ⟨t, ht, ?_⟩
      rw [if_neg]
      rcases hterm with h | h <;> simp [h]
    unfold cancelByCode
    dsimp only
    split
    · exact hkeep
    · exact hkeep
  · intro cache ahora
    unfold autoCompleteAppointments
    split
    · exact ht
    · dsimp only
      split
      · exact ht
      · simp only [List.mem_map]
        refine ⟨t, ht, ?_⟩
        rw [if_neg]
        intro hmem
        obtain ⟨s, hs, hid⟩ := hmem
        have hs1 := List.mem_of_mem_take hs
        rw [(List.perm_insertionSort _ _).mem_iff, List.mem_filter] at hs1
        have heq := turno_eq_of_id store.turnos hn s t hs1.1 ht hid
        have hp := hs1.2
        rw [heq] at hp
        unfold autoCompleteCondition at hp
        rcases hterm with h | h <;> simp [h, inPendingStates] at hp
  · intro userId id estado turno hf
    unfold updateAppointmentStatus
    dsimp only
    rw [if_neg]
    unfold findTurno at hf
    intro hlen
    rw [List.length_eq_zero] at hlen
    rw [hlen] at hf
    simp at hf

theorem guarded_operations_keep_terminal_witness :
    ((tiendaEstados.turnos.map fun t => t.id).Nodup ∧
      turnoCompletado ∈ tiendaEstados.turnos ∧
      turnoCompletado.estado = Estado.completado) ∧
    turnoCompletado ∈ (cancelAppointment tiendaEstados 1 1).1.turnos ∧
    turnoCompletado ∈
      (autoCompleteAppointments ⟨none, 0⟩ tiendaEstados lunesNueve).2.1.turnos :=
  ⟨by decide,
    (guarded_operations_keep_terminal tiendaEstados (by decide) turnoCompletado
      (by decide) (Or.inl (by decide))).1 1 1,
    (guarded_operations_keep_terminal tiendaEstados (by decide) turnoCompletado
      (by decide) (Or.inl (by decide))).2.2.2.1 ⟨none, 0⟩ lunesNueve⟩

/-- C23: for an appointment of the user, `cancelAppointment` on a completado or an
already cancelado appointment and `completeAppointment` on a cancelado or an already
completado appointment answer 400 with success = false, and the tables, the state of
the appointment with them, are unchanged. -/
theorem cancel_complete_refuse_terminal (store : Store) (userId id : Nat) (turno : Turno)
    (hf : findTurno store id userId = some turno) :
    (turno.estado = Estado.completado →
      cancelAppointment store userId id =
        (store, ⟨400, false, "No se puede cancelar un turno completado", none, none⟩)) ∧
    (turno.estado = Estado.cancelado →
      cancelAppointment store userId id =
        (store, ⟨400, false, "El turno ya está cancelado", none, none⟩)) ∧
    (turno.estado = Estado.cancelado →
      completeAppointment store userId id =
        (store, ⟨400, false, "No se puede completar un turno cancelado", none, none⟩)) ∧
    (turno.estado = Estado.completado →
      completeAppointment store userId id =
        (store, ⟨400, false, "El turno ya está completado", none, none⟩)) := by
  refine ⟨?_, ?_, ?_, ?_⟩ <;> intro h <;>
    simp [cancelAppointment, completeAppointment, hf, h]

theorem cancel_complete_refuse_terminal_witness :
    (findTurno tiendaEstados 1 1 = some turnoCompletado ∧
      turnoCompletado.estado = Estado.completado) ∧
    cancelAppointment tiendaEstados 1 1 =
      (tiendaEstados, ⟨400, false, "No se puede cancelar un turno completado", none, none⟩) ∧
    completeAppointment tiendaEstados 1 1 =
      (tiendaEstados, ⟨400, false, "El turno ya está completado", none, none⟩) :=
  ⟨by decide,
    (cancel_complete_refuse_terminal tiendaEstados 1 1 turnoCompletado
      (by decide)).1 (by decide),
    (cancel_complete_refuse_terminal tiendaEstados 1 1 turnoCompletado
      (by decide)).2.2.2 (by decide)⟩

/-- C25 at the failing input: the appointment 3 is confirmado and ended on 2024-12-15 at
18:00:00; at the instant 2024-12-16 09:00:00 its end lies strictly before the current
date and time, yet `shouldAutoComplete` reports false and `autoCompleteAppointments`
does not select it, because the time of day 18:00:00 is not before 09:00:00.  The
appointment 4 of 2024-12-16 ending 08:30:00 is reported and completed. -/
theorem autoComplete_misses_earlier_day :
    ((tiendaEstados.turnos.filter fun t => t.id == 3).map
      fun t => (t.fecha, t.hora_fin, t.estado)) =
      [("2024-12-15", ⟨18, 0, true⟩, Estado.confirmado)] ∧
    strLt (unitsOf "2024-12-15") (unitsOf lunesNueve.currentDateStr) = true ∧
    toTimeString8 lunesNueve.segundos = Hora.str ⟨9, 0, true⟩ ∧
    shouldAutoComplete tiendaEstados lunesNueve 3 = false ∧
    shouldAutoComplete tiendaEstados lunesNueve 4 = true ∧
    (autoCompleteAppointments ⟨none, 0⟩ tiendaEstados lunesNueve).2.2.appointments.map
      (fun t => t.id) = [4] ∧
    ((autoCompleteAppointments ⟨none, 0⟩ tiendaEstados lunesNueve).2.1.turnos.map
      fun t => (t.id, t.estado)) =
      [(1, Estado.completado), (2, Estado.cancelado), (3, Estado.confirmado),
        (4, Estado.completado)] := by
  decide

/-! ## Requests served together and the checks of createBooking -/

theorem createBooking_eq_phases (env : BookingEnv) (store : Store) (req : BookingRequest) :
    createBooking env store req =
      match createBookingCheck env store req with
      | .error r => (store, some r)
      | .ok c => createBookingWrite env store c := by
  unfold createBooking createBookingCheck
  split
  · split
    · rfl
    · split
      · rfl
      · split
        · rfl
        · split
          · rfl
          · split
            · rfl
            · have hd : ¬(!env.isValidDate req.fecha) = true := by assumption
              dsimp only
              split
              · rfl
              · unfold createBookingWrite
                simp only [if_neg hd]
  · rfl

/-- C26, as stated, fails: two requests of Luis Rey for service 7 on 2024-12-16 at 09:00,
served together so that both get the answer of `Appointment.checkAvailability` before
either inserts, are both answered 201, and the table then holds two reserved
appointments of barber 1 for 09:00-09:30 on that date. -/
theorem createBooking_both_succeed :
    noDoubleBooking tiendaConTurno.turnos ∧
    ((createBookingInterleaved entornoAbierto entornoSegundo tiendaConTurno
      (pedido ⟨9, 0, false⟩) (pedido ⟨9, 0, false⟩)).2.1.map fun r => (r.status, r.success)) =
      some (201, true) ∧
    ((createBookingInterleaved entornoAbierto entornoSegundo tiendaConTurno
      (pedido ⟨9, 0, false⟩) (pedido ⟨9, 0, false⟩)).2.2.map fun r => (r.status, r.success)) =
      some (201, true) ∧
    ((createBookingInterleaved entornoAbierto entornoSegundo tiendaConTurno
      (pedido ⟨9, 0, false⟩) (pedido ⟨9, 0, false⟩)).1.turnos.map
        fun t => (t.id, t.id_usuario, t.fecha, t.hora_inicio, t.hora_fin, t.estado)) =
      [(1, 1, "2024-12-16", ⟨10, 5, true⟩, ⟨11, 5, true⟩, Estado.reservado),
        (2, 1, "2024-12-16", ⟨9, 0, true⟩, ⟨9, 30, true⟩, Estado.reservado),
        (3, 1, "2024-12-16", ⟨9, 0, true⟩, ⟨9, 30, true⟩, Estado.reservado)] ∧
    ¬ noDoubleBooking (createBookingInterleaved entornoAbierto entornoSegundo tiendaConTurno
      (pedido ⟨9, 0, false⟩) (pedido ⟨9, 0, false⟩)).1.turnos := by
  refine ⟨by decide, by decide, by decide, by decide, by decide⟩

/-- C26 (as the code has it): when two requests are served one after the other, the
first being answered 201, a second request for the same service, date and `hora` that
passes the validations before the re-check is answered 400 with the message
'El horario seleccionado no está disponible' and changes nothing, provided the window
ends before midnight. -/
theorem createBooking_second_in_sequence_refused (env1 env2 : BookingEnv) (store : Store)
    (req1 req2 : BookingRequest) (servicio : Nat) (hora : Hora) (serviceInfo : Servicio)
    (r1 : BookingResponse)
    (h1 : (createBooking env1 store req1).2 = some r1) (h201 : r1.status = 201)
    (hs1 : req1.servicio = some servicio) (hh1 : req1.hora = some hora)
    (hs2 : req2.servicio = some servicio) (hh2 : req2.hora = some hora)
    (hf : req2.fecha = req1.fecha)
    (hreq : req2.nombre ≠ "" ∧ req2.apellido ≠ "" ∧ req2.telefono ≠ "" ∧ servicio ≠ 0 ∧
      req2.fecha ≠ "")
    (hdate : env2.isValidDate req2.fecha = true)
    (hemail : ∀ email, req2.email = some email → email ≠ "" → env2.isValidEmail email = true)
    (hpast : env2.isPastDate req2.fecha = false)
    (hserv : getServiceInfoById store servicio = some serviceInfo)
    (hday : dateOf hora + orDefault (some serviceInfo.duracion) 30 < 1440) :
    createBooking env2 (createBooking env1 store req1).1 req2 =
      ((createBooking env1 store req1).1,
        some ⟨400, false, "El horario seleccionado no está disponible", none⟩) := by
  rcases createBooking_cases env1 store req1 with ⟨_, hno⟩ |
    ⟨servicio1, hora1, serviceInfo1, clientes, client, codigo, e1, e2, _, _, _, _, e3, _, _, _,
      hres⟩
  · exact absurd h201 (hno r1 h1)
  · rw [hs1] at e1
    rw [hh1] at e2
    cases e1
    cases e2
    rw [hserv] at e3
    cases e3
    rw [hres]
    apply createBooking_refuses_overlap env2 _ req2 servicio hora serviceInfo hs2 hh2 hreq
      hdate hemail hpast
    · exact hserv
    · refine ⟨_, List.mem_append_right _ (List.mem_singleton_self _), rfl, hf.symm, rfl, ?_⟩
      dsimp only
      rw [dateOf_storedTime, Nat.mod_eq_of_lt hday]
      have hpos := orDefault_pos30 (some serviceInfo.duracion)
      unfold overlaps dateOf
      unfold dateOf at hday
      dsimp only
      omega

theorem createBooking_second_in_sequence_refused_witness :
    ((createBooking entornoAbierto tiendaConTurno (pedido ⟨9, 0, false⟩)).2.map
        (fun r => r.status) = some 201 ∧
      getServiceInfoById tiendaConTurno 7 = some ⟨7, 1, 30, 30, "activo"⟩ ∧
      dateOf ⟨9, 0, false⟩ + orDefault (some 30) 30 < 1440) ∧
    createBooking entornoSegundo
        (createBooking entornoAbierto tiendaConTurno (pedido ⟨9, 0, false⟩)).1
        (pedido ⟨9, 0, false⟩) =
      ((createBooking entornoAbierto tiendaConTurno (pedido ⟨9, 0, false⟩)).1,
        some ⟨400, false, "El horario seleccionado no está disponible", none⟩) :=
  ⟨by decide,
    createBooking_second_in_sequence_refused entornoAbierto entornoSegundo tiendaConTurno
      (pedido ⟨9, 0, false⟩) (pedido ⟨9, 0, false⟩) 7 ⟨9, 0, false⟩ ⟨7, 1, 30, 30, "activo"⟩
      ⟨201, true, "Reserva creada exitosamente",
        some ⟨2, "K3X9QZ", "2024-12-16", ⟨9, 0, false⟩, toTimeString5 570⟩⟩
      (by decide) rfl rfl rfl rfl rfl rfl (by decide) rfl (by intro email h; cases h) rfl
      (by decide) (by decide)⟩

/-- C28, as stated, fails: `createBooking` answers 201 for 20:00 on a Monday on which
barber 1 works 09:00-12:00 only, a start `getAvailableSlots` does not list, and answers
201 for 09:00 on a date recorded as a holiday of the barber, for which
`getAvailableSlots` lists nothing. -/
theorem createBooking_outside_listed_slots :
    getWorkingHours tiendaConTurno 1 (getDayOfWeek (unitsOf "2024-12-16")) = [bloqueManana] ∧
    ((createBooking entornoAbierto tiendaConTurno (pedido ⟨20, 0, false⟩)).2.map
      fun r => (r.status, r.success)) = some (201, true) ∧
    toTimeString5 (dateOf ⟨20, 0, false⟩) ∉
      (getAvailableSlots tiendaConTurno ⟨some "2024-12-16", some 7, none, none⟩).data.map
        (fun s => s.hora_inicio) ∧
    (checkSpecialDay tiendaTurnoFeriado 1 "2024-12-16").isSome = true ∧
    ((createBooking entornoAbierto tiendaTurnoFeriado (pedido ⟨9, 0, false⟩)).2.map
      fun r => (r.status, r.success)) = some (201, true) ∧
    (getAvailableSlots tiendaTurnoFeriado ⟨some "2024-12-16", some 7, none, none⟩).data = [] := by
  refine ⟨by decide, by decide, by decide, by decide, by decide, by decide⟩

/-- C28 (as the code has it): whenever `createBooking` answers 201, the request names an
active service and a date the validators accept, and no occupied appointment of the
service's barber on that date overlaps the window from `hora` to the time of day that
lies the service duration (30 when the service has none) after `hora`; when `hora` plus
the duration is before midnight, that is the window from `hora` to `hora` plus the
duration. -/
theorem createBooking_success_checks (env : BookingEnv) (store : Store)
    (req : BookingRequest) (r : BookingResponse)
    (h : (createBooking env store req).2 = some r) (h201 : r.status = 201) :
    ∃ (servicio : Nat) (hora : Hora) (serviceInfo : Servicio),
      req.servicio = some servicio ∧ req.hora = some hora ∧
      getServiceInfoById store servicio = some serviceInfo ∧
      env.isValidDate req.fecha = true ∧ env.isPastDate req.fecha = false ∧
      (∀ t ∈ store.turnos, t.id_usuario = serviceInfo.id_usuario → t.fecha = req.fecha →
        notInTerminal t.estado = true →
        ¬ overlaps (dateOf hora)
          ((dateOf hora + orDefault (some serviceInfo.duracion) 30) % 1440)
          (dateOf t.hora_inicio) (dateOf t.hora_fin)) ∧
      (dateOf hora + orDefault (some serviceInfo.duracion) 30 < 1440 →
        ∀ t ∈ store.turnos, t.id_usuario = serviceInfo.id_usuario → t.fecha = req.fecha →
          notInTerminal t.estado = true →
          ¬ overlaps (dateOf hora) (dateOf hora + orDefault (some serviceInfo.duracion) 30)
            (dateOf t.hora_inicio) (dateOf t.hora_fin)) := by
  rcases createBooking_cases env store req with ⟨_, hno⟩ |
    ⟨servicio, hora, serviceInfo, clientes, client, codigo, e1, e2, _, e4, _, e6, e3, hav, _, _,
      _⟩
  · exact absurd h201 (hno r h)
  · have key : ∀ t ∈ store.turnos, t.id_usuario = serviceInfo.id_usuario →
        t.fecha = req.fecha → notInTerminal t.estado = true →
        ¬ overlaps (dateOf hora)
          ((dateOf hora + orDefault (some serviceInfo.duracion) 30) % 1440)
          (dateOf t.hora_inicio) (dateOf t.hora_fin) := by
      intro t ht ht1 ht2 ht3
      have hno := checkAvailability_true_no_overlap _ _ _ _ _ hav t ht ht1 ht2 ht3
      rw [dateOf_storedTime] at hno
      exact hno
    refine ⟨servicio, hora, serviceInfo, e1, e2, e3, e4, e6, key, ?_⟩
    intro hday t ht ht1 ht2 ht3
    have hk := key t ht ht1 ht2 ht3
    rw [Nat.mod_eq_of_lt hday] at hk
    exact hk

theorem createBooking_success_checks_witness :
    ((createBooking entornoAbierto tiendaConTurno (pedido ⟨20, 0, false⟩)).2.map
        (fun r => r.status) = some 201) ∧
    ∃ (servicio : Nat) (hora : Hora) (serviceInfo : Servicio),
      (pedido ⟨20, 0, false⟩).servicio = some servicio ∧
      (pedido ⟨20, 0, false⟩).hora = some hora ∧
      getServiceInfoById tiendaConTurno servicio = some serviceInfo ∧
      entornoAbierto.isValidDate (pedido ⟨20, 0, false⟩).fecha = true ∧
      entornoAbierto.isPastDate (pedido ⟨20, 0, false⟩).fecha = false ∧
      (∀ t ∈ tiendaConTurno.turnos, t.id_usuario = serviceInfo.id_usuario →
        t.fecha = (pedido ⟨20, 0, false⟩).fecha →
        notInTerminal t.estado = true →
        ¬ overlaps (dateOf hora)
          ((dateOf hora + orDefault (some serviceInfo.duracion) 30) % 1440)
          (dateOf t.hora_inicio) (dateOf t.hora_fin)) ∧
      (dateOf hora + orDefault (some serviceInfo.duracion) 30 < 1440 →
        ∀ t ∈ tiendaConTurno.turnos, t.id_usuario = serviceInfo.id_usuario →
          t.fecha = (pedido ⟨20, 0, false⟩).fecha →
          notInTerminal t.estado = true →
          ¬ overlaps (dateOf hora) (dateOf hora + orDefault (some serviceInfo.duracion) 30)
            (dateOf t.hora_inicio) (dateOf t.hora_fin)) :=
  ⟨by decide,
    createBooking_success_checks entornoAbierto tiendaConTurno (pedido ⟨20, 0, false⟩)
      ⟨201, true, "Reserva creada exitosamente",
        some ⟨2, "K3X9QZ", "2024-12-16", ⟨20, 0, false⟩, toTimeString5 1230⟩⟩
      (by decide) rfl⟩

/-! ## Properties of Client.findOrCreateByPhone -/

/-- C30 at the failing input: the client 1, Luis Rey, is stored with the phone
1122334455 and no email; `findOrCreateByPhone` is called with the same name, the phone
"11 2233-4455" and an email.  The client is found, the email differs, and
`Client.update` runs with `undefined` bound for `telefono`: when the statement fails no
client is returned, and when the parameter is sent as NULL the stored `telefono` of the
client 1 becomes NULL.  Called without an email, nothing differs, the client 1 is
returned and the table is unchanged. -/
theorem findOrCreateByPhone_update_drops_phone :
    tiendaConTurno.clientes = [⟨1, "Luis", "Rey", none, some "1122334455", none, none, 0⟩] ∧
    Client.findByPhone tiendaConTurno.clientes (cleanPhoneOf "11 2233-4455") =
      some ⟨1, "Luis", "Rey", none, some "1122334455", none, none, 0⟩ ∧
    findOrCreateByPhone UndefinedBind.rejects tiendaConTurno.clientes
      (datosLuis (some "luis@rey.com")) = (tiendaConTurno.clientes, none) ∧
    findOrCreateByPhone UndefinedBind.asNull tiendaConTurno.clientes
      (datosLuis (some "luis@rey.com")) =
      ([⟨1, "Luis", "Rey", some "luis@rey.com", none, none, none, 0⟩],
        some ⟨1, "Luis", "Rey", some "luis@rey.com", none, none, none, 0⟩) ∧
    (∀ bind : UndefinedBind,
      findOrCreateByPhone bind tiendaConTurno.clientes (datosLuis none) =
        (tiendaConTurno.clientes,
          some ⟨1, "Luis", "Rey", none, some "1122334455", none, none, 0⟩)) := by
  refine ⟨by decide, by decide, by decide, by decide, ?_⟩
  intro bind
  cases bind <;> decide

end Barberos
